import Mathlib

/-!
# Centreon broker: SQL persister (`broker/unified_sql/src/stream_sql.cc`)

Shallow embedding of the event handlers of `unified_sql::stream`.

* A handler is a function `State → State`.  The state holds the in-memory
  caches of the stream and `out`, the list of observable effects in the order
  the handler produced them (statements handed to a connection, action tags,
  action barriers, commits, published events, timer operations).
* Database answers that a handler waits for (`future.get()`) are arguments of
  the handler: `none` stands for the exception thrown by `get()`.
* `time(nullptr)` is the argument `now`.
* Preparing a statement (`prepare_query`, `query_preparator`) and logging run
  no statement and are left out.
* Identifiers are natural numbers; where the source narrows an identifier to
  `uint32_t` (a `static_cast` or a `uint32_t` parameter) the model applies
  `u32`.  Times are signed (`time_t`, `int64`) and are integers.  Values stored
  in a cache are kept as the event gives them.
* `m[k]` on a map inserts a default entry when `k` is absent (`cache_subscript`);
  `m.insert` keeps an existing entry (`cache_insert`).
* A handler that dereferences `end()` of a map sets `deref_end` and stops; a
  handler left by an exception sets `thrown` and stops.
* Functions and constants defined outside the translated file (`std::hash`,
  the choice of a connection, string truncation and escaping, column sizes)
  are fields of `Env`.
* A `std::set` is kept as its membership test, a staging queue as the list of
  its rows, oldest first.

The storage stream of `centreon-broker/storage/src/stream.cc` follows in
namespace `Storage`, the statistics worker in `Stats`, the RRD module in
`Rrd`, the retention functions of the engine in `Retention`, the feeder
thread in `Feeder` and the time period exclusions in `Timeperiodexclusion`.
The definitions of all namespaces come first, the theorems after them.
-/

namespace UnifiedSql

/-- Conversion of an unsigned value to `uint32_t`. -/
def u32 (x : Nat) : Nat := x % 4294967296

/-- Families of `actions` used to tag a connection. -/
inductive actions
  | acknowledgements
  | comments
  | custom_variables
  | downtimes
  | host_dependencies
  | host_parents
  | hostgroups
  | hosts
  | instances
  | modules
  | service_dependencies
  | servicegroups
  | services
  | index_data
  | metrics
  | severities
  | tags
  | resources
  | resources_tags
  deriving DecidableEq, Repr

/-- Second argument of `_finish_action`: `-1` (every family) or an or-ed list of families. -/
inductive Mask
  | all
  | of (l : List actions)
  deriving DecidableEq, Repr

/-- Values of `HostStatus::CheckType`. -/
inductive CheckType
  | ACTIVE
  | PASSIVE
  deriving DecidableEq, Repr

/-- Fields of the protobuf `HostStatus` message read by the control flow of
`_process_pb_host_status`, with the payload fields bound to the statements. -/
structure HostStatus where
  host_id : Nat
  check_type : CheckType
  next_check : Int
  last_check : Int
  state : Nat
  state_type : Nat
  output : String
  perfdata : String
  deriving DecidableEq, Repr

/-- Fields of the legacy `neb::host_status` event. -/
structure host_status where
  host_id : Nat
  check_type : Int
  active_checks_enabled : Bool
  next_check : Int
  last_check : Int
  current_state : Int
  state_type : Int
  deriving DecidableEq, Repr

/-- Fields of the legacy `neb::host_check` event. -/
structure host_check where
  host_id : Nat
  check_type : Int
  active_checks_enabled : Bool
  next_check : Int
  command_line : String
  deriving DecidableEq, Repr

/-- Fields of the legacy `neb::host` event. -/
structure host where
  poller_id : Nat
  host_id : Nat
  host_name : String
  alias_ : String
  enabled : Bool
  deriving DecidableEq, Repr

/-- Fields of the legacy `neb::instance` event. -/
structure instance_ev where
  poller_id : Nat
  name : String
  is_running : Bool
  deriving DecidableEq, Repr

/-- Fields of the protobuf `TagInfo` message. -/
structure TagInfo where
  id : Nat
  type : Nat
  deriving DecidableEq, Repr

/-- Fields of the protobuf `Host` message read by the control flow of
`_process_pb_host`, with some of the payload fields bound to the statements. -/
structure Host where
  host_id : Nat
  instance_id : Nat
  name : String
  alias_ : String
  enabled : Bool
  severity_id : Nat
  tags : List TagInfo
  state : Nat
  deriving DecidableEq, Repr

/-- Fields of the protobuf `Service` message read by the control flow of
`_process_pb_service` and `_check_and_update_index_cache`, with some of the
payload fields bound to the statements. -/
structure Service where
  host_id : Nat
  service_id : Nat
  host_name : String
  description : String
  display_name : String
  type : Nat
  check_interval : Nat
  enabled : Bool
  severity_id : Nat
  tags : List TagInfo
  state : Nat
  deriving DecidableEq, Repr

/-- Value type `index_info` of `_index_cache`. -/
structure index_info where
  index_id : Nat
  host_name : String
  service_description : String
  rrd_retention : Nat
  interval : Nat
  special : Bool
  locked : Bool
  deriving DecidableEq, Repr

/-- The protobuf `AdaptiveHost` message: `none` stands for an optional field
whose `has_X()` is false. -/
structure AdaptiveHost where
  host_id : Nat
  notify : Option Bool
  active_checks : Option Bool
  should_be_scheduled : Option Bool
  passive_checks : Option Bool
  event_handler_enabled : Option Bool
  flap_detection : Option Bool
  obsess_over_host : Option Bool
  event_handler : Option String
  check_command : Option String
  check_interval : Option Nat
  retry_interval : Option Nat
  max_check_attempts : Option Nat
  check_freshness : Option Bool
  check_period : Option String
  notification_period : Option String
  deriving DecidableEq, Repr

/-- Fields of the protobuf `Instance` message. -/
structure Instance where
  instance_id : Nat
  name : String
  running : Bool
  deriving DecidableEq, Repr

/-- Fields of the legacy `neb::service_status` event. -/
structure service_status where
  host_id : Nat
  service_id : Nat
  check_type : Int
  active_checks_enabled : Bool
  next_check : Int
  last_check : Int
  current_state : Int
  state_type : Int
  output : String
  perf_data : String
  deriving DecidableEq, Repr

/-- Fields of the protobuf `ServiceStatus` message read by the control flow of
`_process_pb_service_status`, with some of the payload fields bound to the
statements; `check_type` is a `ServiceStatus::CheckType`, with the same two
values as for hosts. -/
structure ServiceStatus where
  host_id : Nat
  service_id : Nat
  check_type : CheckType
  next_check : Int
  last_check : Int
  state : Nat
  state_type : Nat
  output : String
  perfdata : String
  deriving DecidableEq, Repr

/-- Fields of the legacy `neb::service_check` event. -/
structure service_check where
  host_id : Nat
  service_id : Nat
  check_type : Int
  active_checks_enabled : Bool
  next_check : Int
  command_line : String
  deriving DecidableEq, Repr

/-- Fields of the legacy `neb::acknowledgement` event. -/
structure acknowledgement where
  poller_id : Nat
  host_id : Nat
  service_id : Nat
  entry_time : Int
  deletion_time : Int
  author : String
  comment : String
  deriving DecidableEq, Repr

/-- Fields of the legacy `neb::comment` event. -/
structure comment where
  poller_id : Nat
  host_id : Nat
  service_id : Nat
  entry_time : Int
  internal_id : Nat
  author : String
  data : String
  deriving DecidableEq, Repr

/-- Fields of the protobuf `Comment` message. -/
structure Comment where
  instance_id : Nat
  host_id : Nat
  service_id : Nat
  entry_time : Int
  internal_id : Nat
  author : String
  data : String
  deriving DecidableEq, Repr

/-- Fields of the legacy `neb::host_group` event. -/
structure host_group where
  id : Nat
  name : String
  enabled : Bool
  poller_id : Nat
  deriving DecidableEq, Repr

/-- Fields of the legacy `neb::host_group_member` event. -/
structure host_group_member where
  host_id : Nat
  group_id : Nat
  group_name : String
  enabled : Bool
  poller_id : Nat
  deriving DecidableEq, Repr

/-- Values of `Severity::Action`; `other` stands for a value outside the
enumeration (the `default` label of the `switch`). -/
inductive Severity_Action
  | ADD
  | MODIFY
  | DELETE
  | other
  deriving DecidableEq, Repr

/-- Fields of the protobuf `Severity` message. -/
structure Severity where
  id : Nat
  type : Nat
  name : String
  level : Nat
  icon_id : Nat
  action : Severity_Action
  deriving DecidableEq, Repr

/-- Values of `Tag::Action`; `other` stands for a value outside the
enumeration (the `default` label of the `switch`). -/
inductive Tag_Action
  | ADD
  | MODIFY
  | DELETE
  | other
  deriving DecidableEq, Repr

/-- Fields of the protobuf `Tag` message. -/
structure Tag where
  id : Nat
  type : Nat
  name : String
  action : Tag_Action
  deriving DecidableEq, Repr

/-- Statements handed to `_mysql`: the text of a `run_query`, or a prepared
statement named after the member that holds it, with the values bound to it. -/
inductive Stmt
  | query (sql : String)
  | host_insupdate (h : host)
  | host_status_update (hs : host_status)
  | host_check_update (hc : host_check)
  | hscr_update (hscr : HostStatus)
  | hscr_resources_update (hscr : HostStatus)
  | instance_insupdate (i : instance_ev)
  | pb_instance_insupdate (inst : Instance)
  | pb_host_insupdate (h : Host)
  | resources_host_insert (h : Host) (poller_id : Nat) (sid : Nat)
  | resources_host_update (h : Host) (poller_id : Nat) (sid : Nat) (res_id : Nat)
  | resources_tags_remove (res_id : Nat)
  | resources_tags_insert (tag_id : Nat) (res_id : Nat)
  | tag_insert (id : Nat) (type : Nat) (name : String)
  | resources_disable (res_id : Nat)
  | pb_service_insupdate (s : Service)
  | resources_service_insert (s : Service) (poller_id : Nat) (sid : Nat)
  | resources_service_update (s : Service) (poller_id : Nat) (sid : Nat) (res_id : Nat)
  | index_data_insert (host_id : Nat) (hv : String) (service_id : Nat) (sv : String)
      (special : Bool)
  | index_data_query (host_id : Nat) (service_id : Nat)
  | index_data_update (hv : String) (sv : String) (special : Bool) (check_interval : Nat)
      (index_id : Nat)
  | service_status_update (ss : service_status)
  | sscr_update (sscr : ServiceStatus)
  | sscr_resources_update (sscr : ServiceStatus)
  | service_check_update (sc : service_check)
  | acknowledgement_insupdate (ack : acknowledgement)
  | comment_insupdate (c : comment)
  | pb_comment_insupdate (c : Comment)
  | host_group_insupdate (hg : host_group)
  | host_group_member_insert (hgm : host_group_member)
  | host_group_member_delete (hgm : host_group_member)
  | severity_update (sv : Severity) (severity_id : Nat)
  | severity_insert (sv : Severity)
  | custom_variable_delete (host_id : Nat) (service_id : Nat) (name : String)
  | tag_update (id : Nat) (type : Nat) (name : String) (tag_id : Nat)
  | tag_delete (tag_id : Nat)
  deriving DecidableEq, Repr

/-- Events written to `multiplexing::publisher`. -/
inductive Published
  | responsive_instance (poller_id : Nat) (responsive : Bool)
  | pb_responsive_instance (poller_id : Nat) (responsive : Bool)
  | pb_index_mapping (index_id : Nat) (host_id : Nat) (service_id : Nat)
  deriving DecidableEq, Repr

/-- Observable effects of a handler, in program order.  `run_no_conn` is a
statement handed to `_mysql` without a connection argument.  The last two
are the calls of the perfdata part of a service status, whose body is in
another file. -/
inductive Effect
  | finish_action (conn : Int) (mask : Mask)
  | run (conn : Nat) (s : Stmt)
  | run_no_conn (s : Stmt)
  | add_action (conn : Nat) (a : actions)
  | commit (conn : Nat)
  | publish (e : Published)
  | timer_cancel
  | timer_expires_after_1min
  | unified_sql_process_service_status (ss : service_status)
  | unified_sql_process_pb_service_status (sscr : ServiceStatus)
  deriving DecidableEq, Repr

/-- Values of `stored_timestamp::state_type`. -/
inductive state_type
  | responsive
  | unresponsive
  deriving DecidableEq, Repr

/-- Entry of `_stored_timestamps`. -/
structure stored_timestamp where
  id : Nat
  state : state_type
  timestamp : Int
  deriving DecidableEq, Repr

/-- Configuration of the stream and the parts declared outside the translated
file: `_mysql` (number of connections, choice of a connection), `special_conn`,
`std::hash`, the engine state constants, the value `BA` of the service type,
`misc::string::truncate`, `misc::string::escape` and the sizes of columns
(`col_size` maps the name of an enumerator such as `customvariables_name` to
the size that `get_customvariables_col_size` returns for it),
`stored_timestamp::timestamp_outdated` called at time `now` with a timeout. -/
structure Env where
  _instance_timeout : Nat
  timestamp_outdated : stored_timestamp → Int → Nat → Bool
  special_conn_custom_variable : Nat
  special_conn_downtime : Nat
  special_conn_host_group : Nat
  special_conn_log : Nat
  special_conn_severity : Nat
  col_size : String → Nat
  _store_in_resources : Bool
  _store_in_hosts_services : Bool
  connections_count : Nat
  choose_connection_by_instance : Nat → Nat
  special_conn_tag : Nat
  bbdo_major_v : Nat
  hash : String → Nat
  host_state_unreachable : Nat
  service_state_unknown : Nat
  _rrd_len : Nat
  BA : Nat
  truncate : String → Nat → String
  index_data_host_name_size : Nat
  index_data_service_description_size : Nat
  escape : String → Nat → String
  hosts_event_handler_size : Nat
  hosts_check_command_size : Nat
  hosts_check_period_size : Nat
  services_notification_period_size : Nat

/-- Members of `unified_sql::stream` read or written by the handlers, and the
effects produced so far.  `deref_end` records that a handler evaluated
`found->second` on the `end()` iterator of `_resource_cache`; the handler is
not followed past that point.  `thrown` records that an exception left the
handler.  `_hostgroup_cache` is the membership test of the set; the four
queues hold the staged rows, oldest first. -/
structure State where
  _cache_host_instance : Nat → Option Nat
  _cache_hst_cmd : Nat → Option Nat
  _cache_deleted_instance_id : List Nat
  _resource_cache : Nat × Nat → Option Nat
  _tags_cache : Nat × Nat → Option Nat
  _severity_cache : Nat × Nat → Option Nat
  _index_cache : Nat × Nat → Option index_info
  deref_end : Bool
  thrown : Bool
  _stored_timestamps : List (Nat × stored_timestamp)
  _oldest_timestamp : Int
  _cache_svc_cmd : Nat × Nat → Option Nat
  _hostgroup_cache : Nat → Bool
  _cv_queue : List String
  _cvs_queue : List String
  _downtimes_queue : List String
  _log_queue : List String
  out : List Effect

/-- Assignment `m[k] = v` seen as a new map. -/
def cache_set {K V : Type} [DecidableEq K] (m : K → Option V) (k : K) (v : V) : K → Option V :=
  fun x => if x = k then some v else m x

/-- Result of `m.erase(k)`. -/
def cache_erase {K V : Type} [DecidableEq K] (m : K → Option V) (k : K) : K → Option V :=
  fun x => if x = k then none else m x

/-- Read through `m[k]`: the stored value, or the value-initialised `d`
which `operator[]` inserts when `k` is absent. -/
def cache_subscript {K V : Type} [DecidableEq K] (m : K → Option V) (k : K) (d : V) :
    V × (K → Option V) :=
  match m k with
  | some v => (v, m)
  | none => (d, cache_set m k d)

/-- Result of `m.insert( k, v )`, which keeps an existing entry. -/
def cache_insert {K V : Type} [DecidableEq K] (m : K → Option V) (k : K) (v : V) :
    K → Option V :=
  match m k with
  | some _ => m
  | none => cache_set m k v

/-- Appends one effect. -/
def emit (st : State) (e : Effect) : State :=
  { st with out := st.out ++ [e] }

/-- Embedding of `stream::_host_instance_known` (the debug `assert` is left out). -/
def _host_instance_known (st : State) (host_id : Nat) : Bool :=
  (st._cache_host_instance (u32 host_id)).isSome

/-- Call of `_mysql.run_query(text, ..., conn)`. -/
def run_query (st : State) (conn : Nat) (sql : String) : State :=
  emit st (Effect.run conn (Stmt.query sql))

/-- Call of `_add_action(conn, a)`. -/
def _add_action (st : State) (conn : Nat) (a : actions) : State :=
  emit st (Effect.add_action conn a)

/-- Call of `_finish_action(conn, mask)`. -/
def _finish_action (st : State) (conn : Int) (mask : Mask) : State :=
  emit st (Effect.finish_action conn mask)

/-- Embedding of `stream::_process_pb_host_status`. -/
def _process_pb_host_status (env : Env) (now : Int) (hscr : HostStatus) (st : State) : State :=
  let st := _finish_action st (-1)
    (Mask.of [actions.host_parents, actions.comments, actions.downtimes,
      actions.host_dependencies])
  if _host_instance_known st hscr.host_id = false then st
  else if hscr.check_type = CheckType.PASSIVE ∨ hscr.next_check ≥ now - 5 * 60 ∨
      hscr.next_check = 0 then
    let st :=
      if env._store_in_hosts_services = true then
        let r := cache_subscript st._cache_host_instance (u32 hscr.host_id) 0
        let conn := env.choose_connection_by_instance r.1
        let st := { st with _cache_host_instance := r.2 }
        let st := emit st (Effect.run conn (Stmt.hscr_update hscr))
        _add_action st conn actions.hosts
      else st
    if env._store_in_resources = true then
      let r := cache_subscript st._cache_host_instance (u32 hscr.host_id) 0
      let conn := env.choose_connection_by_instance r.1
      let st := { st with _cache_host_instance := r.2 }
      let st := emit st (Effect.run conn (Stmt.hscr_resources_update hscr))
      _add_action st conn actions.resources
    else st
  else st

/-- Embedding of `stream::_process_host_status`. -/
def _process_host_status (env : Env) (now : Int) (hs : host_status) (st : State) : State :=
  if env._store_in_hosts_services = false then st
  else
    let st := _finish_action st (-1)
      (Mask.of [actions.instances, actions.downtimes, actions.comments,
        actions.custom_variables, actions.hostgroups, actions.host_dependencies,
        actions.host_parents])
    if _host_instance_known st hs.host_id = false then st
    else if hs.check_type ≠ 0 ∨ hs.active_checks_enabled = false ∨
        hs.next_check ≥ now - 5 * 60 ∨ hs.next_check = 0 then
      let r := cache_subscript st._cache_host_instance (u32 hs.host_id) 0
      let conn := env.choose_connection_by_instance r.1
      let st := { st with _cache_host_instance := r.2 }
      let st := emit st (Effect.run conn (Stmt.host_status_update hs))
      _add_action st conn actions.hosts
    else st

/-- Embedding of `stream::_process_host_check`. -/
def _process_host_check (env : Env) (now : Int) (hc : host_check) (st : State) : State :=
  let st := _finish_action st (-1)
    (Mask.of [actions.instances, actions.downtimes, actions.comments,
      actions.host_dependencies, actions.host_parents, actions.service_dependencies])
  if _host_instance_known st hc.host_id = false then st
  else if hc.check_type ≠ 0 ∨ hc.active_checks_enabled = false ∨
      hc.next_check ≥ now - 5 * 60 ∨ hc.next_check = 0 then
    let str_hash := env.hash hc.command_line
    let r := cache_subscript st._cache_hst_cmd hc.host_id 0
    let st := { st with _cache_hst_cmd := r.2 }
    if r.1 ≠ str_hash then
      let st := { st with _cache_hst_cmd := cache_set st._cache_hst_cmd hc.host_id str_hash }
      let ri := cache_subscript st._cache_host_instance (u32 hc.host_id) 0
      let conn := env.choose_connection_by_instance ri.1
      let st := { st with _cache_host_instance := ri.2 }
      let st := emit st (Effect.run conn (Stmt.host_check_update hc))
      _add_action st conn actions.hosts
    else st
  else st

/-- Lookup `_stored_timestamps.find(id)`. -/
def ts_find (l : List (Nat × stored_timestamp)) (id : Nat) : Option stored_timestamp :=
  match l with
  | [] => none
  | (k, v) :: rest => if k = id then some v else ts_find rest id

/-- Assignment `_stored_timestamps[id] = v`. -/
def ts_set (l : List (Nat × stored_timestamp)) (id : Nat) (v : stored_timestamp) :
    List (Nat × stored_timestamp) :=
  match l with
  | [] => [(id, v)]
  | (k, w) :: rest => if k = id then (k, v) :: rest else (k, w) :: ts_set rest id v

/-- Embedding of `stream::_update_hosts_and_services_of_instance`. -/
def _update_hosts_and_services_of_instance (env : Env) (id : Nat) (responsive : Bool)
    (st : State) : State :=
  let conn := env.choose_connection_by_instance id
  let st := _finish_action st conn (Mask.of [actions.hosts])
  let st := _finish_action st (-1)
    (Mask.of [actions.acknowledgements, actions.modules, actions.downtimes, actions.comments])
  let st :=
    if responsive = true then
      let st := run_query st conn
        ("UPDATE instances SET outdated=FALSE WHERE instance_id=" ++ toString id)
      let st := _add_action st conn actions.instances
      let st := run_query st conn
        ("UPDATE hosts AS h LEFT JOIN services AS s ON h.host_id=s.host_id " ++
         "SET h.state=h.real_state,s.state=s.real_state WHERE h.instance_id=" ++ toString id)
      _add_action st conn actions.hosts
    else
      let st := run_query st conn
        ("UPDATE instances SET outdated=TRUE WHERE instance_id=" ++ toString id)
      let st := _add_action st conn actions.instances
      let st := run_query st conn
        ("UPDATE hosts AS h LEFT JOIN services AS s ON h.host_id=s.host_id " ++
         "SET h.real_state=h.state,s.real_state=s.state,h.state=" ++
         toString env.host_state_unreachable ++ ",s.state=" ++
         toString env.service_state_unknown ++ " WHERE h.instance_id=" ++ toString id)
      _add_action st conn actions.hosts
  if env.bbdo_major_v < 3 then emit st (Effect.publish (Published.responsive_instance id responsive))
  else emit st (Effect.publish (Published.pb_responsive_instance id responsive))

/-- Embedding of `stream::_update_timestamp`; the entry built by
`stored_timestamp(instance_id, responsive)` carries the current time `now`. -/
def _update_timestamp (env : Env) (now : Int) (instance_id : Nat) (st : State) : State :=
  let st :=
    match ts_find st._stored_timestamps instance_id with
    | some found =>
      if found.state = state_type.unresponsive then
        _update_hosts_and_services_of_instance env instance_id true st
      else st
    | none => _update_hosts_and_services_of_instance env instance_id true st
  let timestamp : stored_timestamp :=
    { id := instance_id, state := state_type.responsive, timestamp := now }
  let st := { st with _stored_timestamps := ts_set st._stored_timestamps instance_id timestamp }
  if st._oldest_timestamp > timestamp.timestamp then
    { st with _oldest_timestamp := timestamp.timestamp }
  else st

/-- Embedding of `stream::_is_valid_poller`: the answer and the state after the call. -/
def _is_valid_poller (env : Env) (now : Int) (instance_id : Nat) (st : State) : Bool × State :=
  if instance_id ∈ st._cache_deleted_instance_id then (false, st)
  else (true, _update_timestamp env now instance_id st)

/-- Embedding of `stream::_process_host`. -/
def _process_host (env : Env) (now : Int) (h : host) (st : State) : State :=
  let st := _finish_action st (-1)
    (Mask.of [actions.instances, actions.hostgroups, actions.host_dependencies,
      actions.host_parents, actions.custom_variables, actions.downtimes, actions.comments,
      actions.service_dependencies])
  let v := _is_valid_poller env now h.poller_id st
  let st := v.2
  if v.1 = true then
    if h.host_id ≠ 0 ∧ h.alias_ ≠ "" then
      let conn := env.choose_connection_by_instance h.poller_id
      let st := emit st (Effect.run conn (Stmt.host_insupdate h))
      let st := _add_action st conn actions.hosts
      if h.enabled = true then
        { st with _cache_host_instance :=
            cache_set st._cache_host_instance (u32 h.host_id) h.poller_id }
      else
        { st with _cache_host_instance := cache_erase st._cache_host_instance (u32 h.host_id) }
    else st
  else st

/-- Text of the statement of `stream::_clean_tables` that disables the hosts
and services of an instance. -/
def clean_hosts_services_query (instance_id : Nat) : String :=
  "UPDATE hosts AS h LEFT JOIN services AS s ON h.host_id = s.host_id " ++
    "SET h.enabled=0, s.enabled=0 WHERE h.instance_id=" ++ toString instance_id

/-- Statements of `stream::_clean_tables` run on the connection of the
instance, in source order, each with the family tagged after it; `now`
is the value of `time(nullptr)` formatted into the comments statement. -/
def clean_tables_queries (now : Int) (instance_id : Nat) : List (String × actions) :=
  [ ("UPDATE resources SET enabled=0 WHERE poller_id=" ++ toString instance_id,
      actions.resources),
    (clean_hosts_services_query instance_id, actions.hosts),
    ("DELETE hosts_hostgroups FROM hosts_hostgroups LEFT JOIN hosts ON " ++
      "hosts_hostgroups.host_id=hosts.host_id WHERE hosts.instance_id=" ++
      toString instance_id,
      actions.hostgroups),
    ("DELETE services_servicegroups FROM services_servicegroups LEFT JOIN " ++
      "hosts ON services_servicegroups.host_id=hosts.host_id WHERE " ++
      "hosts.instance_id=" ++ toString instance_id,
      actions.servicegroups),
    ("DELETE hhd FROM hosts_hosts_dependencies AS hhd INNER JOIN hosts as " ++
      "h ON hhd.host_id=h.host_id OR hhd.dependent_host_id=h.host_id WHERE " ++
      "h.instance_id=" ++ toString instance_id,
      actions.host_dependencies),
    ("DELETE hhp FROM hosts_hosts_parents AS hhp INNER JOIN hosts as h ON " ++
      "hhp.child_id=h.host_id OR hhp.parent_id=h.host_id WHERE " ++
      "h.instance_id=" ++ toString instance_id,
      actions.host_parents),
    ("DELETE ssd FROM services_services_dependencies AS ssd" ++
      " INNER JOIN services as s" ++
      " ON ssd.service_id=s.service_id OR " ++
      "ssd.dependent_service_id=s.service_id" ++
      " INNER JOIN hosts as h" ++
      " ON s.host_id=h.host_id" ++
      " WHERE h.instance_id=" ++ toString instance_id,
      actions.service_dependencies),
    ("DELETE FROM modules WHERE instance_id=" ++ toString instance_id,
      actions.modules),
    ("UPDATE downtimes SET cancelled=1 WHERE actual_end_time IS NULL AND " ++
      "cancelled=0 " ++
      "AND instance_id=" ++ toString instance_id,
      actions.downtimes),
    ("UPDATE comments SET deletion_time=" ++ toString now ++ " WHERE instance_id=" ++
      toString instance_id ++ " AND " ++
      "persistent=0 AND " ++
      "(deletion_time IS NULL OR deletion_time=0)",
      actions.comments),
    ("DELETE cv FROM customvariables AS cv INNER JOIN hosts AS h ON " ++
      "cv.host_id = h.host_id WHERE h.instance_id=" ++ toString instance_id,
      actions.custom_variables) ]

/-- One `_mysql.run_query(query, ..., conn)` followed by `_add_action(conn, family)`. -/
def run_tagged (conn : Nat) (st : State) (q : String × actions) : State :=
  _add_action (run_query st conn q.1) conn q.2

/-- Embedding of `stream::_clean_tables`: the statements of
`clean_tables_queries` run in order on the connection of the instance, the
last one behind the barrier on custom variables and hosts. -/
def _clean_tables (env : Env) (now : Int) (instance_id : Nat) (st : State) : State :=
  let st := emit st Effect.timer_cancel
  let st := _finish_action st (-1) Mask.all
  let st :=
    if env._store_in_resources = true then
      let conn := env.special_conn_tag % env.connections_count
      let st := run_query st conn
        ("DELETE rt FROM resources_tags rt LEFT JOIN resources r ON " ++
         "rt.resource_id=r.resource_id WHERE r.poller_id=" ++ toString instance_id)
      emit st (Effect.commit conn)
    else st
  let conn := env.choose_connection_by_instance instance_id
  let qs := clean_tables_queries now instance_id
  let st := (qs.take 10).foldl (run_tagged conn) st
  let st := _finish_action st conn (Mask.of [actions.custom_variables, actions.hosts])
  let st := (qs.drop 10).foldl (run_tagged conn) st
  emit st Effect.timer_expires_after_1min

/-- Embedding of `stream::_process_instance`. -/
def _process_instance (env : Env) (now : Int) (i : instance_ev) (st : State) : State :=
  let conn := env.choose_connection_by_instance i.poller_id
  let st := _finish_action st (-1)
    (Mask.of [actions.hosts, actions.acknowledgements, actions.modules, actions.downtimes,
      actions.comments, actions.servicegroups, actions.hostgroups,
      actions.service_dependencies, actions.host_dependencies])
  let st := _clean_tables env now i.poller_id st
  let v := _is_valid_poller env now i.poller_id st
  let st := v.2
  if v.1 = true then
    let st := emit st (Effect.run conn (Stmt.instance_insupdate i))
    _add_action st conn actions.instances
  else st

/-- Embedding of `stream::_process_pb_instance`. -/
def _process_pb_instance (env : Env) (now : Int) (inst : Instance) (st : State) : State :=
  let conn := env.choose_connection_by_instance inst.instance_id
  let st := _finish_action st (-1)
    (Mask.of [actions.hosts, actions.acknowledgements, actions.modules, actions.downtimes,
      actions.comments, actions.servicegroups, actions.hostgroups,
      actions.service_dependencies, actions.host_dependencies])
  let st := _clean_tables env now (u32 inst.instance_id) st
  let v := _is_valid_poller env now (u32 inst.instance_id) st
  let st := v.2
  if v.1 = true then
    let st := emit st (Effect.run conn (Stmt.pb_instance_insupdate inst))
    _add_action st conn actions.instances
  else st

/-- Database answers awaited by `_process_pb_host` and `_process_pb_service`:
`insert_id` is `future.get()` after the INSERT into resources (`none`: it
throws); `select_row` is `future_resource.get()` followed by `fetch_row`
(`none`: it throws, `some none`: no row, `some (some id)`: a row holding
`id`); `tag_id i` is `future.get()` after the INSERT into tags made for the
tag at position `i` of the event (`none`: it throws). -/
structure ResourceDb where
  insert_id : Option Nat
  select_row : Option (Option Nat)
  tag_id : Nat → Option Nat

/-- Severity bound by `_process_pb_host`:
`if (h.severity_id()) sid = _severity_cache[ (h.severity_id(), 1) ]`, else 0. -/
def host_severity (h : Host) (st : State) : Nat × State :=
  if h.severity_id ≠ 0 then
    let r := cache_subscript st._severity_cache (h.severity_id, 1) 0
    (r.1, { st with _severity_cache := r.2 })
  else (0, st)

/-- The UPDATE of `_process_pb_host` (body of `if (res_id == 0)` after
`res_id = found->second`), bound to `res_id`. -/
def pb_host_resource_update (h : Host) (conn : Nat) (res_id : Nat) (st : State) :
    State :=
  let r := cache_subscript st._cache_host_instance (u32 h.host_id) 0
  let st := { st with _cache_host_instance := r.2 }
  let sv := host_severity h st
  let st := sv.2
  let st := emit st (Effect.run conn (Stmt.resources_host_update h r.1 sv.1 res_id))
  _add_action st conn actions.resources

/-- Resolution of the resource id of an enabled host in `_process_pb_host`
(from `auto found = _resource_cache.find(...)` to the end of
`if (res_id == 0)`): the state reached, and the resource id with which the
handler goes on to the tags, or `none` when it stops there (`return` in the
inner `catch`, or `found->second` evaluated on `end()`). -/
def pb_host_resolve (h : Host) (db : ResourceDb) (conn : Nat) (st : State) :
    State × Option Nat :=
  match st._resource_cache (h.host_id, 0) with
  | some cached => (pb_host_resource_update h conn cached st, some cached)
  | none =>
    let r := cache_subscript st._cache_host_instance (u32 h.host_id) 0
    let st := { st with _cache_host_instance := r.2 }
    let sv := host_severity h st
    let st := sv.2
    let st := emit st (Effect.run conn (Stmt.resources_host_insert h r.1 sv.1))
    let st := _add_action st conn actions.resources
    match db.insert_id with
    | some res_id =>
      let st := { st with _resource_cache := cache_insert st._resource_cache (h.host_id, 0) res_id }
      if res_id = 0 then ({ st with deref_end := true }, none)
      else (st, some res_id)
    | none =>
      let st := emit st (Effect.run_no_conn (Stmt.query
        ("SELECT resource_id FROM resources WHERE parent_id=0 AND id=" ++ toString h.host_id)))
      match db.select_row with
      | none => (st, none)
      | some (some id) =>
        let st := { st with _resource_cache := cache_insert st._resource_cache (h.host_id, 0) id }
        (pb_host_resource_update h conn id st, some id)
      | some none => ({ st with deref_end := true }, none)

/-- The loop `for (auto& tag : tags())` shared by `_process_pb_host` and
`_process_pb_service`; `i` is the position of the first tag of the list in
the event. -/
def resources_tags_loop (tag_id : Nat → Option Nat) (conn : Nat) (res_id : Nat) :
    Nat → List TagInfo → State → State
  | _, [], st => st
  | i, tag :: rest, st =>
    let found : Option Nat × State :=
      match st._tags_cache (tag.id, tag.type) with
      | some t => (some t, st)
      | none =>
        let st := emit st (Effect.run conn (Stmt.tag_insert tag.id tag.type "(unknown)"))
        match tag_id i with
        | some new_id =>
          (some new_id,
            { st with _tags_cache := cache_insert st._tags_cache (tag.id, tag.type) new_id })
        | none => (none, st)
    let st :=
      match found.1 with
      | some t =>
        _add_action (emit found.2 (Effect.run conn (Stmt.resources_tags_insert t res_id)))
          conn actions.resources_tags
      | none => found.2
    resources_tags_loop tag_id conn res_id (i + 1) rest st

/-- Rewrite of the tags of resource `res_id`: barrier on tags, DELETE of its
`resources_tags` rows, then the loop over the tags of the event. -/
def resources_tags_rewrite (tags : List TagInfo) (db : ResourceDb) (conn : Nat) (res_id : Nat)
    (st : State) : State :=
  let st := _finish_action st (-1) (Mask.of [actions.tags])
  let st := emit st (Effect.run conn (Stmt.resources_tags_remove res_id))
  resources_tags_loop db.tag_id conn res_id 0 tags st

/-- Branch `else` of `if (h.enabled())` in the resources part of `_process_pb_host`. -/
def pb_host_resource_disable (h : Host) (conn : Nat) (st : State) : State :=
  match st._resource_cache (h.host_id, 0) with
  | some cached =>
    let st := emit st (Effect.run conn (Stmt.resources_disable cached))
    let st := { st with _resource_cache := cache_erase st._resource_cache (h.host_id, 0) }
    _add_action st conn actions.resources
  | none => st

/-- Embedding of `stream::_process_pb_host`. -/
def _process_pb_host (env : Env) (now : Int) (h : Host) (db : ResourceDb) (st : State) :
    State :=
  let st := _finish_action st (-1)
    (Mask.of [actions.instances, actions.hostgroups, actions.host_dependencies,
      actions.host_parents, actions.custom_variables, actions.downtimes, actions.comments,
      actions.service_dependencies, actions.severities])
  let v := _is_valid_poller env now (u32 h.instance_id) st
  let st := v.2
  if v.1 = true then
    if h.host_id ≠ 0 ∧ h.alias_ ≠ "" then
      let conn := env.choose_connection_by_instance h.instance_id
      let st := emit st (Effect.run conn (Stmt.pb_host_insupdate h))
      let st := _add_action st conn actions.hosts
      let st :=
        if h.enabled = true then
          { st with _cache_host_instance :=
              cache_set st._cache_host_instance (u32 h.host_id) h.instance_id }
        else
          { st with _cache_host_instance := cache_erase st._cache_host_instance (u32 h.host_id) }
      if env._store_in_resources = true then
        if h.enabled = true then
          let r := pb_host_resolve h db conn st
          match r.2 with
          | some res_id => resources_tags_rewrite h.tags db conn res_id r.1
          | none => r.1
        else pb_host_resource_disable h conn st
      else st
    else st
  else st

/-- Row returned by the SELECT on `index_data`: the columns `id`, `host_name`,
`service_description`, `rrd_retention`, `check_interval`, `special`, `locked`. -/
structure index_row where
  id : Nat
  host_name : String
  service_description : String
  rrd_retention : Nat
  check_interval : Nat
  special : String
  locked : String

/-- Database answers awaited by `_check_and_update_index_cache`: `insert_id`
is `future.get()` after the INSERT into `index_data` (`none`: it throws);
`select_row` is `future_pq.get()` followed by `fetch_row` (`none`: it throws,
`some none`: no row). -/
structure IndexDb where
  insert_id : Option Nat
  select_row : Option (Option index_row)

/-- Embedding of `stream::_check_and_update_index_cache`: the state reached
and whether the function threw.  The UPDATE of `index_data` is handed to
`run_statement` with `conn` in the place of the flag that the other calls
set to `false`, so without connection argument. -/
def _check_and_update_index_cache (env : Env) (ss : Service) (db : IndexDb) (st : State) :
    State × Bool :=
  let it_index_cache := st._index_cache (ss.host_id, ss.service_id)
  let hv := env.truncate ss.host_name env.index_data_host_name_size
  let sv := env.truncate ss.description env.index_data_service_description_size
  let special := decide (ss.type = env.BA)
  let r := cache_subscript st._cache_host_instance (u32 ss.host_id) 0
  let conn := env.choose_connection_by_instance r.1
  let st := { st with _cache_host_instance := r.2 }
  match it_index_cache with
  | none =>
    let st := emit st
      (Effect.run conn (Stmt.index_data_insert ss.host_id hv ss.service_id sv special))
    match db.insert_id with
    | some index_id =>
      let info : index_info :=
        { index_id := index_id, host_name := ss.host_name,
          service_description := ss.description, rrd_retention := env._rrd_len,
          interval := ss.check_interval, special := special, locked := false }
      let st := { st with
        _index_cache := cache_set st._index_cache (ss.host_id, ss.service_id) info }
      (emit st (Effect.publish (Published.pb_index_mapping index_id ss.host_id ss.service_id)),
        false)
    | none =>
      let st := emit st (Effect.run conn (Stmt.index_data_query ss.host_id ss.service_id))
      match db.select_row with
      | some (some row) =>
        let info : index_info :=
          { index_id := row.id, host_name := row.host_name,
            service_description := row.service_description,
            rrd_retention := if row.rrd_retention ≠ 0 then row.rrd_retention else env._rrd_len,
            interval := if row.check_interval ≠ 0 then row.check_interval else 5,
            special := decide (row.special = "1"), locked := decide (row.locked = "1") }
        let st := { st with
          _index_cache := cache_set st._index_cache (ss.host_id, ss.service_id) info }
        let st := emit st
          (Effect.publish (Published.pb_index_mapping row.id ss.host_id ss.service_id))
        (st, decide (row.id = 0))
      | some none => (st, true)
      | none => (st, true)
  | some info =>
    if info.host_name ≠ hv ∨ info.service_description ≠ sv ∨
        info.interval ≠ ss.check_interval then
      let st := emit st
        (Effect.run_no_conn
          (Stmt.index_data_update hv sv special ss.check_interval info.index_id))
      ({ st with
          _index_cache := cache_set st._index_cache (ss.host_id, ss.service_id)
            { info with host_name := hv, service_description := sv,
                        interval := ss.check_interval } },
        false)
    else (st, false)

/-- Severity bound by `_process_pb_service`:
`if (s.severity_id() > 0) sid = _severity_cache[ (s.severity_id(), 0) ]`, else 0. -/
def service_severity (s : Service) (st : State) : Nat × State :=
  if s.severity_id > 0 then
    let r := cache_subscript st._severity_cache (s.severity_id, 0) 0
    (r.1, { st with _severity_cache := r.2 })
  else (0, st)

/-- The UPDATE of `_process_pb_service` (body of `if (res_id == 0)` after
`res_id = found->second`), bound to `res_id`. -/
def pb_service_resource_update (s : Service) (conn : Nat) (res_id : Nat) (st : State) :
    State :=
  let r := cache_subscript st._cache_host_instance (u32 s.host_id) 0
  let st := { st with _cache_host_instance := r.2 }
  let sv := service_severity s st
  let st := sv.2
  let st := emit st (Effect.run conn (Stmt.resources_service_update s r.1 sv.1 res_id))
  _add_action st conn actions.resources

/-- Resolution of the resource id of an enabled service in
`_process_pb_service`, as `pb_host_resolve` for hosts. -/
def pb_service_resolve (s : Service) (db : ResourceDb) (conn : Nat) (st : State) :
    State × Option Nat :=
  match st._resource_cache (s.service_id, s.host_id) with
  | some cached => (pb_service_resource_update s conn cached st, some cached)
  | none =>
    let r := cache_subscript st._cache_host_instance (u32 s.host_id) 0
    let st := { st with _cache_host_instance := r.2 }
    let sv := service_severity s st
    let st := sv.2
    let st := emit st (Effect.run conn (Stmt.resources_service_insert s r.1 sv.1))
    let st := _add_action st conn actions.resources
    match db.insert_id with
    | some res_id =>
      let st := { st with
        _resource_cache := cache_insert st._resource_cache (s.service_id, s.host_id) res_id }
      if res_id = 0 then ({ st with deref_end := true }, none)
      else (st, some res_id)
    | none =>
      let st := emit st (Effect.run_no_conn (Stmt.query
        ("SELECT resource_id FROM resources WHERE parent_id=" ++ toString s.host_id ++
          " AND id=" ++ toString s.service_id)))
      match db.select_row with
      | none => (st, none)
      | some (some id) =>
        let st := { st with
          _resource_cache := cache_insert st._resource_cache (s.service_id, s.host_id) id }
        (pb_service_resource_update s conn id st, some id)
      | some none => ({ st with deref_end := true }, none)

/-- Branch `else` of `if (s.enabled())` in the resources part of `_process_pb_service`. -/
def pb_service_resource_disable (s : Service) (conn : Nat) (st : State) : State :=
  match st._resource_cache (s.service_id, s.host_id) with
  | some cached =>
    let st := emit st (Effect.run conn (Stmt.resources_disable cached))
    let st := { st with
      _resource_cache := cache_erase st._resource_cache (s.service_id, s.host_id) }
    _add_action st conn actions.resources
  | none => st

/-- Embedding of `stream::_process_pb_service`. -/
def _process_pb_service (env : Env) (s : Service) (idb : IndexDb) (db : ResourceDb)
    (st : State) : State :=
  let st := _finish_action st (-1)
    (Mask.of [actions.host_parents, actions.comments, actions.downtimes,
      actions.host_dependencies, actions.service_dependencies, actions.severities])
  if _host_instance_known st s.host_id = false then st
  else
    let r := cache_subscript st._cache_host_instance (u32 s.host_id) 0
    let conn := env.choose_connection_by_instance r.1
    let st := { st with _cache_host_instance := r.2 }
    if s.host_id ≠ 0 ∧ s.service_id ≠ 0 then
      let st := emit st (Effect.run conn (Stmt.pb_service_insupdate s))
      let st := _add_action st conn actions.services
      let ix := _check_and_update_index_cache env s idb st
      if ix.2 = true then { ix.1 with thrown := true }
      else
        let st := ix.1
        if env._store_in_resources = true then
          if s.enabled = true then
            let r := pb_service_resolve s db conn st
            match r.2 with
            | some res_id => resources_tags_rewrite s.tags db conn res_id r.1
            | none => r.1
          else pb_service_resource_disable s conn st
        else st
    else st

/-- Text of a flag formatted as `b ? 1 : 0`. -/
def bit (b : Bool) : List Char :=
  if b = true then ['1'] else ['0']

/-- The assignments that `_process_pb_adaptive_host` appends to
`UPDATE hosts SET`, one per optional field in source order, `none` for a
field that is absent; the source formats each one followed by a comma. -/
def adaptive_host_assignments (env : Env) (ah : AdaptiveHost) : List (Option (List Char)) :=
  [ ah.notify.map (fun v => " notify='".toList ++ bit v ++ "'".toList),
    ah.active_checks.map (fun v => " active_checks='".toList ++ bit v ++ "'".toList),
    ah.should_be_scheduled.map
      (fun v => " should_be_scheduled='".toList ++ bit v ++ "'".toList),
    ah.passive_checks.map (fun v => " passive_checks='".toList ++ bit v ++ "'".toList),
    ah.event_handler_enabled.map
      (fun v => " event_handler_enabled='".toList ++ bit v ++ "'".toList),
    ah.flap_detection.map (fun v => " flap_detection='".toList ++ bit v ++ "'".toList),
    ah.obsess_over_host.map (fun v => " obsess_over_host='".toList ++ bit v ++ "'".toList),
    ah.event_handler.map
      (fun v => " event_handler='".toList ++
        (env.escape v env.hosts_event_handler_size).toList ++ "'".toList),
    ah.check_command.map
      (fun v => " check_command='".toList ++
        (env.escape v env.hosts_check_command_size).toList ++ "'".toList),
    ah.check_interval.map (fun v => " check_interval=".toList ++ (Nat.repr v).toList),
    ah.retry_interval.map (fun v => " retry_interval=".toList ++ (Nat.repr v).toList),
    ah.max_check_attempts.map
      (fun v => " max_check_attempts=".toList ++ (Nat.repr v).toList),
    ah.check_freshness.map (fun v => " check_freshness='".toList ++ bit v ++ "'".toList),
    ah.check_period.map
      (fun v => " check_period='".toList ++
        (env.escape v env.hosts_check_period_size).toList ++ "'".toList),
    ah.notification_period.map
      (fun v => " notification_period='".toList ++
        (env.escape v env.services_notification_period_size).toList ++ "'".toList) ]

/-- The assignments appended to `UPDATE resources SET`, in source order. -/
def adaptive_host_resource_assignments (ah : AdaptiveHost) : List (Option (List Char)) :=
  [ ah.notify.map (fun v => " notifications_enabled='".toList ++ bit v ++ "'".toList),
    ah.active_checks.map
      (fun v => " active_checks_enabled='".toList ++ bit v ++ "'".toList),
    ah.passive_checks.map
      (fun v => " passive_checks_enabled='".toList ++ bit v ++ "'".toList),
    ah.max_check_attempts.map
      (fun v => " max_check_attempts=".toList ++ (Nat.repr v).toList) ]

/-- The statements `if (ah.has_X()) query += fmt::format(" X=...,", ...)` run
in order on the text `query`. -/
def append_assignments (query : List Char) (l : List (Option (List Char))) : List Char :=
  l.foldl
    (fun q a =>
      match a with
      | some t => q ++ t ++ [',']
      | none => q)
    query

/-- Embedding of `stream::_process_pb_adaptive_host`; the text of a query is
a list of characters, `resize(size() - 1)` drops the last one. -/
def _process_pb_adaptive_host (env : Env) (ah : AdaptiveHost) (st : State) : State :=
  let st := _finish_action st (-1)
    (Mask.of [actions.host_parents, actions.comments, actions.downtimes,
      actions.host_dependencies, actions.service_dependencies])
  if _host_instance_known st ah.host_id = false then st
  else
    let r := cache_subscript st._cache_host_instance (u32 ah.host_id) 0
    let conn := env.choose_connection_by_instance r.1
    let st := { st with _cache_host_instance := r.2 }
    let buf := "UPDATE hosts SET".toList
    let query := append_assignments buf (adaptive_host_assignments env ah)
    if query.length > buf.length then
      let query := query.dropLast
      let query := query ++ " WHERE host_id=".toList ++ (Nat.repr ah.host_id).toList
      let st := run_query st conn (String.mk query)
      let st := _add_action st conn actions.hosts
      if env._store_in_resources = true then
        let res_buf := "UPDATE resources SET".toList
        let res_query := append_assignments res_buf (adaptive_host_resource_assignments ah)
        if res_query.length > res_buf.length then
          let res_query := res_query.dropLast
          let res_query :=
            res_query ++ " WHERE parent_id=0 AND id=".toList ++ (Nat.repr ah.host_id).toList
          let st := run_query st conn (String.mk res_query)
          _add_action st conn actions.resources
        else st
      else st
    else st

/-- Embedding of `stream::_process_service_status`; the perfdata part
`_unified_sql_process_service_status(d)` is the effect of that name. -/
def _process_service_status (env : Env) (now : Int) (ss : service_status) (st : State) : State :=
  if env._store_in_hosts_services = false then st
  else
    let st := _finish_action st (-1)
      (Mask.of [actions.host_parents, actions.comments, actions.downtimes,
        actions.host_dependencies, actions.service_dependencies])
    if _host_instance_known st ss.host_id = false then st
    else
      let st :=
        if ss.check_type ≠ 0 ∨ ss.active_checks_enabled = false ∨
            ss.next_check ≥ now - 5 * 60 ∨ ss.next_check = 0 then
          let r := cache_subscript st._cache_host_instance (u32 ss.host_id) 0
          let conn := env.choose_connection_by_instance r.1
          let st := { st with _cache_host_instance := r.2 }
          let st := emit st (Effect.run conn (Stmt.service_status_update ss))
          _add_action st conn actions.hosts
        else st
      emit st (Effect.unified_sql_process_service_status ss)

/-- Embedding of `stream::_process_pb_service_status`; the perfdata part
`_unified_sql_process_pb_service_status(d)` is the effect of that name. -/
def _process_pb_service_status (env : Env) (now : Int) (sscr : ServiceStatus) (st : State) :
    State :=
  let st := _finish_action st (-1)
    (Mask.of [actions.host_parents, actions.comments, actions.downtimes,
      actions.host_dependencies, actions.service_dependencies])
  if _host_instance_known st sscr.host_id = false then st
  else
    let st :=
      if sscr.check_type = CheckType.PASSIVE ∨ sscr.next_check ≥ now - 5 * 60 ∨
          sscr.next_check = 0 then
        let st :=
          if env._store_in_hosts_services = true then
            let r := cache_subscript st._cache_host_instance (u32 sscr.host_id) 0
            let conn := env.choose_connection_by_instance r.1
            let st := { st with _cache_host_instance := r.2 }
            let st := emit st (Effect.run conn (Stmt.sscr_update sscr))
            _add_action st conn actions.services
          else st
        if env._store_in_resources = true then
          let r := cache_subscript st._cache_host_instance (u32 sscr.host_id) 0
          let conn := env.choose_connection_by_instance r.1
          let st := { st with _cache_host_instance := r.2 }
          let st := emit st (Effect.run conn (Stmt.sscr_resources_update sscr))
          _add_action st conn actions.resources
        else st
      else st
    emit st (Effect.unified_sql_process_pb_service_status sscr)

/-- Embedding of `stream::_process_service_check`. -/
def _process_service_check (env : Env) (now : Int) (sc : service_check) (st : State) : State :=
  let st := _finish_action st (-1)
    (Mask.of [actions.downtimes, actions.comments, actions.host_dependencies,
      actions.host_parents, actions.service_dependencies])
  if _host_instance_known st sc.host_id = false then st
  else if sc.check_type ≠ 0 ∨ sc.active_checks_enabled = false ∨
      sc.next_check ≥ now - 5 * 60 ∨ sc.next_check = 0 then
    let str_hash := env.hash sc.command_line
    let r := cache_subscript st._cache_svc_cmd (sc.host_id, sc.service_id) 0
    let st := { st with _cache_svc_cmd := r.2 }
    if r.1 ≠ str_hash then
      let st := { st with
        _cache_svc_cmd := cache_set st._cache_svc_cmd (sc.host_id, sc.service_id) str_hash }
      let ri := cache_subscript st._cache_host_instance (u32 sc.host_id) 0
      let conn := env.choose_connection_by_instance ri.1
      let st := { st with _cache_host_instance := ri.2 }
      emit st (Effect.run conn (Stmt.service_check_update sc))
    else st
  else st

/-- Embedding of `stream::_process_acknowledgement`. -/
def _process_acknowledgement (env : Env) (now : Int) (ack : acknowledgement) (st : State) :
    State :=
  let v := _is_valid_poller env now ack.poller_id st
  let st := v.2
  if v.1 = true then
    let conn := env.choose_connection_by_instance ack.poller_id
    emit st (Effect.run conn (Stmt.acknowledgement_insupdate ack))
  else st

/-- Embedding of `stream::_process_comment`. -/
def _process_comment (env : Env) (cmmnt : comment) (st : State) : State :=
  let st := _finish_action st (-1)
    (Mask.of [actions.hosts, actions.instances, actions.host_parents,
      actions.host_dependencies, actions.service_dependencies, actions.comments])
  let conn := env.choose_connection_by_instance cmmnt.poller_id
  let st := emit st (Effect.run conn (Stmt.comment_insupdate cmmnt))
  _add_action st conn actions.comments

/-- Embedding of `stream::_process_pb_comment`. -/
def _process_pb_comment (env : Env) (now : Int) (comm : Comment) (st : State) : State :=
  let v := _is_valid_poller env now (u32 comm.instance_id) st
  let st := v.2
  if v.1 = true then
    let conn := env.choose_connection_by_instance comm.instance_id
    let st := emit st (Effect.run conn (Stmt.pb_comment_insupdate comm))
    _add_action st conn actions.comments
  else st

/-- Result of `s.insert(k)` on a `std::set`, kept as its membership test. -/
def set_insert (s : Nat → Bool) (k : Nat) : Nat → Bool :=
  fun x => if x = k then true else s x

/-- Result of `s.erase(k)` on a `std::set`. -/
def set_erase (s : Nat → Bool) (k : Nat) : Nat → Bool :=
  fun x => if x = k then false else s x

/-- Text of the statement of `_process_host_group` that deletes the members
of a disabled group among the hosts of a poller. -/
def delete_hostgroup_members_query (id poller_id : Nat) : String :=
  "DELETE hosts_hostgroups FROM hosts_hostgroups " ++
    "LEFT JOIN hosts" ++
    " ON hosts_hostgroups.host_id=hosts.host_id" ++
    " WHERE hosts_hostgroups.hostgroup_id=" ++ toString id ++ " AND " ++
    "hosts.instance_id=" ++ toString poller_id

/-- Text of the statement of `_clean_group_table` that removes the host
groups without member. -/
def clean_empty_hostgroups_query : String :=
  "DELETE hg FROM hostgroups AS hg LEFT JOIN hosts_hostgroups AS hhg ON " ++
    "hg.hostgroup_id=hhg.hostgroup_id WHERE hhg.hostgroup_id IS NULL"

/-- Text of the statement of `_clean_group_table` that removes the service
groups without member. -/
def clean_empty_servicegroups_query : String :=
  "DELETE sg FROM servicegroups AS sg LEFT JOIN services_servicegroups as " ++
    "ssg ON sg.servicegroup_id=ssg.servicegroup_id WHERE ssg.servicegroup_id " ++
    "IS NULL"

/-- Embedding of `stream::_process_host_group`. -/
def _process_host_group (env : Env) (hg : host_group) (st : State) : State :=
  let conn := env.special_conn_host_group % env.connections_count
  let st :=
    if hg.enabled = true then
      let st := emit st (Effect.run conn (Stmt.host_group_insupdate hg))
      { st with _hostgroup_cache := set_insert st._hostgroup_cache hg.id }
    else
      let st := _finish_action st (-1) (Mask.of [actions.hosts])
      let st := run_query st conn (delete_hostgroup_members_query hg.id hg.poller_id)
      { st with _hostgroup_cache := set_erase st._hostgroup_cache hg.id }
  _add_action st conn actions.hostgroups

/-- Embedding of `stream::_process_host_group_member`. -/
def _process_host_group_member (env : Env) (hgm : host_group_member) (st : State) : State :=
  let conn := env.special_conn_host_group % env.connections_count
  let st := _finish_action st (-1) (Mask.of [actions.hosts])
  if _host_instance_known st hgm.host_id = false then st
  else if hgm.enabled = true then
    let r := cache_subscript st._cache_host_instance (u32 hgm.host_id) 0
    let st := { st with _cache_host_instance := r.2 }
    if r.1 ≠ 0 then
      let st :=
        if st._hostgroup_cache hgm.group_id = false then
          let hg : host_group :=
            { id := hgm.group_id, name := hgm.group_name, enabled := true, poller_id := r.1 }
          let st := emit st (Effect.run conn (Stmt.host_group_insupdate hg))
          { st with _hostgroup_cache := set_insert st._hostgroup_cache hgm.group_id }
        else st
      let st := emit st (Effect.run conn (Stmt.host_group_member_insert hgm))
      _add_action st conn actions.hostgroups
    else st
  else
    let st := emit st (Effect.run conn (Stmt.host_group_member_delete hgm))
    _add_action st conn actions.hostgroups

/-- Embedding of `stream::_clean_group_table`; `conn` is the answer of
`_mysql.choose_best_connection(-1)`. -/
def _clean_group_table (conn : Nat) (st : State) : State :=
  let st := run_query st conn clean_empty_hostgroups_query
  let st := _add_action st conn actions.hostgroups
  let st := run_query st conn clean_empty_servicegroups_query
  _add_action st conn actions.servicegroups

/-- Embedding of `stream::_process_severity`; `insert_id` is `future.get()`
after the INSERT into `severities` (`none`: it throws). -/
def _process_severity (env : Env) (sv : Severity) (insert_id : Option Nat) (st : State) :
    State :=
  if env._store_in_resources = false then st
  else
    let st := _finish_action st (-1) (Mask.of [actions.resources])
    let r := cache_subscript st._severity_cache (sv.id, sv.type) 0
    let severity_id := r.1
    let st := { st with _severity_cache := r.2 }
    let conn := env.special_conn_severity % env.connections_count
    match sv.action with
    | Severity_Action.ADD =>
      let st := _add_action st conn actions.severities
      if severity_id ≠ 0 then
        emit st (Effect.run conn (Stmt.severity_update sv severity_id))
      else
        let st := emit st (Effect.run conn (Stmt.severity_insert sv))
        match insert_id with
        | some new_id =>
          { st with _severity_cache := cache_set st._severity_cache (sv.id, sv.type) new_id }
        | none => st
    | Severity_Action.MODIFY =>
      let st := _add_action st conn actions.severities
      if severity_id ≠ 0 then
        let st := emit st (Effect.run conn (Stmt.severity_update sv severity_id))
        _add_action st conn actions.severities
      else st
    | Severity_Action.DELETE => st
    | Severity_Action.other => st

/-- Embedding of `stream::_process_tag`.  `insert_id` is the id returned
after the INSERT into `tags` (`none`: it throws).  The value bound to
`_tag_delete`, the statement `DELETE FROM resources_tags WHERE tag_id=?`, is
the argument of `Stmt.tag_delete`. -/
def _process_tag (env : Env) (tg : Tag) (insert_id : Option Nat) (st : State) : State :=
  if env._store_in_resources = false then st
  else
    let st := _finish_action st (-1) (Mask.of [actions.tags])
    let r := cache_subscript st._tags_cache (tg.id, tg.type) 0
    let tag_id := r.1
    let st := { st with _tags_cache := r.2 }
    let conn := env.special_conn_tag % env.connections_count
    match tg.action with
    | Tag_Action.ADD =>
      let st :=
        if tag_id ≠ 0 then
          emit st (Effect.run conn (Stmt.tag_update tg.id tg.type tg.name tag_id))
        else
          let st := emit st (Effect.run conn (Stmt.tag_insert tg.id tg.type tg.name))
          match insert_id with
          | some new_id =>
            { st with _tags_cache := cache_set st._tags_cache (tg.id, tg.type) new_id }
          | none => st
      _add_action st conn actions.tags
    | Tag_Action.MODIFY =>
      if tag_id ≠ 0 then
        let st := emit st (Effect.run conn (Stmt.tag_update tg.id tg.type tg.name tag_id))
        _add_action st conn actions.tags
      else st
    | Tag_Action.DELETE =>
      match st._tags_cache (tg.id, tg.type) with
      | some _ =>
        let st := emit st (Effect.run conn (Stmt.tag_delete tg.id))
        { st with _tags_cache := cache_erase st._tags_cache (tg.id, tg.type) }
      | none => st
    | Tag_Action.other => st

/-- The first loop of `_update_hosts_and_services_of_unresponsive_instances`
over the entries of `_stored_timestamps`, in the order of the iteration: the
entries after the loop, and the state. -/
def mark_unresponsive (env : Env) (now : Int) :
    List (Nat × stored_timestamp) → State → List (Nat × stored_timestamp) × State
  | [], st => ([], st)
  | (k, v) :: rest, st =>
    if v.state = state_type.responsive ∧
        env.timestamp_outdated v now env._instance_timeout = true then
      let st := _update_hosts_and_services_of_instance env v.id false st
      let r := mark_unresponsive env now rest st
      ((k, { v with state := state_type.unresponsive }) :: r.1, r.2)
    else
      let r := mark_unresponsive env now rest st
      ((k, v) :: r.1, r.2)

/-- The second loop of `_update_hosts_and_services_of_unresponsive_instances`:
the smallest timestamp of a responsive entry below `oldest`, or `oldest`. -/
def oldest_responsive (oldest : Int) : List (Nat × stored_timestamp) → Int
  | [] => oldest
  | (_, v) :: rest =>
    if v.state = state_type.responsive ∧ oldest > v.timestamp then
      oldest_responsive v.timestamp rest
    else oldest_responsive oldest rest

/-- Embedding of `stream::_update_hosts_and_services_of_unresponsive_instances`;
`std::numeric_limits<time_t>::max()` is `2^63 - 1`. -/
def _update_hosts_and_services_of_unresponsive_instances (env : Env) (now : Int) (st : State) :
    State :=
  if env._instance_timeout = 0 then st
  else if st._stored_timestamps.length = 0 ∨
      now - st._oldest_timestamp ≤ (env._instance_timeout : Int) then st
  else
    let r := mark_unresponsive env now st._stored_timestamps st
    let st := { r.2 with _stored_timestamps := r.1 }
    { st with _oldest_timestamp := oldest_responsive 9223372036854775807 st._stored_timestamps }

/-- Host and instance events, in both representations; a protobuf host event
comes with the database answers its handler waits for. -/
inductive Event
  | host (h : host)
  | pb_host (h : Host) (db : ResourceDb)
  | instance_ (i : instance_ev)
  | pb_instance (inst : Instance)

/-- Handler run for an event received at time `now`. -/
def process (env : Env) (now : Int) : Event → State → State
  | Event.host h, st => _process_host env now h st
  | Event.pb_host h db, st => _process_pb_host env now h db st
  | Event.instance_ i, st => _process_instance env now i st
  | Event.pb_instance inst, st => _process_pb_instance env now inst st

/-- Handlers run for a sequence of events, each with its time of reception. -/
def process_all (env : Env) : List (Int × Event) → State → State
  | [], st => st
  | (now, e) :: rest, st => process_all env rest (process env now e st)

/-- Host id carried by a host event; instance events carry none. -/
def Event.host_id : Event → Option Nat
  | Event.host h => some h.host_id
  | Event.pb_host h _ => some h.host_id
  | _ => none

/-- What one statement does to the columns `instance_id` and `enabled` of the
rows of table `hosts`, a row being `host_id ↦ (instance_id, enabled)`: the
upsert of a host event writes the row of its host; the statement of
`_clean_tables` that disables the hosts of an instance clears `enabled` in
the rows of that instance; no other statement of the handlers modelled here
writes these columns. -/
def hosts_apply (t : Nat → Option (Nat × Bool)) : Effect → Nat → Option (Nat × Bool)
  | Effect.run _ (Stmt.host_insupdate h) =>
    fun k => if k = h.host_id then some (h.poller_id, h.enabled) else t k
  | Effect.run _ (Stmt.pb_host_insupdate h) =>
    fun k => if k = h.host_id then some (h.instance_id, h.enabled) else t k
  | Effect.run _ (Stmt.query sql) =>
    fun k =>
      match t k with
      | some (inst, en) =>
        if sql = clean_hosts_services_query inst then some (inst, false) else some (inst, en)
      | none => none
  | _ => t

/-- Rows of table `hosts` after the statements of `effs`, executed in order from rows `t`. -/
def hosts_rows (effs : List Effect) (t : Nat → Option (Nat × Bool)) : Nat → Option (Nat × Bool) :=
  effs.foldl hosts_apply t

/-- Every host enabled in the rows `t` has an identifier below `2^32` and is
in the host->instance cache of `st`, under the instance of its row. -/
def enabled_hosts_cached (t : Nat → Option (Nat × Bool)) (st : State) : Prop :=
  ∀ k inst, t k = some (inst, true) →
    k < 4294967296 ∧ st._cache_host_instance k = some inst

/-- Upserts of table `hosts` among the effects. -/
def is_host_upsert : Effect → Bool
  | Effect.run _ (Stmt.host_insupdate _) => true
  | Effect.run _ (Stmt.pb_host_insupdate _) => true
  | _ => false

/-- The state `st2` is `st1` with effects satisfying `P` appended to `out` and
possibly other stored timestamps; every cache is the same. -/
def extends_out (P : Effect → Prop) (st1 st2 : State) : Prop :=
  ∃ effs ts old,
    st2 = { st1 with out := st1.out ++ effs, _stored_timestamps := ts, _oldest_timestamp := old } ∧
    ∀ e ∈ effs, P e

/-- Statements handed to a connection among the effects, each with its connection. -/
def statements (effs : List Effect) : List (Nat × Stmt) :=
  effs.filterMap fun e =>
    match e with
    | Effect.run c s => some (c, s)
    | _ => none

/-- Prepared statements among the effects (anything run that is not the text of a query). -/
def is_prepared : Effect → Bool
  | Effect.run _ (Stmt.query _) => false
  | Effect.run_no_conn (Stmt.query _) => false
  | Effect.run _ _ => true
  | Effect.run_no_conn _ => true
  | _ => false

/-- Prepared statements that write table `resources`. -/
def is_resource_write : Stmt → Bool
  | Stmt.resources_host_insert _ _ _ => true
  | Stmt.resources_host_update _ _ _ _ => true
  | Stmt.resources_service_insert _ _ _ => true
  | Stmt.resources_service_update _ _ _ _ => true
  | Stmt.resources_disable _ => true
  | Stmt.hscr_resources_update _ => true
  | _ => false

/-- The prepared statements writing table `resources` among the effects, in order. -/
def resource_writes (effs : List Effect) : List Stmt :=
  effs.filterMap fun e =>
    match e with
    | Effect.run _ s => if is_resource_write s = true then some s else none
    | Effect.run_no_conn s => if is_resource_write s = true then some s else none
    | _ => none

/-- The statements on `resources_tags` and `tags` among the effects, in order. -/
def tag_statements (effs : List Effect) : List Stmt :=
  effs.filterMap fun e =>
    match e with
    | Effect.run _ (Stmt.resources_tags_remove r) => some (Stmt.resources_tags_remove r)
    | Effect.run _ (Stmt.resources_tags_insert t r) => some (Stmt.resources_tags_insert t r)
    | Effect.run _ (Stmt.tag_insert a b n) => some (Stmt.tag_insert a b n)
    | _ => none

/-- The output of `st2` is the output of `st1` followed by effects satisfying `P`. -/
def appends (P : Effect → Prop) (st1 st2 : State) : Prop :=
  ∃ effs, st2.out = st1.out ++ effs ∧ ∀ e ∈ effs, P e

/-- The calls `_add_action(conn, family)` among the effects, in order. -/
def tagged (effs : List Effect) : List (Nat × actions) :=
  effs.filterMap fun e =>
    match e with
    | Effect.add_action c a => some (c, a)
    | _ => none

/-- Number of calls of the perfdata part of a service status among the effects. -/
def perfdata_calls (effs : List Effect) : Nat :=
  effs.countP fun e =>
    match e with
    | Effect.unified_sql_process_service_status _ => true
    | Effect.unified_sql_process_pb_service_status _ => true
    | _ => false

/-- The events published among the effects, in order. -/
def published (effs : List Effect) : List Published :=
  effs.filterMap fun e =>
    match e with
    | Effect.publish p => some p
    | _ => none

/-- Value read by `_severity_cache[k]`: the stored surrogate, or 0 when `k` is absent. -/
def severity_lookup (st : State) (k : Nat × Nat) : Nat :=
  (cache_subscript st._severity_cache k 0).1

/-- The entry `info` of the index cache agrees with the message `ss`: the
comparison that `_check_and_update_index_cache` makes when it finds the entry. -/
def index_entry_agrees (env : Env) (ss : Service) (info : index_info) : Prop :=
  info.host_name = env.truncate ss.host_name env.index_data_host_name_size ∧
  info.service_description =
    env.truncate ss.description env.index_data_service_description_size ∧
  info.interval = ss.check_interval

/-- Effects of `_is_valid_poller`: barriers, texts of queries, tags of the
families `instances` and `hosts`, published events. -/
def poller_refresh_effect : Effect → Bool
  | Effect.finish_action _ _ => true
  | Effect.run _ (Stmt.query _) => true
  | Effect.add_action _ actions.instances => true
  | Effect.add_action _ actions.hosts => true
  | Effect.publish _ => true
  | _ => false

/-- The upserts of table `comments` among the effects, each with its connection. -/
def comment_upserts (effs : List Effect) : List (Nat × Stmt) :=
  effs.filterMap fun e =>
    match e with
    | Effect.run c (Stmt.comment_insupdate x) => some (c, Stmt.comment_insupdate x)
    | Effect.run c (Stmt.pb_comment_insupdate x) => some (c, Stmt.pb_comment_insupdate x)
    | _ => none

/-- The connections tagged with the family `a` among the effects, in order. -/
def tagged_with (a : actions) (effs : List Effect) : List Nat :=
  effs.filterMap fun e =>
    match e with
    | Effect.add_action c b => if b = a then some c else none
    | _ => none

/-- The entry is responsive and `timestamp_outdated(_instance_timeout)` holds
for it at time `now`. -/
def responsive_outdated (env : Env) (now : Int) (v : stored_timestamp) : Bool :=
  decide (v.state = state_type.responsive) &&
    env.timestamp_outdated v now env._instance_timeout

/-- The handler throws the event away: between `st` and `st2` no statement
is run, no connection is tagged, nothing is published, the perfdata part is
not called, and the host, index, resource and command caches are the same. -/
def thrown_away (st st2 : State) : Prop :=
  ∃ effs, st2.out = st.out ++ effs ∧ statements effs = [] ∧ tagged effs = [] ∧
    published effs = [] ∧ perfdata_calls effs = 0 ∧
    st2._cache_host_instance = st._cache_host_instance ∧
    st2._index_cache = st._index_cache ∧ st2._resource_cache = st._resource_cache ∧
    st2._cache_hst_cmd = st._cache_hst_cmd ∧ st2._cache_svc_cmd = st._cache_svc_cmd

/-! ## Host group events and the rows of table `hostgroups` -/

/-- Rows of the tables `hostgroups` (by `hostgroup_id`) and `hosts_hostgroups`
(pairs `(host_id, hostgroup_id)`). -/
structure GroupTables where
  hostgroups : Nat → Bool
  hosts_hostgroups : List (Nat × Nat)

/-- Text of the statement of `_clean_tables` that deletes the memberships of
the hosts of an instance. -/
def clean_tables_hostgroups_query (instance_id : Nat) : String :=
  "DELETE hosts_hostgroups FROM hosts_hostgroups LEFT JOIN hosts ON " ++
    "hosts_hostgroups.host_id=hosts.host_id WHERE hosts.instance_id=" ++
    toString instance_id

/-- What one statement does to the rows of `hostgroups` and
`hosts_hostgroups`, `hosts` giving the instance of each row of table `hosts`:
the upsert of a group writes its row, the insert and the delete of a member
write and remove its pair, the statements that delete memberships joined on
`hosts` remove the pairs of the hosts of that instance, and the statement of
`_clean_group_table` removes the groups that have no pair left.  Constraints
between the tables are not part of it. -/
def groups_apply (hosts : Nat → Option Nat) (t : GroupTables) : Effect → GroupTables
  | Effect.run _ (Stmt.host_group_insupdate hg) =>
    { t with hostgroups := set_insert t.hostgroups hg.id }
  | Effect.run _ (Stmt.host_group_member_insert hgm) =>
    { t with hosts_hostgroups :=
        if (hgm.host_id, hgm.group_id) ∈ t.hosts_hostgroups then t.hosts_hostgroups
        else t.hosts_hostgroups ++ [(hgm.host_id, hgm.group_id)] }
  | Effect.run _ (Stmt.host_group_member_delete hgm) =>
    { t with hosts_hostgroups :=
        t.hosts_hostgroups.filter fun m => decide (m ≠ (hgm.host_id, hgm.group_id)) }
  | Effect.run _ (Stmt.query sql) =>
    if sql = clean_empty_hostgroups_query then
      { t with hostgroups := fun g =>
          t.hostgroups g && t.hosts_hostgroups.any fun m => decide (m.2 = g) }
    else
      { t with hosts_hostgroups :=
          t.hosts_hostgroups.filter fun m =>
            match hosts m.1 with
            | some inst =>
              decide (sql ≠ delete_hostgroup_members_query m.2 inst ∧
                sql ≠ clean_tables_hostgroups_query inst)
            | none => true }
  | _ => t

/-- Rows of the two tables after the statements of `effs`, executed in order from rows `t`. -/
def groups_rows (hosts : Nat → Option Nat) (effs : List Effect) (t : GroupTables) :
    GroupTables :=
  effs.foldl (groups_apply hosts) t

/-- Host group events. -/
inductive GroupEvent
  | host_group (hg : host_group)
  | host_group_member (hgm : host_group_member)

/-- Handler run for a host group event. -/
def process_group (env : Env) : GroupEvent → State → State
  | GroupEvent.host_group hg, st => _process_host_group env hg st
  | GroupEvent.host_group_member hgm, st => _process_host_group_member env hgm st

/-- Handlers run for a sequence of host group events. -/
def process_groups (env : Env) : List GroupEvent → State → State
  | [], st => st
  | e :: rest, st => process_groups env rest (process_group env e st)

/-- Every group of `_hostgroup_cache` has a row in `hostgroups`. -/
def cached_groups_in_table (t : GroupTables) (st : State) : Prop :=
  ∀ g, st._hostgroup_cache g = true → t.hostgroups g = true

/-! ## Sample inputs -/

/-- Three connections, an instance going to connection `id % 3`, a string
hash that is the length of the string. -/
def sample_env : Env :=
  { _instance_timeout := 300
    timestamp_outdated := fun ts now timeout => decide (now - ts.timestamp > (timeout : Int))
    special_conn_custom_variable := 0
    special_conn_downtime := 1
    special_conn_host_group := 3
    special_conn_log := 4
    special_conn_severity := 5
    col_size := fun _ => 255
    _store_in_resources := true
    _store_in_hosts_services := true
    connections_count := 3
    choose_connection_by_instance := fun i => i % 3
    special_conn_tag := 2
    bbdo_major_v := 3
    hash := fun s => s.length
    host_state_unreachable := 2
    service_state_unknown := 3
    _rrd_len := 15552000
    BA := 3
    truncate := fun s n => String.mk (s.toList.take n)
    index_data_host_name_size := 255
    index_data_service_description_size := 255
    escape := fun s n => String.mk (s.toList.take n)
    hosts_event_handler_size := 255
    hosts_check_command_size := 65534
    hosts_check_period_size := 75
    services_notification_period_size := 75 }

/-- Host 42 belongs to instance 1; every other cache is empty and no
instance has a stored timestamp. -/
def sample_state : State :=
  { _cache_host_instance := fun k => if k = 42 then some 1 else none
    _cache_hst_cmd := fun _ => none
    _cache_deleted_instance_id := []
    _resource_cache := fun _ => none
    _tags_cache := fun _ => none
    _severity_cache := fun _ => none
    _index_cache := fun _ => none
    deref_end := false
    thrown := false
    _stored_timestamps := []
    _oldest_timestamp := 0
    _cache_svc_cmd := fun _ => none
    _hostgroup_cache := fun _ => false
    _cv_queue := []
    _cvs_queue := []
    _downtimes_queue := []
    _log_queue := []
    out := [] }

/-- An active protobuf status of host 42 whose next check is one hour old at time 100000. -/
def sample_hscr : HostStatus :=
  { host_id := 42, check_type := CheckType.ACTIVE, next_check := 96400, last_check := 96000,
    state := 0, state_type := 1, output := "OK", perfdata := "" }

/-- A legacy active status of host 42, next check one hour old at time
100000, sent while active checks are disabled. -/
def sample_host_status : host_status :=
  { host_id := 42, check_type := 0, active_checks_enabled := false, next_check := 96400,
    last_check := 96000, current_state := 0, state_type := 1 }

/-- Scenario C: the same status with active checks enabled. -/
def scenario_c_host_status : host_status :=
  { host_id := 42, check_type := 0, active_checks_enabled := true, next_check := 96400,
    last_check := 96000, current_state := 0, state_type := 1 }

/-- A passive legacy check of host 42 with an empty command line. -/
def sample_host_check : host_check :=
  { host_id := 42, check_type := 1, active_checks_enabled := true, next_check := 0,
    command_line := "" }

/-- A passive legacy check of host 42 with a command line. -/
def sample_host_check_ping : host_check :=
  { host_id := 42, check_type := 1, active_checks_enabled := true, next_check := 0,
    command_line := "ping" }

/-- Scenario A: host 42 of poller 1, enabled. -/
def sample_host : host :=
  { poller_id := 1, host_id := 42, host_name := "h", alias_ := "h", enabled := true }

/-- A host event without host id, as generated for BAM. -/
def sample_fake_host : host :=
  { poller_id := 1, host_id := 0, host_name := "_Module_BAM", alias_ := "", enabled := true }

/-- Protobuf form of `sample_host`. -/
def sample_pb_host : Host :=
  { host_id := 42, instance_id := 1, name := "h", alias_ := "h", enabled := true,
    severity_id := 0, tags := [], state := 0 }

/-- Scenario D: the instance event of poller 1. -/
def sample_instance : instance_ev :=
  { poller_id := 1, name := "p1", is_running := false }

/-- Database answers: the INSERT into resources yields id 7, every INSERT into tags fails. -/
def sample_db : ResourceDb :=
  { insert_id := some 7, select_row := none, tag_id := fun _ => none }

/-- The sample state once poller 1 is recorded as responsive. -/
def sample_state_responsive : State :=
  { sample_state with
    _stored_timestamps :=
      [(1, { id := 1, state := state_type.responsive, timestamp := 99000 })]
    _oldest_timestamp := 99000 }

/-- Scenario A then Scenario D: the host event of host 42, then the instance
event of its poller. -/
def sample_events : List (Int × Event) :=
  [(100000, Event.host sample_host), (100001, Event.instance_ sample_instance)]

/-- The sample state with resource 7 cached for host 42. -/
def sample_state_resource : State :=
  { sample_state with _resource_cache := fun k => if k = (42, 0) then some 7 else none }

/-- The same state once poller 1 has been deleted. -/
def sample_state_deleted : State :=
  { sample_state_resource with _cache_deleted_instance_id := [1] }

/-- Database answers: the INSERT into resources fails and the SELECT returns no row. -/
def sample_db_no_row : ResourceDb :=
  { insert_id := none, select_row := some none, tag_id := fun _ => none }

/-- Service 7 of host 42, enabled. -/
def sample_service : Service :=
  { host_id := 42, service_id := 7, host_name := "h", description := "cpu",
    display_name := "cpu", type := 0, check_interval := 1, enabled := true,
    severity_id := 0, tags := [], state := 0 }

/-- Database answers: the INSERT into `index_data` yields id 5. -/
def sample_index_db : IndexDb :=
  { insert_id := some 5, select_row := none }

/-- Host 42 with two tags. -/
def sample_pb_host_tagged : Host :=
  { sample_pb_host with tags := [{ id := 1, type := 0 }, { id := 2, type := 1 }] }

/-- Resource 7 cached for host 42, surrogate 11 cached for tag `(1, 0)`, and
poller 1 recorded as responsive. -/
def sample_state_tagged : State :=
  { sample_state_responsive with
    _resource_cache := fun k => if k = (42, 0) then some 7 else none
    _tags_cache := fun k => if k = (1, 0) then some 11 else none }

/-- An adaptive host event for host 42 that sets `notify` and `check_interval`. -/
def sample_adaptive_host : AdaptiveHost :=
  { host_id := 42, notify := some true, active_checks := none, should_be_scheduled := none,
    passive_checks := none, event_handler_enabled := none, flap_detection := none,
    obsess_over_host := none, event_handler := none, check_command := none,
    check_interval := some 5, retry_interval := none, max_check_attempts := none,
    check_freshness := none, check_period := none, notification_period := none }

/-- Service 7 of host 42 with a host name of 256 characters, one more than
the column `host_name` of `index_data` holds. -/
def sample_service_long : Service :=
  { sample_service with host_name := String.mk (List.replicate 256 'a') }

/-- Database answers: the INSERT into `index_data` fails and the SELECT reads
back the row of id 5, written under the host name `old`. -/
def sample_index_db_row : IndexDb :=
  { insert_id := none
    select_row := some (some
      { id := 5, host_name := "old", service_description := "cpu", rrd_retention := 0,
        check_interval := 1, special := "0", locked := "0" }) }

/-- Host group 5 of poller 1, enabled. -/
def sample_host_group : host_group :=
  { id := 5, name := "g5", enabled := true, poller_id := 1 }

/-- The same group, disabled. -/
def sample_host_group_disabled : host_group :=
  { sample_host_group with enabled := false }

/-- Host 42 becomes a member of group 6. -/
def sample_host_group_member : host_group_member :=
  { host_id := 42, group_id := 6, group_name := "g6", enabled := true, poller_id := 1 }

/-- No host group and no membership. -/
def sample_group_tables : GroupTables :=
  { hostgroups := fun _ => false, hosts_hostgroups := [] }

/-- Rows of table `hosts`: host 42 belongs to instance 1. -/
def sample_hosts (k : Nat) : Option Nat :=
  if k = 42 then some 1 else none

/-- The sample configuration with the timeout of instances disabled. -/
def sample_env_no_timeout : Env :=
  { sample_env with _instance_timeout := 0 }

/-- Poller 1 was last heard at time 99000 and is recorded as responsive;
poller 2 is recorded as unresponsive. -/
def sample_state_pollers : State :=
  { sample_state with
    _stored_timestamps :=
      [(1, { id := 1, state := state_type.responsive, timestamp := 99000 }),
       (2, { id := 2, state := state_type.unresponsive, timestamp := 90000 })]
    _oldest_timestamp := 99000 }

/-- A severity event that deletes severity 3 of type 1. -/
def sample_severity_delete : Severity :=
  { id := 3, type := 1, name := "major", level := 2, icon_id := 0,
    action := Severity_Action.DELETE }

/-- The sample state with surrogate 8 cached for severity `(4, 1)`. -/
def sample_state_severity : State :=
  { sample_state with _severity_cache := fun k => if k = (4, 1) then some 8 else none }

/-- Two pollers: 1 was last seen at time 100, 2 at time 1000. -/
def sample_state_two_pollers : State :=
  { sample_state with
    _stored_timestamps :=
      [(1, { id := 1, state := state_type.responsive, timestamp := 100 }),
       (2, { id := 2, state := state_type.responsive, timestamp := 1000 })]
    _oldest_timestamp := 100 }

/-- The event that deletes tag 7 of type 0. -/
def sample_tag_delete : Tag :=
  { id := 7, type := 0, name := "linux", action := Tag_Action.DELETE }

/-- The tag cache holds the id 42 of table `tags` for tag 7 of type 0. -/
def sample_state_tag_cached : State :=
  { sample_state with _tags_cache := cache_set sample_state._tags_cache (7, 0) 42 }

/-- A stream that knows no host. -/
def sample_state_no_host : State :=
  { sample_state with _cache_host_instance := fun _ => none }

/-- A passive status of service 7 of host 42. -/
def sample_sscr : ServiceStatus :=
  { host_id := 42, service_id := 7, check_type := CheckType.PASSIVE, next_check := 0,
    last_check := 96000, state := 0, state_type := 1, output := "OK", perfdata := "load=1" }

end UnifiedSql

/-!
# Centreon broker: storage stream (`centreon-broker/storage/src/stream.cc`)

Shallow embedding of `storage::stream`.

* The state holds `_process_out`, the index cache, the metric cache and `out`,
  the queries executed and the events written to `multiplexing::publisher`, in
  program order.
* A query object that is given its text and executed is one effect.  The
  answers of the database are arguments; so is the list that the perfdata
  parser returns.
* A function returns whether an exception left it, with the state reached.
* A `double` is `nan` or a rational; products of doubles and their conversion
  to `time_t` are the parameter `interval` of `Env`.
-/

namespace Storage

/-- Values of type `double` that the stream copies or tests with `isnan`. -/
inductive double
  | nan
  | val (q : ℚ)
  deriving DecidableEq

/-- Embedding of `check_double`: the `QVariant` bound to a statement, `none`
for the NULL variant. -/
def check_double : double → Option ℚ
  | double.nan => none
  | double.val q => some q

/-- One parsed metric, seen through the accessors of `storage::perfdata`. -/
structure perfdata where
  name : String
  unit : String
  value : double
  warning : double
  critical : double
  min : double
  max : double
  deriving DecidableEq

/-- Fields of `neb::service_status` read by `stream::write`. -/
structure service_status where
  host_id : Nat
  service_id : Nat
  host_name : String
  service_description : String
  perf_data : String
  last_check : Int
  check_interval : double
  current_state : Int
  deriving DecidableEq

/-- Fields of `neb::service` read by `stream::write`. -/
structure service where
  host_id : Nat
  service_id : Nat
  host_name : String
  service_description : String
  deriving DecidableEq

/-- An event, seen through `data->type()`. -/
inductive data
  | service_status (ss : service_status)
  | service (s : service)
  | other

/-- The event `storage::status`. -/
structure status where
  ctime : Int
  index_id : Nat
  interval : Int
  rrd_len : Nat
  state : Int
  deriving DecidableEq

/-- The event `storage::metric`. -/
structure metric where
  ctime : Int
  interval : Int
  metric_id : Nat
  name : String
  rrd_len : Nat
  value : double
  deriving DecidableEq

/-- Queries executed on `_storage_db`, with the values formatted or bound. -/
inductive Query
  | index_data_insert (host_id : Nat) (host_name : String) (service_id : Nat)
      (service_description : String) (special : Nat)
  | index_data_select (host_id : Nat) (service_id : Nat)
  | metrics_insert (index_id : Nat) (escaped_metric_name : String)
  | metrics_select (index_id : Nat) (escaped_metric_name : String)
  | update_metrics (unit_name : String) (warn crit min max : Option ℚ) (index_id : Nat)
      (metric_name : String)
  | insert_data_bin (id_metric : Nat) (ctime : Nat) (value : double) (status : Int)
  | index_data_update (host_name : String) (service_description : String) (special : Nat)
      (host_id : Nat) (service_id : Nat)
  deriving DecidableEq

/-- Observable effects of the stream, in program order. -/
inductive Effect
  | exec (q : Query)
  | publish_status (s : status)
  | publish_metric (m : metric)
  deriving DecidableEq

/-- Configuration of the stream and the parts declared outside the translated
file: whether the driver has the feature `QSqlDriver::LastInsertId`, the
escaping `driver()->formatValue(field, true)`, and
`static_cast<time_t>(check_interval * _interval_length)`. -/
structure Env where
  _rrd_len : Nat
  _interval_length : Int
  _store_in_db : Bool
  has_last_insert_id : Bool
  format_value : String → String
  interval : double → Int → Int

/-- Members of `storage::stream` read or written by `write`, and the effects
produced so far. -/
structure State where
  _process_out : Bool
  _index_cache : Nat × Nat → Option Nat
  _metric_cache : Nat × String → Option Nat
  out : List Effect

/-- Answers of the database to an INSERT and to the SELECT that fetches the
new id: `exec_ok` is `q.exec() && !q.lastError().isValid()`, `last_insert_id`
is `q.lastInsertId().toUInt()`, `select` is `q2.value(0).toUInt()`, or `none`
when the SELECT fails or has no row. -/
structure InsertAnswer where
  exec_ok : Bool
  last_insert_id : Nat
  select : Option Nat

/-- Answers of the database for one metric of the loop of `write`. -/
structure MetricAnswers where
  insert : InsertAnswer
  update_ok : Bool
  insert_data_bin_ok : Bool

/-- Execution of a query. -/
def exec (st : State) (q : Query) : State :=
  { st with out := st.out ++ [Effect.exec q] }

/-- Value bound to `:special`: `!strncmp(host_name, BAM_NAME, sizeof(BAM_NAME) - 1) ? 2 : 1`
with `BAM_NAME` the text `_Module_`. -/
def special (host_name : String) : Nat :=
  if host_name.toList.take 8 = "_Module_".toList then 2 else 1

/-- Embedding of `stream::_find_index_id`: the id returned, or `none` when it
throws, and the state reached. -/
def _find_index_id (env : Env) (host_id service_id : Nat) (host_name service_desc : String)
    (db : InsertAnswer) (st : State) : Option Nat × State :=
  match st._index_cache (host_id, service_id) with
  | some retval => (some retval, st)
  | none =>
    let st := exec st
      (Query.index_data_insert host_id host_name service_id service_desc (special host_name))
    if db.exec_ok = false then (none, st)
    else if env.has_last_insert_id = true ∨ db.last_insert_id = 0 then
      let st := exec st (Query.index_data_select host_id service_id)
      match db.select with
      | none => (none, st)
      | some retval =>
        if retval = 0 then (none, st)
        else
          (some retval,
            { st with _index_cache := fun k =>
                if k = (host_id, service_id) then some retval else st._index_cache k })
    else
      (some db.last_insert_id,
        { st with _index_cache := fun k =>
            if k = (host_id, service_id) then some db.last_insert_id else st._index_cache k })

/-- Embedding of `stream::_find_metric_id`: the id returned, or `none` when it
throws, and the state reached. -/
def _find_metric_id (env : Env) (index_id : Nat) (metric_name : String) (db : InsertAnswer)
    (st : State) : Option Nat × State :=
  match st._metric_cache (index_id, metric_name) with
  | some retval => (some retval, st)
  | none =>
    let escaped_metric_name := env.format_value metric_name
    let st := exec st (Query.metrics_insert index_id escaped_metric_name)
    if db.exec_ok = false then (none, st)
    else if env.has_last_insert_id = false ∨ db.last_insert_id = 0 then
      let st := exec st (Query.metrics_select index_id escaped_metric_name)
      match db.select with
      | none => (none, st)
      | some retval =>
        if retval = 0 then (none, st)
        else
          (some retval,
            { st with _metric_cache := fun k =>
                if k = (index_id, metric_name) then some retval else st._metric_cache k })
    else
      (some db.last_insert_id,
        { st with _metric_cache := fun k =>
            if k = (index_id, metric_name) then some db.last_insert_id
            else st._metric_cache k })

/-- The loop of `stream::write` over the parsed metrics; `i` is the position
of the first metric of the list in the perfdata.  The result tells whether an
exception left the loop. -/
def write_metrics (env : Env) (ss : service_status) (index_id : Nat)
    (mdb : Nat → MetricAnswers) : Nat → List perfdata → State → Bool × State
  | _, [], st => (false, st)
  | i, pd :: rest, st =>
    let r := _find_metric_id env index_id pd.name (mdb i).insert st
    match r.1 with
    | none => (true, r.2)
    | some metric_id =>
      let st := exec r.2
        (Query.update_metrics pd.unit (check_double pd.warning) (check_double pd.critical)
          (check_double pd.min) (check_double pd.max) index_id pd.name)
      if (mdb i).update_ok = false then (true, st)
      else
        let st :=
          if env._store_in_db = true then
            exec st
              (Query.insert_data_bin metric_id (ss.last_check % 4294967296).toNat pd.value
                (ss.current_state + 1))
          else st
        if env._store_in_db = true ∧ (mdb i).insert_data_bin_ok = false then (true, st)
        else
          let perf : metric :=
            { ctime := ss.last_check
              interval := env.interval ss.check_interval env._interval_length
              metric_id := metric_id
              name := pd.name
              rrd_len := env._rrd_len
              value := pd.value }
          let st := { st with out := st.out ++ [Effect.publish_metric perf] }
          write_metrics env ss index_id mdb (i + 1) rest st

/-- Embedding of `stream::write`: whether it throws, and the state reached.
`parsed` is the list filled by `parse_perfdata` (`none`: it throws a
`perfdata` exception), `idb` the answers to `_find_index_id`, `mdb i` the
answers for the metric at position `i`, `update_ok` the answer to the UPDATE
of `index_data` run for a service definition. -/
def write (env : Env) (d : data) (parsed : Option (List perfdata)) (idb : InsertAnswer)
    (mdb : Nat → MetricAnswers) (update_ok : Bool) (st : State) : Bool × State :=
  if st._process_out = false then (true, st)
  else
    match d with
    | data.service_status ss =>
      if ss.perf_data ≠ "" then
        let r := _find_index_id env ss.host_id ss.service_id ss.host_name
          ss.service_description idb st
        match r.1 with
        | none => (true, r.2)
        | some index_id =>
          let s : status :=
            { ctime := ss.last_check
              index_id := index_id
              interval := env.interval ss.check_interval env._interval_length
              rrd_len := env._rrd_len
              state := ss.current_state }
          let st := { r.2 with out := r.2.out ++ [Effect.publish_status s] }
          match parsed with
          | none => (false, st)
          | some pds => write_metrics env ss index_id mdb 0 pds st
      else (false, st)
    | data.service s =>
      let st := exec st
        (Query.index_data_update s.host_name s.service_description (special s.host_name)
          s.host_id s.service_id)
      if update_ok = false then (true, st) else (false, st)
    | data.other => (false, st)

/-- Calls of `_find_index_id` made one after the other, whatever they return. -/
def find_index_calls (env : Env) :
    List (Nat × Nat × String × String × InsertAnswer) → State → State
  | [], st => st
  | (h, s, hn, sd, db) :: rest, st =>
    find_index_calls env rest (_find_index_id env h s hn sd db st).2

/-- The answers to an INSERT let `_find_index_id` return: the INSERT succeeds
and, when the id is fetched by the SELECT, the SELECT returns a row with a
non-zero id. -/
def index_answer_ok (env : Env) (a : InsertAnswer) : Bool :=
  a.exec_ok &&
    (!(env.has_last_insert_id || decide (a.last_insert_id = 0)) ||
      match a.select with
      | some k => decide (k ≠ 0)
      | none => false)

/-- The answers for one metric let the loop of `write` go on: the same for
the INSERT into `metrics`, and the UPDATE of `metrics` and the INSERT into
`data_bin` succeed. -/
def metric_answer_ok (env : Env) (m : MetricAnswers) : Bool :=
  m.insert.exec_ok &&
    (!(!env.has_last_insert_id || decide (m.insert.last_insert_id = 0)) ||
      match m.insert.select with
      | some k => decide (k ≠ 0)
      | none => false) &&
    m.update_ok && (!env._store_in_db || m.insert_data_bin_ok)

/-- The events written to the publisher among the effects, in order. -/
def published (effs : List Effect) : List Effect :=
  effs.filter fun e =>
    match e with
    | Effect.exec _ => false
    | _ => true

/-- The event `storage::metric` of a parsed metric of the status `ss`, with
the id that `cache` holds for its name under `index_id`. -/
def metric_of (env : Env) (ss : service_status) (cache : Nat × String → Option Nat)
    (index_id : Nat) (pd : perfdata) : metric :=
  { ctime := ss.last_check
    interval := env.interval ss.check_interval env._interval_length
    metric_id := (cache (index_id, pd.name)).getD 0
    name := pd.name
    rrd_len := env._rrd_len
    value := pd.value }

/-- The id of a new row of `index_data`, as `_find_index_id` takes it from
the answers of the database: the id read back by the SELECT when the driver
has the feature `LastInsertId` or `lastInsertId()` is 0, else `lastInsertId()`. -/
def new_index_id (env : Env) (a : InsertAnswer) : Nat :=
  if env.has_last_insert_id = true ∨ a.last_insert_id = 0 then a.select.getD 0
  else a.last_insert_id

/-- The id of a new row of `metrics`, as `_find_metric_id` takes it from the
answers of the database: the id read back by the SELECT when the driver lacks
the feature `LastInsertId` or `lastInsertId()` is 0, else `lastInsertId()`. -/
def new_metric_id (env : Env) (a : InsertAnswer) : Nat :=
  if env.has_last_insert_id = false ∨ a.last_insert_id = 0 then a.select.getD 0
  else a.last_insert_id

/-- The index id resolved for a pair: the id that `cache` holds for it, else
the id of the new row. -/
def resolved_index_id (env : Env) (cache : Nat × Nat → Option Nat) (key : Nat × Nat)
    (a : InsertAnswer) : Nat :=
  match cache key with
  | some v => v
  | none => new_index_id env a

/-- The metric ids resolved for the metrics `pds` under `index_id`, in order,
starting from the metric cache `cache`: the id that the cache holds for the
name, else the id of the new row, which is then cached for the metrics that
follow.  `i` is the position of the first metric of the list. -/
def resolved_metric_ids (env : Env) (index_id : Nat) (mdb : Nat → MetricAnswers) :
    Nat → List perfdata → (Nat × String → Option Nat) → List Nat
  | _, [], _ => []
  | i, pd :: rest, cache =>
    match cache (index_id, pd.name) with
    | some v => v :: resolved_metric_ids env index_id mdb (i + 1) rest cache
    | none =>
      new_metric_id env (mdb i).insert ::
        resolved_metric_ids env index_id mdb (i + 1) rest
          (fun k =>
            if k = (index_id, pd.name) then some (new_metric_id env (mdb i).insert)
            else cache k)

/-- The event `storage::metric` published for the metric `pd` of the status
`ss` with the metric id `id`. -/
def metric_event (env : Env) (ss : service_status) (pd : perfdata) (id : Nat) : metric :=
  { ctime := ss.last_check
    interval := env.interval ss.check_interval env._interval_length
    metric_id := id
    name := pd.name
    rrd_len := env._rrd_len
    value := pd.value }

/-- The effects of the loop of `write` over the metrics: a statement on table
`metrics` or `data_bin`, or a metric event given to the publisher. -/
def is_metric_effect : Effect → Bool
  | Effect.exec (Query.metrics_insert _ _) => true
  | Effect.exec (Query.metrics_select _ _) => true
  | Effect.exec (Query.update_metrics _ _ _ _ _ _ _) => true
  | Effect.exec (Query.insert_data_bin _ _ _ _) => true
  | Effect.publish_metric _ => true
  | _ => false

/-! ## Sample inputs -/

/-- A driver with `LastInsertId`, data stored in `data_bin`, an interval of
60 seconds; the interval of a status is the whole part of the product. -/
def sample_env : Env :=
  { _rrd_len := 15552000
    _interval_length := 60
    _store_in_db := true
    has_last_insert_id := true
    format_value := fun s => "'" ++ s ++ "'"
    interval := fun d l =>
      match d with
      | double.nan => 0
      | double.val q => Int.floor (q * l) }

/-- A running stream with empty caches. -/
def sample_state : State :=
  { _process_out := true
    _index_cache := fun _ => none
    _metric_cache := fun _ => none
    out := [] }

/-- Scenario B: the status of service 7 of host 42 with two metrics. -/
def sample_service_status : service_status :=
  { host_id := 42, service_id := 7, host_name := "h", service_description := "cpu",
    perf_data := "load=0.42;1;2;0;4 mem=35%;80;95", last_check := 1100,
    check_interval := double.val 1, current_state := 0 }

/-- The two metrics of Scenario B. -/
def sample_perfdata : List perfdata :=
  [ { name := "load", unit := "", value := double.val (21 / 50), warning := double.val 1,
      critical := double.val 2, min := double.val 0, max := double.val 4 },
    { name := "mem", unit := "%", value := double.val 35, warning := double.val 80,
      critical := double.val 95, min := double.nan, max := double.nan } ]

/-- Answers: the INSERT succeeds and the SELECT returns id 5. -/
def sample_answer : InsertAnswer :=
  { exec_ok := true, last_insert_id := 5, select := some 5 }

/-- Answers for the metric at position `i`: id `10 + i`, every statement succeeds. -/
def sample_metric_answers (i : Nat) : MetricAnswers :=
  { insert := { exec_ok := true, last_insert_id := 10 + i, select := some (10 + i) },
    update_ok := true, insert_data_bin_ok := true }

end Storage

/-!
# Centreon broker: statistics worker (`centreon-broker/stats/src/worker.cc`)

Shallow embedding of `worker::_generate_stats_for_endpoint`.

* A text (`std::string`, `QString`) is a list of characters; the function
  returns the text that it appends to `buffer`.
* The result of `std::string::find` is `none` for `npos`.  The text searched
  holds at least the two spaces inserted before, so `size() - 1` does not wrap
  and never equals `npos`.
* The loop that rewrites the newlines has a bound on its iterations; the
  result is `none` when the bound is reached before the loop condition fails.
-/

namespace Stats

/-- Members of `processing::failover` read by the worker, the secondary
failover apart.  `_from` and `_to` tell whether the stream pointer is set,
`_endpoint` is the text that `_endpoint->stats(buffer)` appends (`none` for a
null endpoint), `event_processing_speed` the text printed for the speed with
`std::fixed` and `std::setprecision(2)`. -/
structure failover_members where
  _name : List Char
  _from : Bool
  _to : Bool
  _last_error : List Char
  isRunning : Bool
  last_event : Int
  event_processing_speed : List Char
  _endpoint : Option (List Char)
  _last_connect_attempt : Int
  _last_connect_success : Int

/-- A `processing::failover` with its secondary failover `_failover`. -/
inductive failover where
  | mk (m : failover_members) (_failover : Option failover)

/-- The members of a failover. -/
def failover.members : failover → failover_members
  | failover.mk m _ => m

/-- The secondary failover. -/
def failover._failover : failover → Option failover
  | failover.mk _ c => c

/-- The test `!fo->_failover.isNull() && fo->_failover->isRunning()`. -/
def failover_is_running (fo : failover) : Bool :=
  match fo._failover with
  | none => false
  | some c => c.members.isRunning

/-- Embedding of `std::string::find(c, pos)`, searching `s` whose first
character has index `i`. -/
def find_from (c : Char) : List Char → Nat → Option Nat
  | [], _ => none
  | x :: xs, i => if x = c then some i else find_from c xs (i + 1)

/-- Embedding of `std::string::find(c, pos)`. -/
def find (s : List Char) (c : Char) (pos : Nat) : Option Nat :=
  find_from c (s.drop pos) pos

/-- Embedding of `std::string::insert(pos, r)`. -/
def insert (s : List Char) (pos : Nat) (r : List Char) : List Char :=
  s.take pos ++ r ++ s.drop pos

/-- Embedding of `std::string::replace(pos, len, r)`. -/
def replace (s : List Char) (pos len : Nat) (r : List Char) : List Char :=
  s.take pos ++ r ++ s.drop (pos + len)

/-- The loop `while ((pos != subbuffer.size() - 1) && (pos != npos))` of
`_generate_stats_for_endpoint`, run for at most `fuel` iterations. -/
def rewrite_newlines : Nat → List Char → Option Nat → Option (List Char)
  | _, subbuffer, none => some subbuffer
  | fuel, subbuffer, some pos =>
    if pos = subbuffer.length - 1 then some subbuffer
    else
      match fuel with
      | 0 => none
      | fuel + 1 =>
        let subbuffer := replace subbuffer pos 1 "\n  ".toList
        rewrite_newlines fuel subbuffer (find subbuffer '\n' (pos + 3))

/-- The statements of `_generate_stats_for_endpoint` between the recursive
call and `buffer.append(subbuffer)`: the text appended for the text
`subbuffer` of the secondary failover. -/
def indent_subbuffer (subbuffer : List Char) : Option (List Char) :=
  let subbuffer := insert subbuffer 0 "  ".toList
  rewrite_newlines (subbuffer.length + 1) subbuffer (find subbuffer '\n' 0)

/-- The block of `_generate_stats_for_endpoint` that prints the state. -/
def state_block (fo : failover) (is_out : Bool) : List Char :=
  let s := if is_out = true then fo.members._to else fo.members._from
  "state=".toList ++
    (if s = false then
      if fo.members._last_error ≠ [] then
        "disconnected".toList ++ " (".toList ++ fo.members._last_error ++ ")\n".toList
      else "listening\n".toList
    else if failover_is_running fo = true then "replaying\n".toList
    else "connected\n".toList)

/-- The text that `_generate_stats_for_endpoint` appends before it looks at
the secondary failover. -/
def own_stats (fo : failover) (is_out : Bool) : List Char :=
  (if is_out = true then "output ".toList else "input ".toList) ++ fo.members._name ++
    "\n".toList ++
    state_block fo is_out ++
    ("last event at=".toList ++ (toString fo.members.last_event).toList ++ "\n".toList ++
      "event processing speed=".toList ++ fo.members.event_processing_speed ++
      " events/s\n".toList) ++
    (match fo.members._endpoint with
      | some stats => stats
      | none => []) ++
    ("last connection attempt=".toList ++
      (toString fo.members._last_connect_attempt).toList ++ "\n".toList ++
      "last connection success=".toList ++
      (toString fo.members._last_connect_success).toList ++ "\n".toList)

/-- Embedding of `worker::_generate_stats_for_endpoint`: the text appended to
`buffer`. -/
def _generate_stats_for_endpoint : failover → Bool → Option (List Char)
  | failover.mk m none, is_out => some (own_stats (failover.mk m none) is_out)
  | failover.mk m (some c), is_out =>
    if c.members.isRunning = true then
      match _generate_stats_for_endpoint c is_out with
      | none => none
      | some subbuffer =>
        match indent_subbuffer subbuffer with
        | none => none
        | some subbuffer =>
          some (own_stats (failover.mk m (some c)) is_out ++ "failover\n".toList ++ subbuffer)
    else some (own_stats (failover.mk m (some c)) is_out)

/-- The text made of the lines `ls`, each followed by a newline. -/
def unlines (ls : List (List Char)) : List Char :=
  (ls.map fun l => l ++ ['\n']).flatten

/-! ## Sample inputs -/

/-- A connected output without secondary failover. -/
def sample_members : failover_members :=
  { _name := "central-out".toList, _from := false, _to := true, _last_error := [],
    isRunning := true, last_event := 1100, event_processing_speed := "2.50".toList,
    _endpoint := none, _last_connect_attempt := 1000, _last_connect_success := 1000 }

/-- An output with a running secondary failover. -/
def sample_failover : failover :=
  failover.mk sample_members
    (some (failover.mk { sample_members with _name := "backup".toList, _to := false } none))

end Stats

/-!
# Centreon broker: RRD module (`broker/rrd/src/main.cc`)

Shallow embedding of `broker_module_init` and `broker_module_deinit`.

* The state holds the load count `instances`, a 32-bit unsigned integer, and
  `out`, the calls made on `io::events` and `io::protocols`, in program order.
* Messages written to the log are left out.
-/

namespace Rrd

/-- Calls made on `io::events::instance()` and `io::protocols::instance()`. -/
inductive Effect
  | register_event (element : String) (name : String)
  | reg (name : String) (osi_from osi_to : Nat)
  | unreg (name : String)
  deriving DecidableEq

/-- The static variable `instances` and the calls made so far. -/
structure State where
  instances : Nat
  out : List Effect

/-- The calls of `broker_module_init` that register the storage events. -/
def register_events : List Effect :=
  [ Effect.register_event "de_metric" "metric",
    Effect.register_event "de_rebuild" "rebuild",
    Effect.register_event "de_remove_graph" "remove_graph",
    Effect.register_event "de_status" "status",
    Effect.register_event "de_index_mapping" "index_mapping",
    Effect.register_event "de_metric_mapping" "metric_mapping",
    Effect.register_event "de_rebuild_message" "rebuild_message",
    Effect.register_event "de_remove_graph_message" "remove_graphs_message" ]

/-- Embedding of `broker_module_deinit`; `--instances` on a 32-bit unsigned
integer takes 0 to `2 ^ 32 - 1`. -/
def broker_module_deinit (st : State) : State :=
  let st := { st with instances := if st.instances = 0 then 4294967295 else st.instances - 1 }
  if st.instances = 0 then { st with out := st.out ++ [Effect.unreg "RRD"] }
  else st

/-- Embedding of `broker_module_init`; `instances++` is taken modulo `2 ^ 32`. -/
def broker_module_init (st : State) : State :=
  let old := st.instances
  let st := { st with instances := (st.instances + 1) % 4294967296 }
  if old = 0 then
    { st with out := st.out ++ register_events ++ [Effect.reg "RRD" 1 7] }
  else st

/-- A call of one of the two routines of the module. -/
inductive Call
  | init
  | deinit
  deriving DecidableEq

/-- A sequence of calls, run in order. -/
def run : List Call → State → State
  | [], st => st
  | Call.init :: rest, st => run rest (broker_module_init st)
  | Call.deinit :: rest, st => run rest (broker_module_deinit st)

end Rrd

/-!
# Centreon engine: state retention (`centreon-engine/base/sretention.cc`)

Shallow embedding of `save_state_information`.

* The state holds the global `retain_state_information` and `out`, the calls
  made to the event broker, to the retention routine and to the log, in
  program order.
* The values of the macros `OK`, `ERROR`, `TRUE` and `FALSE` and whether
  `USE_EVENT_BROKER` and `USE_XRDDEFAULT` are defined are parameters; the value
  returned by `xrddefault_save_state_information` is an argument.
-/

namespace Retention

/-- Types of retention event sent to the event broker. -/
inductive retention_type
  | NEBTYPE_RETENTIONDATA_STARTLOAD
  | NEBTYPE_RETENTIONDATA_ENDLOAD
  | NEBTYPE_RETENTIONDATA_STARTSAVE
  | NEBTYPE_RETENTIONDATA_ENDSAVE
  deriving DecidableEq

/-- Calls made by the retention functions. -/
inductive Effect
  | broker_retention_data (type : retention_type)
  | xrddefault_save_state_information
  | logit (message : String)
  deriving DecidableEq

/-- Macros of the build. -/
structure Env where
  OK : Int
  ERROR : Int
  TRUE : Int
  FALSE : Int
  USE_EVENT_BROKER : Bool
  USE_XRDDEFAULT : Bool

/-- The global `retain_state_information` and the calls made so far. -/
structure State where
  retain_state_information : Int
  out : List Effect

/-- A call made by the function. -/
def emit (st : State) (e : Effect) : State :=
  { st with out := st.out ++ [e] }

/-- Embedding of `save_state_information`: the value returned and the state
reached.  `saved` is the value that `xrddefault_save_state_information`
returns. -/
def save_state_information (env : Env) (autosave : Int) (saved : Int) (st : State) :
    Int × State :=
  let result := env.OK
  if st.retain_state_information = env.FALSE then (env.OK, st)
  else
    let st :=
      if env.USE_EVENT_BROKER = true then
        emit st (Effect.broker_retention_data retention_type.NEBTYPE_RETENTIONDATA_STARTSAVE)
      else st
    let st :=
      if env.USE_XRDDEFAULT = true then emit st Effect.xrddefault_save_state_information
      else st
    let result := if env.USE_XRDDEFAULT = true then saved else result
    let st :=
      if env.USE_EVENT_BROKER = true then
        emit st (Effect.broker_retention_data retention_type.NEBTYPE_RETENTIONDATA_ENDSAVE)
      else st
    if result = env.ERROR then (env.ERROR, st)
    else
      let st :=
        if autosave = env.TRUE then
          emit st (Effect.logit "Auto-save of retention data completed successfully.\n")
        else st
      (env.OK, st)

/-- The retention events sent to the event broker among the calls, in order. -/
def retention_events (effs : List Effect) : List retention_type :=
  effs.filterMap fun e =>
    match e with
    | Effect.broker_retention_data t => some t
    | _ => none

/-- The calls other than messages written to the log, in order. -/
def without_log (effs : List Effect) : List Effect :=
  effs.filter fun e =>
    match e with
    | Effect.logit _ => false
    | _ => true

/-! ## Sample inputs -/

/-- A build with the event broker and the default retention routines. -/
def sample_env : Env :=
  { OK := 0, ERROR := -2, TRUE := 1, FALSE := 0, USE_EVENT_BROKER := true,
    USE_XRDDEFAULT := true }

/-- Retention enabled, nothing sent yet. -/
def sample_state : State :=
  { retain_state_information := 1, out := [] }

end Retention

/-!
# Centreon broker: feeder thread (`centreon-broker/src/processing/feeder.cc`)

Shallow embedding of `feeder::run`.

* The state holds the two stream pointers (`none` for a null pointer), the
  flag `_should_exit` and `out`, the calls made on the two streams, in program
  order.
* What the streams and the other threads do is given by `Env`: the result of
  each `read`, whether each `write` throws, whether `exit()` was called before
  each test of the loop condition, and `isRunning()`.
* The loop has a bound on its iterations; the result is `none` when the bound
  is reached before the loop ends.
-/

namespace Feeder

/-- An event `io::data`, with the value of `size()`. -/
structure data where
  id : Nat
  size : Nat
  deriving DecidableEq

/-- What a call of `_in->read()` does: it returns a pointer, null for `none`,
or it throws. -/
inductive read_result
  | returns (d : Option data)
  | throws
  deriving DecidableEq

/-- Calls made on the streams. -/
inductive Effect
  | read (r : read_result)
  | write (d : data)
  deriving DecidableEq

/-- The streams and the threads around the feeder: `input i` is the result of
the read of iteration `i`, `write_throws i` tells whether the write of
iteration `i` throws, `exit_requested i` whether `exit()` was called before
the loop condition is tested for iteration `i`. -/
structure Env where
  input : Nat → read_result
  write_throws : Nat → Bool
  exit_requested : Nat → Bool
  isRunning : Bool

/-- Members of `processing::feeder` and the calls made so far. -/
structure State where
  _in : Option Nat
  _out : Option Nat
  _should_exit : Bool
  out : List Effect

/-- How `run` ends. -/
inductive Outcome
  | returned
  | rethrown
  deriving DecidableEq

/-- The loop `while (!_should_exit)` of `feeder::run` from iteration `i`, for
at most `fuel` tests of its condition: whether an exception left it, and the
state reached. -/
def feed_loop (env : Env) : Nat → Nat → State → Option (Bool × State)
  | 0, _, _ => none
  | fuel + 1, i, st =>
    let st := { st with _should_exit := st._should_exit || env.exit_requested i }
    if st._should_exit = true then some (false, st)
    else
      let st := { st with out := st.out ++ [Effect.read (env.input i)] }
      match env.input i with
      | read_result.throws => some (true, st)
      | read_result.returns none => some (false, st)
      | read_result.returns (some d) =>
        if d.size = 0 then some (false, st)
        else
          let st := { st with out := st.out ++ [Effect.write d] }
          if env.write_throws i = true then some (true, st)
          else feed_loop env fuel (i + 1) st

/-- Embedding of `feeder::run`: how it ends and the state reached. -/
def run (env : Env) (fuel : Nat) (st : State) : Option (Outcome × State) :=
  let st := { st with _should_exit := false }
  let r : Option (Bool × State) :=
    if st._in = none then some (true, st)
    else if st._out = none then some (true, st)
    else feed_loop env fuel 0 st
  match r with
  | none => none
  | some (threw, st) =>
    if threw = true ∧ env.isRunning = false then
      some (Outcome.rethrown, { st with _in := none, _out := none })
    else some (Outcome.returned, { st with _in := none, _out := none })

/-- The events given to `_out->write`, in order. -/
def written (effs : List Effect) : List data :=
  effs.filterMap fun e =>
    match e with
    | Effect.write d => some d
    | _ => none

/-- The results of the calls of `_in->read`, in order. -/
def reads (effs : List Effect) : List read_result :=
  effs.filterMap fun e =>
    match e with
    | Effect.read r => some r
    | _ => none

/-- The event of a read that returns an event with a size other than 0. -/
def event_of : read_result → Option data
  | read_result.returns (some d) => if d.size = 0 then none else some d
  | _ => none

/-- Iteration `i` reads an event, writes it and goes on: no exit was
requested, the read returns an event with a size other than 0 and the write
does not throw. -/
def goes_on (env : Env) (i : Nat) : Bool :=
  !env.exit_requested i && (event_of (env.input i)).isSome && !env.write_throws i

/-- Iteration `i` ends the loop without exception: an exit was requested, or
the read returns a null pointer or an event of size 0. -/
def ends_at (env : Env) (i : Nat) : Bool :=
  env.exit_requested i ||
    match env.input i with
    | read_result.returns none => true
    | read_result.returns (some d) => decide (d.size = 0)
    | read_result.throws => false

/-! ## Sample inputs -/

/-- A stream that returns the events 1, 2 and 3, then a null pointer. -/
def sample_env : Env :=
  { input := fun i => if i < 3 then read_result.returns (some { id := i + 1, size := 4 })
      else read_result.returns none
    write_throws := fun _ => false
    exit_requested := fun _ => false
    isRunning := true }

/-- A feeder prepared with two streams. -/
def sample_state : State :=
  { _in := some 0, _out := some 1, _should_exit := true, out := [] }

end Feeder

/-!
# Centreon engine: time period exclusions (`centreon-engine/src/objects/timeperiodexclusion.cc`)

Shallow embedding of `operator==` on `timeperiodexclusion`.

* A pointer is `none` when null and the address of the object otherwise.
* `is_equal` on two names, declared in `misc/object.hh`, is a parameter.
* The result records the evaluation of `*obj1.next == *obj2.next` with null
  pointers; the operator is not followed past that point.
-/

namespace Timeperiodexclusion

/-- The structure `timeperiodexclusion`: the name, and the address of the
next exclusion of the list. -/
structure timeperiodexclusion where
  timeperiod_name : Option String
  next : Option Nat
  deriving DecidableEq

/-- What a call of `operator==` does: it returns a value, or it applies `*`
to a null pointer. -/
inductive Result
  | value (b : Bool)
  | null_dereference
  deriving DecidableEq

/-- Embedding of `operator==(timeperiodexclusion const&, timeperiodexclusion const&)`.
The recursive call stands in the branch taken when both `next` pointers are
null, so its operands are never objects. -/
def operator_eq (is_equal : Option String → Option String → Bool)
    (obj1 obj2 : timeperiodexclusion) : Result :=
  if is_equal obj1.timeperiod_name obj2.timeperiod_name = true then
    if obj1.next = none ∧ obj2.next = none then Result.null_dereference
    else if obj1.next = obj2.next then Result.value true
    else Result.value false
  else Result.value false

/-- Embedding of `operator!=`. -/
def operator_ne (is_equal : Option String → Option String → Bool)
    (obj1 obj2 : timeperiodexclusion) : Result :=
  match operator_eq is_equal obj1 obj2 with
  | Result.value b => Result.value (!b)
  | Result.null_dereference => Result.null_dereference

/-! ## Sample inputs -/

/-- Equality of two names: both null, or both set to the same text. -/
def sample_is_equal (a b : Option String) : Bool :=
  decide (a = b)

/-- An exclusion list with the single name `nonworkhours`. -/
def sample_exclusion : timeperiodexclusion :=
  { timeperiod_name := some "nonworkhours", next := none }

/-- The head of the list `holidays`, `nonworkhours` whose second element is
stored at address 1. -/
def sample_list_at_1 : timeperiodexclusion :=
  { timeperiod_name := some "holidays", next := some 1 }

/-- The head of a list with the same names whose second element is stored at
address 2. -/
def sample_list_at_2 : timeperiodexclusion :=
  { timeperiod_name := some "holidays", next := some 2 }

end Timeperiodexclusion

/-! ## Theorems -/

namespace UnifiedSql

theorem extends_out_refl (P : Effect → Prop) (st : State) : extends_out P st st :=
  ⟨[], st._stored_timestamps, st._oldest_timestamp, by simp, by simp⟩

theorem extends_out_trans {P : Effect → Prop} {a b c : State} (h1 : extends_out P a b)
    (h2 : extends_out P b c) : extends_out P a c := by
  obtain ⟨e1, t1, o1, rfl, p1⟩ := h1
  obtain ⟨e2, t2, o2, rfl, p2⟩ := h2
  refine ⟨e1 ++ e2, t2, o2, by simp, ?_⟩
  intro e he
  rcases List.mem_append.mp he with h | h
  · exact p1 e h
  · exact p2 e h

theorem extends_out_emit {P : Effect → Prop} {a b : State} (e : Effect)
    (h1 : extends_out P a b) (he : P e) : extends_out P a (emit b e) := by
  obtain ⟨e1, t1, o1, rfl, p1⟩ := h1
  refine ⟨e1 ++ [e], t1, o1, by simp [emit], ?_⟩
  intro x hx
  rcases List.mem_append.mp hx with h | h
  · exact p1 x h
  · simp at h; rw [h]; exact he

theorem extends_out_mono {P Q : Effect → Prop} {a b : State} (h : extends_out P a b)
    (hpq : ∀ e, P e → Q e) : extends_out Q a b := by
  obtain ⟨e1, t1, o1, rfl, p1⟩ := h
  exact ⟨e1, t1, o1, rfl, fun e he => hpq e (p1 e he)⟩

theorem extends_out_timestamps {P : Effect → Prop} {a b : State}
    (ts : List (Nat × stored_timestamp)) (h : extends_out P a b) :
    extends_out P a { b with _stored_timestamps := ts } := by
  obtain ⟨e1, t1, o1, rfl, p1⟩ := h
  exact ⟨e1, ts, o1, rfl, p1⟩

theorem extends_out_oldest {P : Effect → Prop} {a b : State} (old : Int)
    (h : extends_out P a b) : extends_out P a { b with _oldest_timestamp := old } := by
  obtain ⟨e1, t1, o1, rfl, p1⟩ := h
  exact ⟨e1, t1, old, rfl, p1⟩

theorem refresh_extends_text (env : Env) (id : Nat) (r : Bool) (st : State) :
    extends_out (fun e => is_prepared e = false) st
      (_update_hosts_and_services_of_instance env id r st) := by
  unfold _update_hosts_and_services_of_instance run_query _add_action _finish_action
  dsimp only
  cases r <;> by_cases h : env.bbdo_major_v < 3 <;> simp only [h, if_true, if_false] <;>
    (repeat (refine extends_out_emit _ ?_ rfl)) <;> exact extends_out_refl _ _

theorem update_timestamp_extends_text (env : Env) (now : Int) (id : Nat) (st : State) :
    extends_out (fun e => is_prepared e = false) st (_update_timestamp env now id st) := by
  obtain ⟨effs, ts, old, heq, hP⟩ := refresh_extends_text env id true st
  unfold _update_timestamp
  cases hfind : ts_find st._stored_timestamps id with
  | none =>
    dsimp only
    rw [heq]
    split_ifs <;> exact ⟨effs, _, _, rfl, hP⟩
  | some found =>
    dsimp only
    by_cases hst : found.state = state_type.unresponsive
    · simp only [hst, if_true]
      rw [heq]
      split_ifs <;> exact ⟨effs, _, _, rfl, hP⟩
    · simp only [hst, if_false]
      split_ifs <;> exact ⟨[], _, _, by rw [List.append_nil], by simp⟩

theorem is_valid_poller_extends_text (env : Env) (now : Int) (id : Nat) (st : State) :
    extends_out (fun e => is_prepared e = false) st (_is_valid_poller env now id st).2 := by
  unfold _is_valid_poller
  split_ifs
  · exact extends_out_refl _ _
  · exact update_timestamp_extends_text env now id st

theorem not_upsert_of_not_prepared (e : Effect) (h : is_prepared e = false) :
    is_host_upsert e = false := by
  cases e with
  | run c s => cases s <;> first | rfl | simp [is_prepared] at h
  | _ => rfl

theorem is_valid_poller_extends (env : Env) (now : Int) (id : Nat) (st : State) :
    extends_out (fun e => is_host_upsert e = false) st (_is_valid_poller env now id st).2 :=
  extends_out_mono (is_valid_poller_extends_text env now id st) not_upsert_of_not_prepared

theorem is_valid_poller_fst (env : Env) (now : Int) (id : Nat) (st : State) :
    (_is_valid_poller env now id st).1 = true ↔ id ∉ st._cache_deleted_instance_id := by
  unfold _is_valid_poller
  split_ifs with h <;> simp [h]

/-- C1: a protobuf host status event for a host of the host->instance cache is
applied (hosts UPDATE when `_store_in_hosts_services`, resources UPDATE when
`_store_in_resources`, each run and tagged on the connection of the cached
instance) when it is passive, or `next_check >= now - 300`, or
`next_check = 0`; in every other case the handler produces nothing after its
initial barrier: no statement and no tag. -/
theorem pb_host_status_applied_iff (env : Env) (now : Int) (hscr : HostStatus) (st : State)
    (inst : Nat) (hk : st._cache_host_instance (u32 hscr.host_id) = some inst) :
    ((hscr.check_type = CheckType.PASSIVE ∨ hscr.next_check ≥ now - 300 ∨
        hscr.next_check = 0) →
      (_process_pb_host_status env now hscr st).out =
        st.out ++
          [Effect.finish_action (-1) (Mask.of [actions.host_parents, actions.comments,
            actions.downtimes, actions.host_dependencies])] ++
          (if env._store_in_hosts_services = true then
            [Effect.run (env.choose_connection_by_instance inst) (Stmt.hscr_update hscr),
             Effect.add_action (env.choose_connection_by_instance inst) actions.hosts]
           else []) ++
          (if env._store_in_resources = true then
            [Effect.run (env.choose_connection_by_instance inst)
               (Stmt.hscr_resources_update hscr),
             Effect.add_action (env.choose_connection_by_instance inst) actions.resources]
           else [])) ∧
    (¬ (hscr.check_type = CheckType.PASSIVE ∨ hscr.next_check ≥ now - 300 ∨
        hscr.next_check = 0) →
      (_process_pb_host_status env now hscr st).out =
        st.out ++
          [Effect.finish_action (-1) (Mask.of [actions.host_parents, actions.comments,
            actions.downtimes, actions.host_dependencies])]) := by
  have e300 : now - 5 * 60 = now - 300 := by norm_num
  constructor
  · intro hc
    unfold _process_pb_host_status
    dsimp only
    rw [e300, if_neg (by simp [_host_instance_known, _finish_action, emit, hk]), if_pos hc]
    cases h1 : env._store_in_hosts_services <;> cases h2 : env._store_in_resources <;>
      simp [_finish_action, _add_action, emit, hk, cache_subscript]
  · intro hc
    unfold _process_pb_host_status
    dsimp only
    rw [e300, if_neg (by simp [_host_instance_known, _finish_action, emit, hk]), if_neg hc]
    simp [_finish_action, emit]

/-- Witness of C1: host 42 is cached, and its active status with a next check
one hour old produces the barrier only. -/
theorem pb_host_status_applied_iff_witness :
    sample_state._cache_host_instance (u32 sample_hscr.host_id) = some 1 ∧
    (_process_pb_host_status sample_env 100000 sample_hscr sample_state).out =
      [Effect.finish_action (-1) (Mask.of [actions.host_parents, actions.comments,
        actions.downtimes, actions.host_dependencies])] :=
  ⟨by decide,
   (pb_host_status_applied_iff sample_env 100000 sample_hscr sample_state 1 (by decide)).2
     (by decide)⟩

/-- Counterexample to C2: an active legacy status with a next check one hour
old, for a cached host, satisfies none of the three listed conditions and is
applied all the same, because active checks are disabled. -/
theorem host_status_three_conditions_refuted :
    sample_env._store_in_hosts_services = true ∧
    sample_state._cache_host_instance (u32 sample_host_status.host_id) = some 1 ∧
    ¬ (sample_host_status.check_type ≠ 0 ∨ sample_host_status.next_check ≥ 100000 - 300 ∨
        sample_host_status.next_check = 0) ∧
    (_process_host_status sample_env 100000 sample_host_status sample_state).out =
      [Effect.finish_action (-1) (Mask.of [actions.instances, actions.downtimes,
        actions.comments, actions.custom_variables, actions.hostgroups,
        actions.host_dependencies, actions.host_parents]),
       Effect.run 1 (Stmt.host_status_update sample_host_status),
       Effect.add_action 1 actions.hosts] := by
  decide

/-- C2 (amended): with `_store_in_hosts_services` set, a legacy host status
for a host of the host->instance cache runs the UPDATE on hosts, tagged on the
connection of the cached instance, when it is passive, or active checks are
disabled, or `next_check >= now - 300`, or `next_check = 0`; otherwise no
statement is run and no connection is tagged. -/
theorem host_status_applied_iff (env : Env) (now : Int) (hs : host_status) (st : State)
    (inst : Nat) (hstore : env._store_in_hosts_services = true)
    (hk : st._cache_host_instance (u32 hs.host_id) = some inst) :
    ((hs.check_type ≠ 0 ∨ hs.active_checks_enabled = false ∨ hs.next_check ≥ now - 300 ∨
        hs.next_check = 0) →
      (_process_host_status env now hs st).out =
        st.out ++
          [Effect.finish_action (-1) (Mask.of [actions.instances, actions.downtimes,
            actions.comments, actions.custom_variables, actions.hostgroups,
            actions.host_dependencies, actions.host_parents]),
           Effect.run (env.choose_connection_by_instance inst) (Stmt.host_status_update hs),
           Effect.add_action (env.choose_connection_by_instance inst) actions.hosts]) ∧
    (¬ (hs.check_type ≠ 0 ∨ hs.active_checks_enabled = false ∨ hs.next_check ≥ now - 300 ∨
        hs.next_check = 0) →
      (_process_host_status env now hs st).out =
        st.out ++
          [Effect.finish_action (-1) (Mask.of [actions.instances, actions.downtimes,
            actions.comments, actions.custom_variables, actions.hostgroups,
            actions.host_dependencies, actions.host_parents])]) := by
  have e300 : now - 5 * 60 = now - 300 := by norm_num
  constructor
  · intro hc
    unfold _process_host_status
    dsimp only
    rw [e300, if_neg (by simp [hstore]),
      if_neg (by simp [_host_instance_known, _finish_action, emit, hk]), if_pos hc]
    simp [_finish_action, _add_action, emit, hk, cache_subscript]
  · intro hc
    unfold _process_host_status
    dsimp only
    rw [e300, if_neg (by simp [hstore]),
      if_neg (by simp [_host_instance_known, _finish_action, emit, hk]), if_neg hc]
    simp [_finish_action, emit]

/-- Witness of C2 (amended), Scenario C: an active status of the cached host
42 with active checks enabled and a next check one hour old runs no UPDATE. -/
theorem host_status_applied_iff_witness :
    sample_env._store_in_hosts_services = true ∧
    sample_state._cache_host_instance (u32 scenario_c_host_status.host_id) = some 1 ∧
    (_process_host_status sample_env 100000 scenario_c_host_status sample_state).out =
      [Effect.finish_action (-1) (Mask.of [actions.instances, actions.downtimes,
        actions.comments, actions.custom_variables, actions.hostgroups,
        actions.host_dependencies, actions.host_parents])] :=
  ⟨by decide, by decide,
   (host_status_applied_iff sample_env 100000 scenario_c_host_status sample_state 1
     (by decide) (by decide)).2 (by decide)⟩

/-- Counterexample to C3: host 42 is cached, its passive check passes the
staleness test and it has no stored command hash, yet no UPDATE is run,
because the hash of its (empty) command line is 0, the value `operator[]`
yields for a missing entry. -/
theorem host_check_zero_hash_refuted :
    sample_state._cache_host_instance (u32 sample_host_check.host_id) = some 1 ∧
    sample_host_check.check_type ≠ 0 ∧
    sample_state._cache_hst_cmd sample_host_check.host_id = none ∧
    (_process_host_check sample_env 100000 sample_host_check sample_state).out =
      [Effect.finish_action (-1) (Mask.of [actions.instances, actions.downtimes,
        actions.comments, actions.host_dependencies, actions.host_parents,
        actions.service_dependencies])] := by
  decide

/-- C3 (amended): for a legacy host check of a cached host that passes the
staleness test, and such that the host has a stored command hash or
`hash(command_line)` is not 0: when the host has no stored hash or the stored
hash differs from `hash(command_line)`, the UPDATE is run and tagged on the
connection of the cached instance and the cache then holds
`hash(command_line)` for the host; when the stored hash is
`hash(command_line)`, no statement is run and the cache is left as it was. -/
theorem host_check_update_iff (env : Env) (now : Int) (hc : host_check) (st : State)
    (inst : Nat) (hk : st._cache_host_instance (u32 hc.host_id) = some inst)
    (hfresh : hc.check_type ≠ 0 ∨ hc.active_checks_enabled = false ∨
      hc.next_check ≥ now - 300 ∨ hc.next_check = 0)
    (hz : st._cache_hst_cmd hc.host_id ≠ none ∨ env.hash hc.command_line ≠ 0) :
    ((st._cache_hst_cmd hc.host_id = none ∨
        st._cache_hst_cmd hc.host_id ≠ some (env.hash hc.command_line)) →
      (_process_host_check env now hc st).out =
        st.out ++
          [Effect.finish_action (-1) (Mask.of [actions.instances, actions.downtimes,
            actions.comments, actions.host_dependencies, actions.host_parents,
            actions.service_dependencies]),
           Effect.run (env.choose_connection_by_instance inst) (Stmt.host_check_update hc),
           Effect.add_action (env.choose_connection_by_instance inst) actions.hosts] ∧
      (_process_host_check env now hc st)._cache_hst_cmd hc.host_id =
        some (env.hash hc.command_line)) ∧
    (st._cache_hst_cmd hc.host_id = some (env.hash hc.command_line) →
      (_process_host_check env now hc st).out =
        st.out ++
          [Effect.finish_action (-1) (Mask.of [actions.instances, actions.downtimes,
            actions.comments, actions.host_dependencies, actions.host_parents,
            actions.service_dependencies])] ∧
      (_process_host_check env now hc st)._cache_hst_cmd = st._cache_hst_cmd) := by
  have e300 : now - 5 * 60 = now - 300 := by norm_num
  unfold _process_host_check
  dsimp only
  rw [e300, if_neg (by simp [_host_instance_known, _finish_action, emit, hk]), if_pos hfresh]
  constructor
  · intro hd
    cases hs : st._cache_hst_cmd hc.host_id with
    | none =>
      have h0 : env.hash hc.command_line ≠ 0 := by
        rcases hz with hz | hz
        · exact absurd hs hz
        · exact hz
      have h1 : ¬ (0 = env.hash hc.command_line) := fun h => h0 h.symm
      simp [_finish_action, _add_action, emit, hk, hs, cache_subscript, cache_set, h1]
    | some v =>
      have h1 : ¬ (v = env.hash hc.command_line) := by
        rcases hd with hd | hd
        · simp [hs] at hd
        · intro h; apply hd; rw [hs, h]
      simp [_finish_action, _add_action, emit, hk, hs, cache_subscript, cache_set, h1]
  · intro hs
    simp [_finish_action, _add_action, emit, hk, hs, cache_subscript]

/-- Witness of C3 (amended): the first check of host 42 with command line
`ping` (hash 4) runs the UPDATE on connection 1 and stores the hash. -/
theorem host_check_update_iff_witness :
    sample_state._cache_host_instance (u32 sample_host_check_ping.host_id) = some 1 ∧
    (sample_host_check_ping.check_type ≠ 0 ∨
      sample_host_check_ping.active_checks_enabled = false ∨
      sample_host_check_ping.next_check ≥ 100000 - 300 ∨
      sample_host_check_ping.next_check = 0) ∧
    (sample_state._cache_hst_cmd sample_host_check_ping.host_id ≠ none ∨
      sample_env.hash sample_host_check_ping.command_line ≠ 0) ∧
    (_process_host_check sample_env 100000 sample_host_check_ping sample_state).out =
      [] ++
        [Effect.finish_action (-1) (Mask.of [actions.instances, actions.downtimes,
          actions.comments, actions.host_dependencies, actions.host_parents,
          actions.service_dependencies]),
         Effect.run (sample_env.choose_connection_by_instance 1)
           (Stmt.host_check_update sample_host_check_ping),
         Effect.add_action (sample_env.choose_connection_by_instance 1) actions.hosts] ∧
    (_process_host_check sample_env 100000 sample_host_check_ping sample_state)._cache_hst_cmd
        sample_host_check_ping.host_id =
      some (sample_env.hash sample_host_check_ping.command_line) :=
  ⟨by decide, by decide, by decide,
   (host_check_update_iff sample_env 100000 sample_host_check_ping sample_state 1
     (by decide) (by decide) (by decide)).1 (by decide)⟩

theorem extends_out_cache_host_instance {P : Effect → Prop} {a b : State}
    (h : extends_out P a b) : b._cache_host_instance = a._cache_host_instance := by
  obtain ⟨e1, t1, o1, rfl, _⟩ := h
  rfl

theorem extends_out_deleted {P : Effect → Prop} {a b : State}
    (h : extends_out P a b) : b._cache_deleted_instance_id = a._cache_deleted_instance_id := by
  obtain ⟨e1, t1, o1, rfl, _⟩ := h
  rfl

theorem extends_out_appends {P : Effect → Prop} {a b : State}
    (h : extends_out P a b) : appends P a b := by
  obtain ⟨e1, t1, o1, rfl, hp⟩ := h
  exact ⟨e1, rfl, hp⟩

theorem appends_refl (P : Effect → Prop) (st : State) : appends P st st :=
  ⟨[], by simp, by simp⟩

theorem appends_trans {P : Effect → Prop} {a b c : State} (h1 : appends P a b)
    (h2 : appends P b c) : appends P a c := by
  obtain ⟨e1, q1, p1⟩ := h1
  obtain ⟨e2, q2, p2⟩ := h2
  refine ⟨e1 ++ e2, by rw [q2, q1, List.append_assoc], ?_⟩
  intro e he
  rcases List.mem_append.mp he with h | h
  · exact p1 e h
  · exact p2 e h

theorem appends_emit {P : Effect → Prop} {a b : State} (e : Effect)
    (h1 : appends P a b) (he : P e) : appends P a (emit b e) := by
  obtain ⟨e1, q1, p1⟩ := h1
  refine ⟨e1 ++ [e], by simp [emit, q1], ?_⟩
  intro x hx
  rcases List.mem_append.mp hx with h | h
  · exact p1 x h
  · simp at h; rw [h]; exact he

theorem appends_of_out_eq {P : Effect → Prop} {a b c : State} (h1 : appends P a b)
    (h : c.out = b.out) : appends P a c := by
  obtain ⟨e1, q1, p1⟩ := h1
  exact ⟨e1, by rw [h, q1], p1⟩

theorem host_severity_frame (h : Host) (st : State) :
    (host_severity h st).2._cache_host_instance = st._cache_host_instance ∧
    (host_severity h st).2.out = st.out := by
  unfold host_severity
  split_ifs <;> simp

theorem pb_host_resource_update_frame (h : Host) (conn res_id : Nat) (st : State) (v : Nat)
    (hk : st._cache_host_instance (u32 h.host_id) = some v) :
    (pb_host_resource_update h conn res_id st)._cache_host_instance = st._cache_host_instance ∧
    appends (fun e => is_host_upsert e = false) st (pb_host_resource_update h conn res_id st) := by
  unfold pb_host_resource_update
  simp only [cache_subscript, hk, _add_action]
  constructor
  · simp [emit, (host_severity_frame h _).1]
  · refine appends_emit _ (appends_emit _ ?_ rfl) rfl
    exact ⟨[], by simp [(host_severity_frame h _).2], by simp⟩

theorem resources_tags_loop_frame (tag_id : Nat → Option Nat) (conn res_id : Nat)
    (tags : List TagInfo) :
    ∀ (i : Nat) (st : State),
      (resources_tags_loop tag_id conn res_id i tags st)._cache_host_instance =
        st._cache_host_instance ∧
      appends (fun e => is_host_upsert e = false) st
        (resources_tags_loop tag_id conn res_id i tags st) := by
  induction tags with
  | nil => intro i st; exact ⟨rfl, appends_refl _ _⟩
  | cons tag rest ih =>
    intro i st
    unfold resources_tags_loop
    dsimp only
    cases hc : st._tags_cache (tag.id, tag.type) with
    | some t =>
      dsimp only
      refine ⟨by rw [(ih _ _).1]; rfl, appends_trans ?_ (ih _ _).2⟩
      exact appends_emit _ (appends_emit _ (appends_refl _ _) rfl) rfl
    | none =>
      dsimp only
      cases ht : tag_id i with
      | some new_id =>
        dsimp only
        refine ⟨by rw [(ih _ _).1]; rfl, appends_trans ?_ (ih _ _).2⟩
        refine appends_emit _ (appends_emit _ ?_ rfl) rfl
        exact appends_of_out_eq
          (appends_emit (Effect.run conn (Stmt.tag_insert tag.id tag.type "(unknown)"))
            (appends_refl _ st) rfl) rfl
      | none =>
        dsimp only
        refine ⟨by rw [(ih _ _).1]; rfl, appends_trans ?_ (ih _ _).2⟩
        exact appends_emit _ (appends_refl _ _) rfl

theorem resources_tags_rewrite_frame (tags : List TagInfo) (db : ResourceDb)
    (conn res_id : Nat) (st : State) :
    (resources_tags_rewrite tags db conn res_id st)._cache_host_instance =
      st._cache_host_instance ∧
    appends (fun e => is_host_upsert e = false) st
      (resources_tags_rewrite tags db conn res_id st) := by
  unfold resources_tags_rewrite _finish_action
  dsimp only
  refine ⟨by rw [(resources_tags_loop_frame _ _ _ _ _ _).1]; rfl,
    appends_trans ?_ (resources_tags_loop_frame _ _ _ _ _ _).2⟩
  exact appends_emit _ (appends_emit _ (appends_refl _ _) rfl) rfl

theorem pb_host_resource_disable_frame (h : Host) (conn : Nat) (st : State) :
    (pb_host_resource_disable h conn st)._cache_host_instance = st._cache_host_instance ∧
    appends (fun e => is_host_upsert e = false) st (pb_host_resource_disable h conn st) := by
  unfold pb_host_resource_disable _add_action
  cases hc : st._resource_cache (h.host_id, 0) with
  | none => exact ⟨rfl, appends_refl _ _⟩
  | some cached =>
    dsimp only
    refine ⟨rfl, appends_emit _ ?_ rfl⟩
    exact appends_of_out_eq
      (appends_emit (Effect.run conn (Stmt.resources_disable cached)) (appends_refl _ st) rfl) rfl

theorem pb_host_resolve_frame (h : Host) (db : ResourceDb) (conn : Nat) (st : State) (v : Nat)
    (hk : st._cache_host_instance (u32 h.host_id) = some v) :
    (pb_host_resolve h db conn st).1._cache_host_instance = st._cache_host_instance ∧
    appends (fun e => is_host_upsert e = false) st (pb_host_resolve h db conn st).1 := by
  unfold pb_host_resolve
  cases hc : st._resource_cache (h.host_id, 0) with
  | some cached => exact pb_host_resource_update_frame h conn cached st v hk
  | none =>
    simp only [cache_subscript, hk, _add_action]
    have hins : appends (fun e => is_host_upsert e = false) st
        (emit (emit (host_severity h
          { st with _cache_host_instance := st._cache_host_instance }).2
            (Effect.run conn (Stmt.resources_host_insert h v
              (host_severity h
                { st with _cache_host_instance := st._cache_host_instance }).1)))
          (Effect.add_action conn actions.resources)) := by
      refine appends_emit _ (appends_emit _ ?_ rfl) rfl
      exact ⟨[], by simp [(host_severity_frame h _).2], by simp⟩
    cases hi : db.insert_id with
    | some res_id =>
      dsimp only
      split_ifs
      · exact ⟨by simp [emit, (host_severity_frame h _).1], appends_of_out_eq hins rfl⟩
      · exact ⟨by simp [emit, (host_severity_frame h _).1], appends_of_out_eq hins rfl⟩
    | none =>
      dsimp only
      cases hsel : db.select_row with
      | none =>
        dsimp only
        exact ⟨by simp [emit, (host_severity_frame h _).1], appends_emit _ hins rfl⟩
      | some row =>
        cases row with
        | none =>
          dsimp only
          exact ⟨by simp [emit, (host_severity_frame h _).1],
            appends_of_out_eq (appends_emit (Effect.run_no_conn (Stmt.query
              ("SELECT resource_id FROM resources WHERE parent_id=0 AND id=" ++
                toString h.host_id))) hins rfl) rfl⟩
        | some id =>
          dsimp only
          have hk2 : (emit (emit (emit (host_severity h
              { st with _cache_host_instance := st._cache_host_instance }).2
                (Effect.run conn (Stmt.resources_host_insert h v
                  (host_severity h
                    { st with _cache_host_instance := st._cache_host_instance }).1)))
              (Effect.add_action conn actions.resources))
              (Effect.run_no_conn (Stmt.query
                ("SELECT resource_id FROM resources WHERE parent_id=0 AND id=" ++
                  toString h.host_id))))._cache_host_instance (u32 h.host_id) = some v := by
            simp [emit, (host_severity_frame h _).1, hk]
          obtain ⟨f1, f2⟩ := pb_host_resource_update_frame h conn id _ v
            (show ({ (emit (emit (emit (host_severity h
              { st with _cache_host_instance := st._cache_host_instance }).2
                (Effect.run conn (Stmt.resources_host_insert h v
                  (host_severity h
                    { st with _cache_host_instance := st._cache_host_instance }).1)))
              (Effect.add_action conn actions.resources))
              (Effect.run_no_conn (Stmt.query
                ("SELECT resource_id FROM resources WHERE parent_id=0 AND id=" ++
                  toString h.host_id)))) with
              _resource_cache := cache_insert _ (h.host_id, 0) id } : State)._cache_host_instance
                (u32 h.host_id) = some v from hk2)
          refine ⟨?_, ?_⟩
          · rw [f1]; simp [emit, (host_severity_frame h _).1]
          · exact appends_trans (appends_of_out_eq (appends_emit (Effect.run_no_conn (Stmt.query
              ("SELECT resource_id FROM resources WHERE parent_id=0 AND id=" ++
                toString h.host_id))) hins rfl) rfl) f2

theorem cache_set_same {K V : Type} [DecidableEq K] (m : K → Option V) (k : K) (v : V) :
    cache_set m k v k = some v := by
  simp [cache_set]

theorem cache_set_other {K V : Type} [DecidableEq K] (m : K → Option V) (k x : K) (v : V)
    (h : x ≠ k) : cache_set m k v x = m x := by
  simp [cache_set, h]

theorem cache_erase_same {K V : Type} [DecidableEq K] (m : K → Option V) (k : K) :
    cache_erase m k k = none := by
  simp [cache_erase]

theorem cache_erase_other {K V : Type} [DecidableEq K] (m : K → Option V) (k x : K)
    (h : x ≠ k) : cache_erase m k x = m x := by
  simp [cache_erase, h]

theorem valid_after_barrier_cache (env : Env) (now : Int) (id : Nat) (st : State) (c : Int)
    (M : Mask) :
    (_is_valid_poller env now id (_finish_action st c M)).2._cache_host_instance =
      st._cache_host_instance := by
  have h := extends_out_cache_host_instance
    (is_valid_poller_extends env now id (_finish_action st c M))
  exact h

theorem is_valid_poller_out_quiet (env : Env) (now : Int) (id : Nat) (st : State)
    (hq : id ∈ st._cache_deleted_instance_id ∨
      ∃ ts, ts_find st._stored_timestamps id = some ts ∧ ts.state = state_type.responsive) :
    (_is_valid_poller env now id st).2.out = st.out := by
  unfold _is_valid_poller
  by_cases hd : id ∈ st._cache_deleted_instance_id
  · simp [hd]
  · rcases hq with hq | ⟨ts, hts, hresp⟩
    · exact absurd hq hd
    · simp only [hd, if_false]
      unfold _update_timestamp
      rw [hts]
      dsimp only
      have hne : ¬ (ts.state = state_type.unresponsive) := by rw [hresp]; decide
      simp only [hne, if_false]
      split_ifs <;> rfl

theorem pb_host_resources_frame (h : Host) (db : ResourceDb) (conn : Nat) (st : State)
    (v : Nat) (hk : st._cache_host_instance (u32 h.host_id) = some v) :
    (match (pb_host_resolve h db conn st).2 with
      | some res_id => resources_tags_rewrite h.tags db conn res_id (pb_host_resolve h db conn st).1
      | none => (pb_host_resolve h db conn st).1)._cache_host_instance =
        st._cache_host_instance ∧
    appends (fun e => is_host_upsert e = false) st
      (match (pb_host_resolve h db conn st).2 with
        | some res_id =>
          resources_tags_rewrite h.tags db conn res_id (pb_host_resolve h db conn st).1
        | none => (pb_host_resolve h db conn st).1) := by
  obtain ⟨f1, f2⟩ := pb_host_resolve_frame h db conn st v hk
  cases (pb_host_resolve h db conn st).2 with
  | none => exact ⟨f1, f2⟩
  | some res_id =>
    dsimp only
    exact ⟨by rw [(resources_tags_rewrite_frame _ _ _ _ _).1, f1],
      appends_trans f2 (resources_tags_rewrite_frame _ _ _ _ _).2⟩

theorem valid_after_barrier_appends (env : Env) (now : Int) (id : Nat) (st : State) (c : Int)
    (M : Mask) :
    appends (fun e => is_host_upsert e = false) st
      (_is_valid_poller env now id (_finish_action st c M)).2 := by
  have h1 : appends (fun e => is_host_upsert e = false) st (_finish_action st c M) :=
    appends_emit (Effect.finish_action c M) (appends_refl _ st) rfl
  exact appends_trans h1 (extends_out_appends (is_valid_poller_extends _ _ _ _))

theorem valid_after_barrier_quiet (env : Env) (now : Int) (id : Nat) (st : State) (c : Int)
    (M : Mask)
    (hq : id ∈ st._cache_deleted_instance_id ∨
      ∃ ts, ts_find st._stored_timestamps id = some ts ∧ ts.state = state_type.responsive) :
    (_is_valid_poller env now id (_finish_action st c M)).2.out =
      st.out ++ [Effect.finish_action c M] := by
  have h := is_valid_poller_out_quiet env now id (_finish_action st c M) hq
  rw [h]
  rfl

/-- Counterexample to C4: a legacy host event without host id, sent by a
poller that has no stored timestamp, makes `_is_valid_poller` mark the poller
responsive, which runs two UPDATE statements. -/
theorem fake_host_writes_database :
    sample_fake_host.host_id = 0 ∧
    (_process_host sample_env 100000 sample_fake_host sample_state).out =
      [Effect.finish_action (-1) (Mask.of [actions.instances, actions.hostgroups,
        actions.host_dependencies, actions.host_parents, actions.custom_variables,
        actions.downtimes, actions.comments, actions.service_dependencies]),
       Effect.finish_action 1 (Mask.of [actions.hosts]),
       Effect.finish_action (-1) (Mask.of [actions.acknowledgements, actions.modules,
        actions.downtimes, actions.comments]),
       Effect.run 1 (Stmt.query "UPDATE instances SET outdated=FALSE WHERE instance_id=1"),
       Effect.add_action 1 actions.instances,
       Effect.run 1 (Stmt.query
        ("UPDATE hosts AS h LEFT JOIN services AS s ON h.host_id=s.host_id " ++
         "SET h.state=h.real_state,s.state=s.real_state WHERE h.instance_id=1")),
       Effect.add_action 1 actions.hosts,
       Effect.publish (Published.pb_responsive_instance 1 true)] := by
  decide

/-- C4 (amended): a host event (legacy or protobuf) whose poller is not in the
deleted-instances set, whose host id is not 0 and whose alias is not empty
leaves the host->instance cache mapping the host id to the poller id of the
event when the event is enabled, without entry for the host id when it is
disabled, and unchanged at every other key.  An event with host id 0 or an
empty alias leaves the cache unchanged and runs no upsert of hosts; it runs
no statement at all when its poller is in the deleted-instances set or is
recorded as responsive. -/
theorem host_event_cache_effect (env : Env) (now : Int) (h : host) (hp : Host)
    (db : ResourceDb) (st : State) :
    ((h.poller_id ∉ st._cache_deleted_instance_id ∧ h.host_id ≠ 0 ∧ h.alias_ ≠ "") →
      (h.enabled = true →
        (_process_host env now h st)._cache_host_instance (u32 h.host_id) =
          some h.poller_id) ∧
      (h.enabled = false →
        (_process_host env now h st)._cache_host_instance (u32 h.host_id) = none) ∧
      (∀ k, k ≠ u32 h.host_id →
        (_process_host env now h st)._cache_host_instance k = st._cache_host_instance k)) ∧
    ((u32 hp.instance_id ∉ st._cache_deleted_instance_id ∧ hp.host_id ≠ 0 ∧ hp.alias_ ≠ "") →
      (hp.enabled = true →
        (_process_pb_host env now hp db st)._cache_host_instance (u32 hp.host_id) =
          some hp.instance_id) ∧
      (hp.enabled = false →
        (_process_pb_host env now hp db st)._cache_host_instance (u32 hp.host_id) = none) ∧
      (∀ k, k ≠ u32 hp.host_id →
        (_process_pb_host env now hp db st)._cache_host_instance k =
          st._cache_host_instance k)) ∧
    ((h.host_id = 0 ∨ h.alias_ = "") →
      (_process_host env now h st)._cache_host_instance = st._cache_host_instance ∧
      appends (fun e => is_host_upsert e = false) st (_process_host env now h st) ∧
      ((h.poller_id ∈ st._cache_deleted_instance_id ∨
          ∃ ts, ts_find st._stored_timestamps h.poller_id = some ts ∧
            ts.state = state_type.responsive) →
        (_process_host env now h st).out =
          st.out ++ [Effect.finish_action (-1) (Mask.of [actions.instances,
            actions.hostgroups, actions.host_dependencies, actions.host_parents,
            actions.custom_variables, actions.downtimes, actions.comments,
            actions.service_dependencies])])) ∧
    ((hp.host_id = 0 ∨ hp.alias_ = "") →
      (_process_pb_host env now hp db st)._cache_host_instance = st._cache_host_instance ∧
      appends (fun e => is_host_upsert e = false) st (_process_pb_host env now hp db st) ∧
      ((u32 hp.instance_id ∈ st._cache_deleted_instance_id ∨
          ∃ ts, ts_find st._stored_timestamps (u32 hp.instance_id) = some ts ∧
            ts.state = state_type.responsive) →
        (_process_pb_host env now hp db st).out =
          st.out ++ [Effect.finish_action (-1) (Mask.of [actions.instances,
            actions.hostgroups, actions.host_dependencies, actions.host_parents,
            actions.custom_variables, actions.downtimes, actions.comments,
            actions.service_dependencies, actions.severities])])) := by
  refine ⟨?_, ?_, ?_, ?_⟩
  · rintro ⟨hv, hid, hal⟩
    have hc := valid_after_barrier_cache env now h.poller_id st (-1)
      (Mask.of [actions.instances, actions.hostgroups,
        actions.host_dependencies, actions.host_parents, actions.custom_variables,
        actions.downtimes, actions.comments, actions.service_dependencies])
    have h1 := (is_valid_poller_fst env now h.poller_id
      (_finish_action st (-1) (Mask.of [actions.instances, actions.hostgroups,
        actions.host_dependencies, actions.host_parents, actions.custom_variables,
        actions.downtimes, actions.comments, actions.service_dependencies]))).2 hv
    unfold _process_host
    dsimp only
    rw [if_pos h1, if_pos ⟨hid, hal⟩]
    cases he : h.enabled
    · simp only [_add_action, emit, hc]
      refine ⟨by simp, by simp [cache_erase_same], fun k hk => by simp [cache_erase_other _ _ _ hk]⟩
    · simp only [_add_action, emit, hc]
      refine ⟨by simp [cache_set_same], by simp, fun k hk => by simp [cache_set_other _ _ _ _ hk]⟩
  · rintro ⟨hv, hid, hal⟩
    have hc := valid_after_barrier_cache env now (u32 hp.instance_id) st (-1)
      (Mask.of [actions.instances, actions.hostgroups,
        actions.host_dependencies, actions.host_parents, actions.custom_variables,
        actions.downtimes, actions.comments, actions.service_dependencies,
        actions.severities])
    have h1 := (is_valid_poller_fst env now (u32 hp.instance_id)
      (_finish_action st (-1) (Mask.of [actions.instances, actions.hostgroups,
        actions.host_dependencies, actions.host_parents, actions.custom_variables,
        actions.downtimes, actions.comments, actions.service_dependencies,
        actions.severities]))).2 hv
    unfold _process_pb_host
    dsimp only
    rw [if_pos h1, if_pos ⟨hid, hal⟩]
    cases he : hp.enabled
    · simp only [_add_action, emit, hc, Bool.false_eq_true, if_false]
      split_ifs
      · rw [(pb_host_resource_disable_frame hp _ _).1]
        refine ⟨by simp, by simp [cache_erase_same],
          fun k hk => by simp [cache_erase_other _ _ _ hk]⟩
      · refine ⟨by simp, by simp [cache_erase_same],
          fun k hk => by simp [cache_erase_other _ _ _ hk]⟩
    · simp only [_add_action, emit, hc, if_true]
      split_ifs
      · rw [(pb_host_resources_frame hp db _ _ hp.instance_id (cache_set_same _ _ _)).1]
        refine ⟨by simp [cache_set_same], by simp,
          fun k hk => by simp [cache_set_other _ _ _ _ hk]⟩
      · refine ⟨by simp [cache_set_same], by simp,
          fun k hk => by simp [cache_set_other _ _ _ _ hk]⟩
  · intro hf
    have hn : ¬ (h.host_id ≠ 0 ∧ h.alias_ ≠ "") := by
      rintro ⟨h1, h2⟩
      rcases hf with hf | hf
      · exact h1 hf
      · exact h2 hf
    have hres : _process_host env now h st =
        (_is_valid_poller env now h.poller_id
          (_finish_action st (-1) (Mask.of [actions.instances, actions.hostgroups,
            actions.host_dependencies, actions.host_parents, actions.custom_variables,
            actions.downtimes, actions.comments, actions.service_dependencies]))).2 := by
      unfold _process_host
      dsimp only
      rw [if_neg hn]
      split_ifs <;> rfl
    rw [hres]
    refine ⟨valid_after_barrier_cache _ _ _ _ _ _, ?_, ?_⟩
    · exact valid_after_barrier_appends _ _ _ _ _ _
    · intro hq
      exact valid_after_barrier_quiet _ _ _ _ _ _ hq
  · intro hf
    have hn : ¬ (hp.host_id ≠ 0 ∧ hp.alias_ ≠ "") := by
      rintro ⟨h1, h2⟩
      rcases hf with hf | hf
      · exact h1 hf
      · exact h2 hf
    have hres : _process_pb_host env now hp db st =
        (_is_valid_poller env now (u32 hp.instance_id)
          (_finish_action st (-1) (Mask.of [actions.instances, actions.hostgroups,
            actions.host_dependencies, actions.host_parents, actions.custom_variables,
            actions.downtimes, actions.comments, actions.service_dependencies,
            actions.severities]))).2 := by
      unfold _process_pb_host
      dsimp only
      rw [if_neg hn]
      split_ifs <;> rfl
    rw [hres]
    refine ⟨valid_after_barrier_cache _ _ _ _ _ _, ?_, ?_⟩
    · exact valid_after_barrier_appends _ _ _ _ _ _
    · intro hq
      exact valid_after_barrier_quiet _ _ _ _ _ _ hq

/-- Witness of C4 (amended), Scenario A: after the enabled host event of host
42 sent by poller 1, the cache maps 42 to 1. -/
theorem host_event_cache_effect_witness :
    (sample_host.poller_id ∉ sample_state._cache_deleted_instance_id ∧
      sample_host.host_id ≠ 0 ∧ sample_host.alias_ ≠ "") ∧
    (_process_host sample_env 100000 sample_host sample_state)._cache_host_instance
        (u32 sample_host.host_id) = some sample_host.poller_id :=
  ⟨by decide,
   ((host_event_cache_effect sample_env 100000 sample_host sample_pb_host sample_db
      sample_state).1 (by decide)).1 (by decide)⟩


theorem clean_tables_out (env : Env) (now : Int) (id : Nat) (st : State) :
    (_clean_tables env now id st).out =
      st.out ++ [Effect.timer_cancel, Effect.finish_action (-1) Mask.all] ++
        (if env._store_in_resources = true then
          [Effect.run (env.special_conn_tag % env.connections_count)
             (Stmt.query ("DELETE rt FROM resources_tags rt LEFT JOIN resources r ON " ++
               "rt.resource_id=r.resource_id WHERE r.poller_id=" ++ toString id)),
           Effect.commit (env.special_conn_tag % env.connections_count)]
         else []) ++
        (((clean_tables_queries now id).take 10).map fun q =>
          [Effect.run (env.choose_connection_by_instance id) (Stmt.query q.1),
           Effect.add_action (env.choose_connection_by_instance id) q.2]).flatten ++
        [Effect.finish_action (env.choose_connection_by_instance id)
          (Mask.of [actions.custom_variables, actions.hosts])] ++
        (((clean_tables_queries now id).drop 10).map fun q =>
          [Effect.run (env.choose_connection_by_instance id) (Stmt.query q.1),
           Effect.add_action (env.choose_connection_by_instance id) q.2]).flatten ++
        [Effect.timer_expires_after_1min] := by
  cases h : env._store_in_resources <;>
    simp [_clean_tables, clean_tables_queries, run_tagged, run_query, _add_action,
      _finish_action, emit, h]

theorem clean_tables_extends (env : Env) (now : Int) (id : Nat) (st : State) :
    extends_out (fun e => is_prepared e = false) st (_clean_tables env now id st) := by
  unfold _clean_tables
  cases h : env._store_in_resources <;>
    simp only [clean_tables_queries, run_tagged, run_query, _add_action, _finish_action, h,
      List.take, List.drop, List.foldl, if_true, Bool.false_eq_true, if_false] <;>
    (repeat (refine extends_out_emit _ ?_ rfl)) <;> exact extends_out_refl _ _

theorem clean_tables_queries_filtered (now : Int) (id : Nat) :
    ∀ q ∈ clean_tables_queries now id,
      ∃ pre post, q.1 = pre ++ ("instance_id=" ++ toString id) ++ post ∨
        q.1 = pre ++ ("poller_id=" ++ toString id) ++ post := by
  intro q hq
  simp only [clean_tables_queries, clean_hosts_services_query, List.mem_cons,
    List.mem_singleton, List.not_mem_nil, or_false] at hq
  rcases hq with h | h | h | h | h | h | h | h | h | h | h <;> subst h
  · exact ⟨"UPDATE resources SET enabled=0 WHERE ", "", Or.inr (by
      simp only [String.append_empty, ← String.append_assoc]; rfl)⟩
  · exact ⟨"UPDATE hosts AS h LEFT JOIN services AS s ON h.host_id = s.host_id " ++
      "SET h.enabled=0, s.enabled=0 WHERE h.", "", Or.inl (by
      simp only [String.append_empty, ← String.append_assoc]; rfl)⟩
  · exact ⟨"DELETE hosts_hostgroups FROM hosts_hostgroups LEFT JOIN hosts ON " ++
      "hosts_hostgroups.host_id=hosts.host_id WHERE hosts.", "", Or.inl (by
      simp only [String.append_empty, ← String.append_assoc]; rfl)⟩
  · exact ⟨"DELETE services_servicegroups FROM services_servicegroups LEFT JOIN " ++
      "hosts ON services_servicegroups.host_id=hosts.host_id WHERE hosts.", "", Or.inl (by
      simp only [String.append_empty, ← String.append_assoc]; rfl)⟩
  · exact ⟨"DELETE hhd FROM hosts_hosts_dependencies AS hhd INNER JOIN hosts as " ++
      "h ON hhd.host_id=h.host_id OR hhd.dependent_host_id=h.host_id WHERE h.", "",
      Or.inl (by simp only [String.append_empty, ← String.append_assoc]; rfl)⟩
  · exact ⟨"DELETE hhp FROM hosts_hosts_parents AS hhp INNER JOIN hosts as h ON " ++
      "hhp.child_id=h.host_id OR hhp.parent_id=h.host_id WHERE h.", "",
      Or.inl (by simp only [String.append_empty, ← String.append_assoc]; rfl)⟩
  · exact ⟨"DELETE ssd FROM services_services_dependencies AS ssd" ++
      " INNER JOIN services as s ON ssd.service_id=s.service_id OR " ++
      "ssd.dependent_service_id=s.service_id INNER JOIN hosts as h" ++
      " ON s.host_id=h.host_id WHERE h.", "",
      Or.inl (by simp only [String.append_empty, ← String.append_assoc]; rfl)⟩
  · exact ⟨"DELETE FROM modules WHERE ", "",
      Or.inl (by simp only [String.append_empty, ← String.append_assoc]; rfl)⟩
  · exact ⟨"UPDATE downtimes SET cancelled=1 WHERE actual_end_time IS NULL AND " ++
      "cancelled=0 AND ", "",
      Or.inl (by simp only [String.append_empty, ← String.append_assoc]; rfl)⟩
  · exact ⟨"UPDATE comments SET deletion_time=" ++ toString now ++ " WHERE ",
      " AND persistent=0 AND (deletion_time IS NULL OR deletion_time=0)",
      Or.inl (by simp only [String.append_assoc]; rfl)⟩
  · exact ⟨"DELETE cv FROM customvariables AS cv INNER JOIN hosts AS h ON " ++
      "cv.host_id = h.host_id WHERE h.", "",
      Or.inl (by simp only [String.append_empty, ← String.append_assoc]; rfl)⟩

/-- C6: `_clean_tables(i)` hands to the connection chosen for `i` the
statements of `clean_tables_queries`, in this order - disable the resources,
disable hosts and services, delete host-group and service-group memberships,
host dependencies, host parents, service dependencies and modules, cancel the
open downtimes, set `deletion_time` on the comments, delete the custom
variables - each filtered on `i` (preceded, when `_store_in_resources` is
set, by the removal of the tags memberships on the tag connection);
`_process_instance` runs no prepared statement when `i` is in the
deleted-instances set, and otherwise runs the instance upsert on that same
connection after all of them, as its last statement. -/
theorem clean_tables_then_instance_upsert (env : Env) (now : Int) (i : instance_ev)
    (st : State) :
    statements (_clean_tables env now i.poller_id st).out =
      statements st.out ++
        (if env._store_in_resources = true then
          [(env.special_conn_tag % env.connections_count,
            Stmt.query ("DELETE rt FROM resources_tags rt LEFT JOIN resources r ON " ++
              "rt.resource_id=r.resource_id WHERE r.poller_id=" ++ toString i.poller_id))]
         else []) ++
        (clean_tables_queries now i.poller_id).map
          (fun q => (env.choose_connection_by_instance i.poller_id, Stmt.query q.1)) ∧
    (clean_tables_queries now i.poller_id).map (fun q => q.2) =
      [actions.resources, actions.hosts, actions.hostgroups, actions.servicegroups,
       actions.host_dependencies, actions.host_parents, actions.service_dependencies,
       actions.modules, actions.downtimes, actions.comments, actions.custom_variables] ∧
    (∀ q ∈ clean_tables_queries now i.poller_id,
      ∃ pre post, q.1 = pre ++ ("instance_id=" ++ toString i.poller_id) ++ post ∨
        q.1 = pre ++ ("poller_id=" ++ toString i.poller_id) ++ post) ∧
    (i.poller_id ∈ st._cache_deleted_instance_id →
      (_process_instance env now i st).out =
        (_clean_tables env now i.poller_id
          (_finish_action st (-1) (Mask.of [actions.hosts, actions.acknowledgements,
            actions.modules, actions.downtimes, actions.comments, actions.servicegroups,
            actions.hostgroups, actions.service_dependencies,
            actions.host_dependencies]))).out) ∧
    (i.poller_id ∉ st._cache_deleted_instance_id →
      ∃ refresh,
        (_process_instance env now i st).out =
          (_clean_tables env now i.poller_id
            (_finish_action st (-1) (Mask.of [actions.hosts, actions.acknowledgements,
              actions.modules, actions.downtimes, actions.comments, actions.servicegroups,
              actions.hostgroups, actions.service_dependencies,
              actions.host_dependencies]))).out ++ refresh ++
            [Effect.run (env.choose_connection_by_instance i.poller_id)
               (Stmt.instance_insupdate i),
             Effect.add_action (env.choose_connection_by_instance i.poller_id)
               actions.instances] ∧
        ∀ e ∈ refresh, is_prepared e = false) := by
  have hdel : ∀ s : State, (_clean_tables env now i.poller_id s)._cache_deleted_instance_id =
      s._cache_deleted_instance_id := fun s =>
    extends_out_deleted (clean_tables_extends env now i.poller_id s)
  refine ⟨?_, rfl, clean_tables_queries_filtered now i.poller_id, ?_, ?_⟩
  · rw [clean_tables_out]
    cases h : env._store_in_resources <;>
      simp [statements, clean_tables_queries, List.filterMap_append]
  · intro hd
    unfold _process_instance
    dsimp only
    have h1 : ¬ ((_is_valid_poller env now i.poller_id
        (_clean_tables env now i.poller_id
          (_finish_action st (-1) (Mask.of [actions.hosts, actions.acknowledgements,
            actions.modules, actions.downtimes, actions.comments, actions.servicegroups,
            actions.hostgroups, actions.service_dependencies,
            actions.host_dependencies])))).1 = true) := by
      rw [is_valid_poller_fst, hdel]
      exact fun hn => hn hd
    rw [if_neg h1]
    unfold _is_valid_poller
    rw [if_pos (by rw [hdel]; exact hd)]
  · intro hd
    unfold _process_instance
    dsimp only
    have h1 : (_is_valid_poller env now i.poller_id
        (_clean_tables env now i.poller_id
          (_finish_action st (-1) (Mask.of [actions.hosts, actions.acknowledgements,
            actions.modules, actions.downtimes, actions.comments, actions.servicegroups,
            actions.hostgroups, actions.service_dependencies,
            actions.host_dependencies])))).1 = true := by
      rw [is_valid_poller_fst, hdel]
      exact hd
    rw [if_pos h1]
    obtain ⟨refresh, hout, hp⟩ := extends_out_appends
      (is_valid_poller_extends_text env now i.poller_id
        (_clean_tables env now i.poller_id
          (_finish_action st (-1) (Mask.of [actions.hosts, actions.acknowledgements,
            actions.modules, actions.downtimes, actions.comments, actions.servicegroups,
            actions.hostgroups, actions.service_dependencies,
            actions.host_dependencies]))))
    refine ⟨refresh, ?_, hp⟩
    simp [_add_action, emit, hout]

/-- Witness of C6, Scenario D: poller 1 is not deleted in the sample state, so
its instance event ends with the instance upsert on connection 1. -/
theorem clean_tables_then_instance_upsert_witness :
    sample_instance.poller_id ∉ sample_state._cache_deleted_instance_id ∧
    ∃ refresh,
      (_process_instance sample_env 100000 sample_instance sample_state).out =
        (_clean_tables sample_env 100000 sample_instance.poller_id
          (_finish_action sample_state (-1) (Mask.of [actions.hosts,
            actions.acknowledgements, actions.modules, actions.downtimes, actions.comments,
            actions.servicegroups, actions.hostgroups, actions.service_dependencies,
            actions.host_dependencies]))).out ++ refresh ++
          [Effect.run (sample_env.choose_connection_by_instance sample_instance.poller_id)
             (Stmt.instance_insupdate sample_instance),
           Effect.add_action
             (sample_env.choose_connection_by_instance sample_instance.poller_id)
             actions.instances] ∧
      ∀ e ∈ refresh, is_prepared e = false :=
  ⟨by decide,
   (clean_tables_then_instance_upsert sample_env 100000 sample_instance
     sample_state).2.2.2.2 (by decide)⟩


theorem hosts_apply_not_upsert (t : Nat → Option (Nat × Bool)) (e : Effect)
    (he : is_host_upsert e = false) (k inst : Nat)
    (h : hosts_apply t e k = some (inst, true)) : t k = some (inst, true) := by
  cases e with
  | run c s =>
    cases s with
    | query sql =>
      simp only [hosts_apply] at h
      cases htk : t k with
      | none => rw [htk] at h; simp at h
      | some row =>
        obtain ⟨i2, en⟩ := row
        rw [htk] at h
        dsimp only at h
        split_ifs at h with hq
        · simp at h
        · exact h
    | host_insupdate h0 => simp [is_host_upsert] at he
    | pb_host_insupdate h0 => simp [is_host_upsert] at he
    | _ => exact h
  | _ => exact h

theorem hosts_rows_append (a b : List Effect) (t : Nat → Option (Nat × Bool)) :
    hosts_rows (a ++ b) t = hosts_rows b (hosts_rows a t) := by
  simp [hosts_rows, List.foldl_append]

theorem hosts_rows_not_upsert (effs : List Effect) :
    ∀ (t : Nat → Option (Nat × Bool)), (∀ e ∈ effs, is_host_upsert e = false) →
      ∀ k inst, hosts_rows effs t k = some (inst, true) → t k = some (inst, true) := by
  induction effs with
  | nil => intro t _ k inst h; exact h
  | cons e rest ih =>
    intro t hall k inst h
    have h1 : hosts_rows rest (hosts_apply t e) k = some (inst, true) := h
    have h2 := ih (hosts_apply t e) (fun x hx => hall x (List.mem_cons_of_mem _ hx)) k inst h1
    exact hosts_apply_not_upsert t e (hall e (List.mem_cons_self _ _)) k inst h2

theorem inv_after_quiet (t0 : Nat → Option (Nat × Bool)) (st st2 : State)
    (hq : appends (fun e => is_host_upsert e = false) st st2)
    (hc : st2._cache_host_instance = st._cache_host_instance)
    (hinv : enabled_hosts_cached (hosts_rows st.out t0) st) :
    enabled_hosts_cached (hosts_rows st2.out t0) st2 := by
  obtain ⟨effs, hout, hp⟩ := hq
  intro k inst hk
  rw [hout, hosts_rows_append] at hk
  have := hinv k inst (hosts_rows_not_upsert effs _ hp k inst hk)
  rw [hc]
  exact this

theorem u32_of_lt (n : Nat) (h : n < 4294967296) : u32 n = n := by
  unfold u32
  exact Nat.mod_eq_of_lt h

theorem inv_after_upsert (t0 : Nat → Option (Nat × Bool)) (st st2 : State)
    (A B : List Effect) (u : Effect) (hid pid : Nat) (en : Bool)
    (hu : ∀ t, hosts_apply t u = fun k => if k = hid then some (pid, en) else t k)
    (hout : st2.out = st.out ++ A ++ [u] ++ B)
    (hA : ∀ e ∈ A, is_host_upsert e = false) (hB : ∀ e ∈ B, is_host_upsert e = false)
    (hcache : st2._cache_host_instance =
      if en = true then cache_set st._cache_host_instance (u32 hid) pid
      else cache_erase st._cache_host_instance (u32 hid))
    (hr : hid < 4294967296)
    (hinv : enabled_hosts_cached (hosts_rows st.out t0) st) :
    enabled_hosts_cached (hosts_rows st2.out t0) st2 := by
  intro k inst hk
  rw [hout, hosts_rows_append, hosts_rows_append, hosts_rows_append] at hk
  have h1 := hosts_rows_not_upsert B _ hB k inst hk
  have h2 : hosts_apply (hosts_rows A (hosts_rows st.out t0)) u k = some (inst, true) := h1
  rw [hu] at h2
  dsimp only at h2
  rw [hcache, u32_of_lt hid hr]
  by_cases hkid : k = hid
  · rw [if_pos hkid] at h2
    simp only [Option.some.injEq, Prod.mk.injEq] at h2
    obtain ⟨hp, he⟩ := h2
    subst hkid
    rw [he, hp]
    exact ⟨hr, by simp [cache_set_same]⟩
  · rw [if_neg hkid] at h2
    have h3 := hinv k inst (hosts_rows_not_upsert A _ hA k inst h2)
    refine ⟨h3.1, ?_⟩
    split_ifs
    · rw [cache_set_other _ _ _ _ hkid]; exact h3.2
    · rw [cache_erase_other _ _ _ hkid]; exact h3.2

theorem clean_tables_extends_upsert (env : Env) (now : Int) (id : Nat) (st : State) :
    extends_out (fun e => is_host_upsert e = false) st (_clean_tables env now id st) :=
  extends_out_mono (clean_tables_extends env now id st) not_upsert_of_not_prepared

theorem process_instance_extends (env : Env) (now : Int) (i : instance_ev) (st : State) :
    extends_out (fun e => is_host_upsert e = false) st (_process_instance env now i st) := by
  unfold _process_instance _add_action _finish_action
  dsimp only
  have h0 : extends_out (fun e => is_host_upsert e = false) st
      (emit st (Effect.finish_action (-1) (Mask.of [actions.hosts,
        actions.acknowledgements, actions.modules, actions.downtimes, actions.comments,
        actions.servicegroups, actions.hostgroups, actions.service_dependencies,
        actions.host_dependencies]))) :=
    extends_out_emit _ (extends_out_refl _ st) rfl
  have h1 := extends_out_trans
    (extends_out_trans h0 (clean_tables_extends_upsert env now i.poller_id _))
    (is_valid_poller_extends env now i.poller_id _)
  split_ifs
  · exact extends_out_emit _ (extends_out_emit _ h1 rfl) rfl
  · exact h1

theorem process_pb_instance_extends (env : Env) (now : Int) (inst : Instance) (st : State) :
    extends_out (fun e => is_host_upsert e = false) st
      (_process_pb_instance env now inst st) := by
  unfold _process_pb_instance _add_action _finish_action
  dsimp only
  have h0 : extends_out (fun e => is_host_upsert e = false) st
      (emit st (Effect.finish_action (-1) (Mask.of [actions.hosts,
        actions.acknowledgements, actions.modules, actions.downtimes, actions.comments,
        actions.servicegroups, actions.hostgroups, actions.service_dependencies,
        actions.host_dependencies]))) :=
    extends_out_emit _ (extends_out_refl _ st) rfl
  have h1 := extends_out_trans
    (extends_out_trans h0 (clean_tables_extends_upsert env now (u32 inst.instance_id) _))
    (is_valid_poller_extends env now (u32 inst.instance_id) _)
  split_ifs
  · exact extends_out_emit _ (extends_out_emit _ h1 rfl) rfl
  · exact h1

theorem process_host_decomposed (env : Env) (now : Int) (h : host) (st : State) :
    (appends (fun e => is_host_upsert e = false) st (_process_host env now h st) ∧
      (_process_host env now h st)._cache_host_instance = st._cache_host_instance) ∨
    ∃ A B conn,
      (_process_host env now h st).out =
        st.out ++ A ++ [Effect.run conn (Stmt.host_insupdate h)] ++ B ∧
      (∀ e ∈ A, is_host_upsert e = false) ∧ (∀ e ∈ B, is_host_upsert e = false) ∧
      (_process_host env now h st)._cache_host_instance =
        if h.enabled = true then cache_set st._cache_host_instance (u32 h.host_id) h.poller_id
        else cache_erase st._cache_host_instance (u32 h.host_id) := by
  have hx := valid_after_barrier_appends env now h.poller_id st (-1)
    (Mask.of [actions.instances, actions.hostgroups,
      actions.host_dependencies, actions.host_parents, actions.custom_variables,
      actions.downtimes, actions.comments, actions.service_dependencies])
  have hc := valid_after_barrier_cache env now h.poller_id st (-1)
    (Mask.of [actions.instances, actions.hostgroups,
      actions.host_dependencies, actions.host_parents, actions.custom_variables,
      actions.downtimes, actions.comments, actions.service_dependencies])
  unfold _process_host
  dsimp only
  by_cases h1 : (_is_valid_poller env now h.poller_id
      (_finish_action st (-1) (Mask.of [actions.instances, actions.hostgroups,
        actions.host_dependencies, actions.host_parents, actions.custom_variables,
        actions.downtimes, actions.comments, actions.service_dependencies]))).1 = true
  · by_cases h2 : h.host_id ≠ 0 ∧ h.alias_ ≠ ""
    · rw [if_pos h1, if_pos h2]
      right
      obtain ⟨A, hA, hPA⟩ := hx
      refine ⟨A, [Effect.add_action (env.choose_connection_by_instance h.poller_id)
        actions.hosts], env.choose_connection_by_instance h.poller_id, ?_, hPA, ?_, ?_⟩
      · cases he : h.enabled <;> simp [_add_action, emit, hA]
      · intro e he; simp at he; rw [he]; rfl
      · cases he : h.enabled <;> simp [_add_action, emit, hc]
    · rw [if_pos h1, if_neg h2]
      left; exact ⟨hx, hc⟩
  · rw [if_neg h1]
    left; exact ⟨hx, hc⟩

theorem process_pb_host_decomposed (env : Env) (now : Int) (h : Host) (db : ResourceDb)
    (st : State) :
    (appends (fun e => is_host_upsert e = false) st (_process_pb_host env now h db st) ∧
      (_process_pb_host env now h db st)._cache_host_instance = st._cache_host_instance) ∨
    ∃ A B conn,
      (_process_pb_host env now h db st).out =
        st.out ++ A ++ [Effect.run conn (Stmt.pb_host_insupdate h)] ++ B ∧
      (∀ e ∈ A, is_host_upsert e = false) ∧ (∀ e ∈ B, is_host_upsert e = false) ∧
      (_process_pb_host env now h db st)._cache_host_instance =
        if h.enabled = true then
          cache_set st._cache_host_instance (u32 h.host_id) h.instance_id
        else cache_erase st._cache_host_instance (u32 h.host_id) := by
  have hx := valid_after_barrier_appends env now (u32 h.instance_id) st (-1)
    (Mask.of [actions.instances, actions.hostgroups,
      actions.host_dependencies, actions.host_parents, actions.custom_variables,
      actions.downtimes, actions.comments, actions.service_dependencies,
      actions.severities])
  have hc := valid_after_barrier_cache env now (u32 h.instance_id) st (-1)
    (Mask.of [actions.instances, actions.hostgroups,
      actions.host_dependencies, actions.host_parents, actions.custom_variables,
      actions.downtimes, actions.comments, actions.service_dependencies,
      actions.severities])
  unfold _process_pb_host
  dsimp only
  by_cases h1 : (_is_valid_poller env now (u32 h.instance_id)
      (_finish_action st (-1) (Mask.of [actions.instances, actions.hostgroups,
        actions.host_dependencies, actions.host_parents, actions.custom_variables,
        actions.downtimes, actions.comments, actions.service_dependencies,
        actions.severities]))).1 = true
  · by_cases h2 : h.host_id ≠ 0 ∧ h.alias_ ≠ ""
    · rw [if_pos h1, if_pos h2]
      right
      obtain ⟨A, hA, hPA⟩ := hx
      cases he : h.enabled
      · simp only [Bool.false_eq_true, if_false]
        by_cases hs : env._store_in_resources = true
        · rw [if_pos hs]
          obtain ⟨f1, B, hB, hPB⟩ := pb_host_resource_disable_frame h
            (env.choose_connection_by_instance h.instance_id)
            { (_add_action (emit (_is_valid_poller env now (u32 h.instance_id)
                (_finish_action st (-1) (Mask.of [actions.instances, actions.hostgroups,
                  actions.host_dependencies, actions.host_parents, actions.custom_variables,
                  actions.downtimes, actions.comments, actions.service_dependencies,
                  actions.severities]))).2
                (Effect.run (env.choose_connection_by_instance h.instance_id)
                  (Stmt.pb_host_insupdate h)))
                (env.choose_connection_by_instance h.instance_id) actions.hosts) with
              _cache_host_instance := cache_erase
                (_add_action (emit (_is_valid_poller env now (u32 h.instance_id)
                  (_finish_action st (-1) (Mask.of [actions.instances, actions.hostgroups,
                    actions.host_dependencies, actions.host_parents,
                    actions.custom_variables, actions.downtimes, actions.comments,
                    actions.service_dependencies, actions.severities]))).2
                  (Effect.run (env.choose_connection_by_instance h.instance_id)
                    (Stmt.pb_host_insupdate h)))
                  (env.choose_connection_by_instance h.instance_id)
                  actions.hosts)._cache_host_instance (u32 h.host_id) }
          refine ⟨A, Effect.add_action (env.choose_connection_by_instance h.instance_id)
            actions.hosts :: B, env.choose_connection_by_instance h.instance_id, ?_, hPA,
            ?_, ?_⟩
          · rw [hB]; simp [_add_action, emit, hA]
          · intro e hmem
            rcases List.mem_cons.mp hmem with hm | hm
            · rw [hm]; rfl
            · exact hPB e hm
          · rw [f1]; simp [_add_action, emit, hc]
        · rw [if_neg hs]
          refine ⟨A, [Effect.add_action (env.choose_connection_by_instance h.instance_id)
            actions.hosts], env.choose_connection_by_instance h.instance_id, ?_, hPA, ?_, ?_⟩
          · simp [_add_action, emit, hA]
          · intro e hmem; simp at hmem; rw [hmem]; rfl
          · simp [_add_action, emit, hc]
      · simp only [if_true]
        by_cases hs : env._store_in_resources = true
        · rw [if_pos hs]
          obtain ⟨f1, B, hB, hPB⟩ := pb_host_resources_frame h db
            (env.choose_connection_by_instance h.instance_id)
            { (_add_action (emit (_is_valid_poller env now (u32 h.instance_id)
                (_finish_action st (-1) (Mask.of [actions.instances, actions.hostgroups,
                  actions.host_dependencies, actions.host_parents, actions.custom_variables,
                  actions.downtimes, actions.comments, actions.service_dependencies,
                  actions.severities]))).2
                (Effect.run (env.choose_connection_by_instance h.instance_id)
                  (Stmt.pb_host_insupdate h)))
                (env.choose_connection_by_instance h.instance_id) actions.hosts) with
              _cache_host_instance := cache_set
                (_add_action (emit (_is_valid_poller env now (u32 h.instance_id)
                  (_finish_action st (-1) (Mask.of [actions.instances, actions.hostgroups,
                    actions.host_dependencies, actions.host_parents,
                    actions.custom_variables, actions.downtimes, actions.comments,
                    actions.service_dependencies, actions.severities]))).2
                  (Effect.run (env.choose_connection_by_instance h.instance_id)
                    (Stmt.pb_host_insupdate h)))
                  (env.choose_connection_by_instance h.instance_id)
                  actions.hosts)._cache_host_instance (u32 h.host_id) h.instance_id }
            h.instance_id (cache_set_same _ _ _)
          refine ⟨A, Effect.add_action (env.choose_connection_by_instance h.instance_id)
            actions.hosts :: B, env.choose_connection_by_instance h.instance_id, ?_, hPA,
            ?_, ?_⟩
          · rw [hB]; simp [_add_action, emit, hA]
          · intro e hmem
            rcases List.mem_cons.mp hmem with hm | hm
            · rw [hm]; rfl
            · exact hPB e hm
          · rw [f1]; simp [_add_action, emit, hc]
        · rw [if_neg hs]
          refine ⟨A, [Effect.add_action (env.choose_connection_by_instance h.instance_id)
            actions.hosts], env.choose_connection_by_instance h.instance_id, ?_, hPA, ?_, ?_⟩
          · simp [_add_action, emit, hA]
          · intro e hmem; simp at hmem; rw [hmem]; rfl
          · simp [_add_action, emit, hc]
    · rw [if_pos h1, if_neg h2]
      left; exact ⟨hx, hc⟩
  · rw [if_neg h1]
    left; exact ⟨hx, hc⟩

theorem process_preserves_enabled_hosts_cached (env : Env) (now : Int) (e : Event)
    (st : State) (t0 : Nat → Option (Nat × Bool))
    (hr : ∀ id, e.host_id = some id → id < 4294967296)
    (hinv : enabled_hosts_cached (hosts_rows st.out t0) st) :
    enabled_hosts_cached (hosts_rows (process env now e st).out t0) (process env now e st) := by
  cases e with
  | host h =>
    rcases process_host_decomposed env now h st with ⟨hq, hc⟩ | ⟨A, B, conn, hout, hA, hB, hc⟩
    · exact inv_after_quiet t0 st _ hq hc hinv
    · exact inv_after_upsert t0 st _ A B (Effect.run conn (Stmt.host_insupdate h)) h.host_id
        h.poller_id h.enabled (fun t => rfl)
        hout hA hB hc (hr h.host_id rfl) hinv
  | pb_host h db =>
    rcases process_pb_host_decomposed env now h db st with
      ⟨hq, hc⟩ | ⟨A, B, conn, hout, hA, hB, hc⟩
    · exact inv_after_quiet t0 st _ hq hc hinv
    · exact inv_after_upsert t0 st _ A B (Effect.run conn (Stmt.pb_host_insupdate h)) h.host_id
        h.instance_id h.enabled (fun t => rfl)
        hout hA hB hc (hr h.host_id rfl) hinv
  | instance_ i =>
    exact inv_after_quiet t0 st _ (extends_out_appends (process_instance_extends env now i st))
      (extends_out_cache_host_instance (process_instance_extends env now i st)) hinv
  | pb_instance inst =>
    exact inv_after_quiet t0 st _
      (extends_out_appends (process_pb_instance_extends env now inst st))
      (extends_out_cache_host_instance (process_pb_instance_extends env now inst st)) hinv

/-- Counterexample to C5: after the enabled host event of host 42 (poller 1)
and then the instance event of poller 1, the row of host 42 in table hosts
has `enabled = 0`, and host 42 is still in the host->instance cache. -/
theorem cleaned_host_stays_cached :
    hosts_rows
        (process_all sample_env sample_events sample_state).out
        (fun _ => none) 42 = some (1, false) ∧
    (process_all sample_env sample_events sample_state)._cache_host_instance 42 = some 1 := by
  decide

/-- C5 (amended): over every sequence of host and instance events (legacy or
protobuf, host identifiers below `2^32`), every host that is enabled in table
hosts is in the host->instance cache, under the instance of its row; and an
instance event, which runs `_clean_tables(p)`, leaves the cache as it was, so
the hosts of `p` that were in the cache remain in it. -/
theorem enabled_hosts_stay_cached (env : Env) (evs : List (Int × Event)) (st : State)
    (t0 : Nat → Option (Nat × Bool))
    (hr : ∀ p ∈ evs, ∀ id, p.2.host_id = some id → id < 4294967296)
    (hinv : enabled_hosts_cached (hosts_rows st.out t0) st) :
    enabled_hosts_cached (hosts_rows (process_all env evs st).out t0)
      (process_all env evs st) ∧
    (∀ (now : Int) (i : instance_ev),
      (_process_instance env now i st)._cache_host_instance = st._cache_host_instance) ∧
    (∀ (now : Int) (inst : Instance),
      (_process_pb_instance env now inst st)._cache_host_instance =
        st._cache_host_instance) := by
  refine ⟨?_, fun now i => extends_out_cache_host_instance (process_instance_extends env now i st),
    fun now inst =>
      extends_out_cache_host_instance (process_pb_instance_extends env now inst st)⟩
  induction evs generalizing st with
  | nil => exact hinv
  | cons p rest ih =>
    obtain ⟨now, e⟩ := p
    unfold process_all
    apply ih
    · intro q hq id hid
      exact hr q (List.mem_cons_of_mem _ hq) id hid
    · exact process_preserves_enabled_hosts_cached env now e st t0
        (fun id hid => hr (now, e) (List.mem_cons_self _ _) id hid) hinv

/-- Witness of C5 (amended): from the sample state and an empty table, after
the host event of host 42 and the instance event of its poller, every host
enabled in the table is still cached. -/
theorem enabled_hosts_stay_cached_witness :
    (∀ p ∈ sample_events, ∀ id, p.2.host_id = some id → id < 4294967296) ∧
    enabled_hosts_cached (hosts_rows sample_state.out (fun _ => none)) sample_state ∧
    enabled_hosts_cached
      (hosts_rows
        (process_all sample_env sample_events sample_state).out (fun _ => none))
      (process_all sample_env sample_events sample_state) :=
  have hr : ∀ p ∈ sample_events, ∀ id, p.2.host_id = some id → id < 4294967296 := by
    intro p hp id hid
    simp only [sample_events, List.mem_cons, List.mem_singleton, List.not_mem_nil, or_false] at hp
    rcases hp with hp | hp <;> subst hp <;> simp [Event.host_id, sample_host] at hid
    omega
  have h0 : enabled_hosts_cached (hosts_rows sample_state.out (fun _ => none))
      sample_state := by
    intro k inst hk
    simp [hosts_rows, sample_state] at hk
  ⟨hr, h0,
   (enabled_hosts_stay_cached sample_env sample_events sample_state (fun _ => none)
     hr h0).1⟩


theorem resource_writes_append (a b : List Effect) :
    resource_writes (a ++ b) = resource_writes a ++ resource_writes b := by
  simp [resource_writes, List.filterMap_append]

theorem resource_writes_none (effs : List Effect)
    (h : ∀ e ∈ effs, resource_writes [e] = []) : resource_writes effs = [] := by
  induction effs with
  | nil => rfl
  | cons e rest ih =>
    have h1 : resource_writes (e :: rest) = resource_writes [e] ++ resource_writes rest :=
      resource_writes_append [e] rest
    rw [h1, h e (List.mem_cons_self _ _), ih (fun x hx => h x (List.mem_cons_of_mem _ hx))]
    rfl

theorem no_resource_write_of_not_prepared (e : Effect) (h : is_prepared e = false) :
    resource_writes [e] = [] := by
  cases e with
  | run c s => cases s <;> first | rfl | simp [is_prepared] at h
  | run_no_conn s => cases s <;> first | rfl | simp [is_prepared] at h
  | _ => rfl

/-- Effects of the tags loop: only `_tags_cache` and `out` change. -/
theorem resources_tags_loop_shape (P : Effect → Prop)
    (h1 : ∀ c a b n, P (Effect.run c (Stmt.tag_insert a b n)))
    (h2 : ∀ c t r, P (Effect.run c (Stmt.resources_tags_insert t r)))
    (h3 : ∀ c a, P (Effect.add_action c a))
    (tag_id : Nat → Option Nat) (conn res_id : Nat) (tags : List TagInfo) :
    ∀ (i : Nat) (st : State), ∃ effs tc,
      resources_tags_loop tag_id conn res_id i tags st =
        { st with out := st.out ++ effs, _tags_cache := tc } ∧ ∀ e ∈ effs, P e := by
  induction tags with
  | nil => intro i st; exact ⟨[], st._tags_cache, by simp [resources_tags_loop], by simp⟩
  | cons tag rest ih =>
    intro i st
    unfold resources_tags_loop
    dsimp only
    cases hc : st._tags_cache (tag.id, tag.type) with
    | some t =>
      dsimp only
      obtain ⟨effs, tc, heq, hp⟩ := ih (i + 1)
        (_add_action (emit st (Effect.run conn (Stmt.resources_tags_insert t res_id))) conn
          actions.resources_tags)
      refine ⟨[Effect.run conn (Stmt.resources_tags_insert t res_id),
        Effect.add_action conn actions.resources_tags] ++ effs, tc, ?_, ?_⟩
      · rw [heq]; simp [_add_action, emit]
      · intro e he
        simp only [List.cons_append, List.nil_append, List.mem_cons] at he
        rcases he with he | he | he
        · rw [he]; exact h2 _ _ _
        · rw [he]; exact h3 _ _
        · exact hp e he
    | none =>
      dsimp only
      cases ht : tag_id i with
      | some new_id =>
        dsimp only
        obtain ⟨effs, tc, heq, hp⟩ := ih (i + 1)
          (_add_action (emit
            { (emit st (Effect.run conn (Stmt.tag_insert tag.id tag.type "(unknown)"))) with
              _tags_cache := cache_insert
                (emit st (Effect.run conn
                  (Stmt.tag_insert tag.id tag.type "(unknown)")))._tags_cache
                (tag.id, tag.type) new_id }
            (Effect.run conn (Stmt.resources_tags_insert new_id res_id))) conn
            actions.resources_tags)
        refine ⟨[Effect.run conn (Stmt.tag_insert tag.id tag.type "(unknown)"),
          Effect.run conn (Stmt.resources_tags_insert new_id res_id),
          Effect.add_action conn actions.resources_tags] ++ effs, tc, ?_, ?_⟩
        · rw [heq]; simp [_add_action, emit]
        · intro e he
          simp only [List.cons_append, List.nil_append, List.mem_cons] at he
          rcases he with he | he | he | he
          · rw [he]; exact h1 _ _ _ _
          · rw [he]; exact h2 _ _ _
          · rw [he]; exact h3 _ _
          · exact hp e he
      | none =>
        dsimp only
        obtain ⟨effs, tc, heq, hp⟩ := ih (i + 1)
          (emit st (Effect.run conn (Stmt.tag_insert tag.id tag.type "(unknown)")))
        refine ⟨[Effect.run conn (Stmt.tag_insert tag.id tag.type "(unknown)")] ++ effs,
          tc, ?_, ?_⟩
        · rw [heq]; simp [emit]
        · intro e he
          simp only [List.cons_append, List.nil_append, List.mem_cons] at he
          rcases he with he | he
          · rw [he]; exact h1 _ _ _ _
          · exact hp e he

/-- Effects of the tags rewrite: the barrier, the DELETE, then the loop. -/
theorem resources_tags_rewrite_shape (P : Effect → Prop)
    (h1 : ∀ c a b n, P (Effect.run c (Stmt.tag_insert a b n)))
    (h2 : ∀ c t r, P (Effect.run c (Stmt.resources_tags_insert t r)))
    (h3 : ∀ c a, P (Effect.add_action c a))
    (tags : List TagInfo) (db : ResourceDb) (conn res_id : Nat) (st : State) :
    ∃ effs tc,
      resources_tags_rewrite tags db conn res_id st =
        { st with
          out := st.out ++ [Effect.finish_action (-1) (Mask.of [actions.tags]),
            Effect.run conn (Stmt.resources_tags_remove res_id)] ++ effs,
          _tags_cache := tc } ∧ ∀ e ∈ effs, P e := by
  unfold resources_tags_rewrite _finish_action
  dsimp only
  obtain ⟨effs, tc, heq, hp⟩ := resources_tags_loop_shape P h1 h2 h3 db.tag_id conn res_id
    tags 0 (emit (emit st (Effect.finish_action (-1) (Mask.of [actions.tags])))
      (Effect.run conn (Stmt.resources_tags_remove res_id)))
  exact ⟨effs, tc, by rw [heq]; simp [emit], hp⟩

theorem valid_after_barrier_extends_text (env : Env) (now : Int) (id : Nat) (st : State)
    (c : Int) (M : Mask) :
    extends_out (fun e => is_prepared e = false) st
      (_is_valid_poller env now id (_finish_action st c M)).2 := by
  have h0 : extends_out (fun e => is_prepared e = false) st (_finish_action st c M) :=
    extends_out_emit (Effect.finish_action c M) (extends_out_refl _ st) rfl
  exact extends_out_trans h0 (is_valid_poller_extends_text env now id _)

theorem host_severity_shape (h : Host) (st : State) :
    ∃ sc, (host_severity h st).2 = { st with _severity_cache := sc } := by
  unfold host_severity
  split_ifs
  · exact ⟨_, rfl⟩
  · exact ⟨st._severity_cache, rfl⟩

theorem host_severity_fst_congr (h : Host) (st1 st2 : State)
    (hs : st1._severity_cache = st2._severity_cache) :
    (host_severity h st1).1 = (host_severity h st2).1 := by
  unfold host_severity
  split_ifs
  · simp [hs]
  · rfl

theorem pb_host_resolve_cached (h : Host) (db : ResourceDb) (conn : Nat) (s : State) (r : Nat)
    (hc : s._resource_cache (h.host_id, 0) = some r) :
    pb_host_resolve h db conn s = (pb_host_resource_update h conn r s, some r) := by
  simp only [pb_host_resolve, hc]

theorem pb_host_resource_update_eq (h : Host) (conn res_id : Nat) (s : State) (p : Nat)
    (hk : s._cache_host_instance (u32 h.host_id) = some p) :
    pb_host_resource_update h conn res_id s =
      { s with
        out := s.out ++ [Effect.run conn
            (Stmt.resources_host_update h p (host_severity h s).1 res_id),
          Effect.add_action conn actions.resources],
        _severity_cache := (host_severity h s).2._severity_cache } := by
  obtain ⟨sc, hsc⟩ := host_severity_shape h s
  simp only [pb_host_resource_update, cache_subscript, hk, _add_action, emit]
  rw [show ({ s with _cache_host_instance := s._cache_host_instance } : State) = s from rfl,
    hsc]
  simp

theorem pb_host_resolve_insert_eq (h : Host) (db : ResourceDb) (conn : Nat) (s : State)
    (id p : Nat) (hc : s._resource_cache (h.host_id, 0) = none)
    (hk : s._cache_host_instance (u32 h.host_id) = some p) (hi : db.insert_id = some id) :
    pb_host_resolve h db conn s =
      ({ s with
          out := s.out ++ [Effect.run conn
              (Stmt.resources_host_insert h p (host_severity h s).1),
            Effect.add_action conn actions.resources],
          _severity_cache := (host_severity h s).2._severity_cache,
          _resource_cache := cache_set s._resource_cache (h.host_id, 0) id,
          deref_end := if id = 0 then true else s.deref_end },
        if id = 0 then none else some id) := by
  obtain ⟨sc, hsc⟩ := host_severity_shape h s
  simp only [pb_host_resolve, hc, cache_subscript, hk, _add_action, emit, hi]
  rw [show ({ s with _cache_host_instance := s._cache_host_instance } : State) = s from rfl,
    hsc]
  by_cases h0 : id = 0
  · simp [h0, cache_insert, hc]
  · simp [h0, cache_insert, hc]

theorem tags_rewrite_resource_writes (tags : List TagInfo) (db : ResourceDb)
    (conn res_id : Nat) (s : State) :
    resource_writes (resources_tags_rewrite tags db conn res_id s).out =
      resource_writes s.out := by
  obtain ⟨effs, tc, heq, hp⟩ := resources_tags_rewrite_shape
    (fun e => resource_writes [e] = []) (fun _ _ _ _ => rfl) (fun _ _ _ => rfl)
    (fun _ _ => rfl) tags db conn res_id s
  rw [heq]
  simp only [resource_writes_append, resource_writes_none effs hp, List.append_nil]
  simp [resource_writes, is_resource_write]

theorem tags_rewrite_resource_cache (tags : List TagInfo) (db : ResourceDb)
    (conn res_id : Nat) (s : State) :
    (resources_tags_rewrite tags db conn res_id s)._resource_cache = s._resource_cache := by
  obtain ⟨effs, tc, heq, _⟩ := resources_tags_rewrite_shape (fun _ => True)
    (fun _ _ _ _ => trivial) (fun _ _ _ => trivial) (fun _ _ => trivial) tags db conn res_id s
  rw [heq]

/-- The resources part of `_process_pb_host` for a stored host event. -/
theorem pb_host_resource_cases (env : Env) (now : Int) (h : Host) (db : ResourceDb)
    (st : State) (hs : env._store_in_resources = true)
    (hv : u32 h.instance_id ∉ st._cache_deleted_instance_id)
    (hid : h.host_id ≠ 0) (hal : h.alias_ ≠ "") :
    (∀ r, h.enabled = true → st._resource_cache (h.host_id, 0) = some r →
      resource_writes (_process_pb_host env now h db st).out =
        resource_writes st.out ++
          [Stmt.resources_host_update h h.instance_id (host_severity h st).1 r] ∧
      (_process_pb_host env now h db st)._resource_cache (h.host_id, 0) = some r) ∧
    (∀ id, h.enabled = true → st._resource_cache (h.host_id, 0) = none →
      db.insert_id = some id →
      resource_writes (_process_pb_host env now h db st).out =
        resource_writes st.out ++
          [Stmt.resources_host_insert h h.instance_id (host_severity h st).1] ∧
      (_process_pb_host env now h db st)._resource_cache (h.host_id, 0) = some id) ∧
    (∀ r, h.enabled = false → st._resource_cache (h.host_id, 0) = some r →
      resource_writes (_process_pb_host env now h db st).out =
        resource_writes st.out ++ [Stmt.resources_disable r] ∧
      (_process_pb_host env now h db st)._resource_cache (h.host_id, 0) = none) ∧
    (h.enabled = false → st._resource_cache (h.host_id, 0) = none →
      resource_writes (_process_pb_host env now h db st).out = resource_writes st.out ∧
      (_process_pb_host env now h db st)._resource_cache = st._resource_cache) := by
  obtain ⟨A, ts, old, hS0, hA⟩ := valid_after_barrier_extends_text env now (u32 h.instance_id)
    st (-1) (Mask.of [actions.instances, actions.hostgroups,
      actions.host_dependencies, actions.host_parents, actions.custom_variables,
      actions.downtimes, actions.comments, actions.service_dependencies,
      actions.severities])
  have hAr : resource_writes A = [] :=
    resource_writes_none A (fun e he => no_resource_write_of_not_prepared e (hA e he))
  have h1 := (is_valid_poller_fst env now (u32 h.instance_id)
    (_finish_action st (-1) (Mask.of [actions.instances, actions.hostgroups,
      actions.host_dependencies, actions.host_parents, actions.custom_variables,
      actions.downtimes, actions.comments, actions.service_dependencies,
      actions.severities]))).2 hv
  unfold _process_pb_host
  dsimp only
  rw [if_pos h1, if_pos ⟨hid, hal⟩, if_pos hs, hS0]
  refine ⟨?_, ?_, ?_, ?_⟩
  · intro r he hc
    simp only [he, if_true]
    rw [pb_host_resolve_cached h db _ _ r (by simp [_add_action, emit, hc])]
    dsimp only
    rw [tags_rewrite_resource_writes, tags_rewrite_resource_cache,
      pb_host_resource_update_eq h _ r _ h.instance_id
        (by simp [_add_action, emit, cache_set_same])]
    simp only [_add_action, emit, resource_writes_append, hAr, List.append_nil]
    refine ⟨?_, hc⟩
    simp [resource_writes, is_resource_write]
    exact host_severity_fst_congr h _ st rfl
  · intro id he hc hi
    simp only [he, if_true]
    rw [pb_host_resolve_insert_eq h db _ _ id h.instance_id (by simp [_add_action, emit, hc])
      (by simp [_add_action, emit, cache_set_same]) hi]
    dsimp only
    by_cases h0 : id = 0
    · simp only [h0, if_true, _add_action, emit, resource_writes_append, hAr,
        List.append_nil, cache_set_same]
      simp [resource_writes, is_resource_write]
      exact host_severity_fst_congr h _ st rfl
    · simp only [h0, if_false]
      rw [tags_rewrite_resource_writes, tags_rewrite_resource_cache]
      simp only [_add_action, emit, resource_writes_append, hAr, List.append_nil,
        cache_set_same]
      simp [resource_writes, is_resource_write]
      exact host_severity_fst_congr h _ st rfl
  · intro r he hc
    simp only [he, Bool.false_eq_true, if_false, pb_host_resource_disable, _add_action, emit,
      hc, cache_erase]
    simp only [resource_writes_append, hAr, List.append_nil, cache_erase_same]
    simp [resource_writes, is_resource_write]
  · intro he hc
    simp only [he, Bool.false_eq_true, if_false, pb_host_resource_disable, _add_action, emit,
      hc]
    simp only [resource_writes_append, hAr, List.append_nil, cache_erase_same]
    simp [resource_writes, is_resource_write]

theorem index_step_frame (env : Env) (ss : Service) (db : IndexDb) (s : State) (p : Nat)
    (hk : s._cache_host_instance (u32 ss.host_id) = some p) :
    resource_writes (_check_and_update_index_cache env ss db s).1.out =
      resource_writes s.out ∧
    (_check_and_update_index_cache env ss db s).1._resource_cache = s._resource_cache ∧
    (_check_and_update_index_cache env ss db s).1._cache_host_instance =
      s._cache_host_instance ∧
    (_check_and_update_index_cache env ss db s).1._severity_cache = s._severity_cache := by
  unfold _check_and_update_index_cache
  simp only [cache_subscript, hk]
  cases hc : s._index_cache (ss.host_id, ss.service_id) with
  | none =>
    dsimp only
    cases hi : db.insert_id with
    | some index_id =>
      simp [emit, resource_writes_append]
      simp [resource_writes, is_resource_write]
    | none =>
      dsimp only
      cases hsel : db.select_row with
      | none =>
        simp [emit, resource_writes_append]
        simp [resource_writes, is_resource_write]
      | some row =>
        cases row with
        | none =>
          simp [emit, resource_writes_append]
          simp [resource_writes, is_resource_write]
        | some row =>
          simp [emit, resource_writes_append]
          simp [resource_writes, is_resource_write]
  | some info =>
    dsimp only
    split_ifs
    · simp [emit, resource_writes_append]
      simp [resource_writes, is_resource_write]
    · simp

theorem index_step_threw_congr (env : Env) (ss : Service) (db : IndexDb) (s1 s2 : State)
    (h : s1._index_cache = s2._index_cache) :
    (_check_and_update_index_cache env ss db s1).2 =
      (_check_and_update_index_cache env ss db s2).2 := by
  unfold _check_and_update_index_cache
  dsimp only
  rw [h]
  cases s2._index_cache (ss.host_id, ss.service_id) with
  | none =>
    dsimp only
    cases db.insert_id with
    | some index_id => rfl
    | none =>
      dsimp only
      cases db.select_row with
      | none => rfl
      | some row =>
        cases row with
        | none => rfl
        | some row => rfl
  | some info =>
    dsimp only
    split_ifs <;> rfl

theorem service_severity_shape (s : Service) (st : State) :
    ∃ sc, (service_severity s st).2 = { st with _severity_cache := sc } := by
  unfold service_severity
  split_ifs
  · exact ⟨_, rfl⟩
  · exact ⟨st._severity_cache, rfl⟩

theorem service_severity_fst_congr (s : Service) (st1 st2 : State)
    (hs : st1._severity_cache = st2._severity_cache) :
    (service_severity s st1).1 = (service_severity s st2).1 := by
  unfold service_severity
  split_ifs
  · simp [hs]
  · rfl

theorem pb_service_resolve_cached (s : Service) (db : ResourceDb) (conn : Nat) (st : State)
    (r : Nat) (hc : st._resource_cache (s.service_id, s.host_id) = some r) :
    pb_service_resolve s db conn st = (pb_service_resource_update s conn r st, some r) := by
  simp only [pb_service_resolve, hc]

theorem pb_service_resource_update_eq (s : Service) (conn res_id : Nat) (st : State) (p : Nat)
    (hk : st._cache_host_instance (u32 s.host_id) = some p) :
    pb_service_resource_update s conn res_id st =
      { st with
        out := st.out ++ [Effect.run conn
            (Stmt.resources_service_update s p (service_severity s st).1 res_id),
          Effect.add_action conn actions.resources],
        _severity_cache := (service_severity s st).2._severity_cache } := by
  obtain ⟨sc, hsc⟩ := service_severity_shape s st
  simp only [pb_service_resource_update, cache_subscript, hk, _add_action, emit]
  rw [show ({ st with _cache_host_instance := st._cache_host_instance } : State) = st from rfl,
    hsc]
  simp

theorem pb_service_resolve_insert_eq (s : Service) (db : ResourceDb) (conn : Nat) (st : State)
    (id p : Nat) (hc : st._resource_cache (s.service_id, s.host_id) = none)
    (hk : st._cache_host_instance (u32 s.host_id) = some p) (hi : db.insert_id = some id) :
    pb_service_resolve s db conn st =
      ({ st with
          out := st.out ++ [Effect.run conn
              (Stmt.resources_service_insert s p (service_severity s st).1),
            Effect.add_action conn actions.resources],
          _severity_cache := (service_severity s st).2._severity_cache,
          _resource_cache := cache_set st._resource_cache (s.service_id, s.host_id) id,
          deref_end := if id = 0 then true else st.deref_end },
        if id = 0 then none else some id) := by
  obtain ⟨sc, hsc⟩ := service_severity_shape s st
  simp only [pb_service_resolve, hc, cache_subscript, hk, _add_action, emit, hi]
  rw [show ({ st with _cache_host_instance := st._cache_host_instance } : State) = st from rfl,
    hsc]
  by_cases h0 : id = 0
  · simp [h0, cache_insert, hc]
  · simp [h0, cache_insert, hc]

/-- The resources part of `_process_pb_service` for a stored service event. -/
theorem pb_service_resource_cases (env : Env) (s : Service) (idb : IndexDb) (db : ResourceDb)
    (st : State) (p : Nat) (hs : env._store_in_resources = true)
    (hk : st._cache_host_instance (u32 s.host_id) = some p)
    (hid : s.host_id ≠ 0) (hsid : s.service_id ≠ 0)
    (hix : (_check_and_update_index_cache env s idb st).2 = false) :
    (∀ r, s.enabled = true → st._resource_cache (s.service_id, s.host_id) = some r →
      resource_writes (_process_pb_service env s idb db st).out =
        resource_writes st.out ++
          [Stmt.resources_service_update s p (service_severity s st).1 r] ∧
      (_process_pb_service env s idb db st)._resource_cache (s.service_id, s.host_id) =
        some r) ∧
    (∀ id, s.enabled = true → st._resource_cache (s.service_id, s.host_id) = none →
      db.insert_id = some id →
      resource_writes (_process_pb_service env s idb db st).out =
        resource_writes st.out ++
          [Stmt.resources_service_insert s p (service_severity s st).1] ∧
      (_process_pb_service env s idb db st)._resource_cache (s.service_id, s.host_id) =
        some id) ∧
    (∀ r, s.enabled = false → st._resource_cache (s.service_id, s.host_id) = some r →
      resource_writes (_process_pb_service env s idb db st).out =
        resource_writes st.out ++ [Stmt.resources_disable r] ∧
      (_process_pb_service env s idb db st)._resource_cache (s.service_id, s.host_id) =
        none) ∧
    (s.enabled = false → st._resource_cache (s.service_id, s.host_id) = none →
      resource_writes (_process_pb_service env s idb db st).out = resource_writes st.out ∧
      (_process_pb_service env s idb db st)._resource_cache = st._resource_cache) := by
  unfold _process_pb_service
  simp only [_host_instance_known, _finish_action, emit, hk, Option.isSome_some,
    Bool.true_eq_false, if_false, cache_subscript, _add_action]
  rw [if_pos ⟨hid, hsid⟩]
  have hix2 := index_step_threw_congr env s idb
    { st with
      out := st.out ++ [Effect.finish_action (-1) (Mask.of [actions.host_parents,
        actions.comments, actions.downtimes, actions.host_dependencies,
        actions.service_dependencies, actions.severities])] ++
        [Effect.run (env.choose_connection_by_instance p) (Stmt.pb_service_insupdate s)] ++
        [Effect.add_action (env.choose_connection_by_instance p) actions.services] }
    st rfl
  rw [hix] at hix2
  obtain ⟨f1, f2, f3, f4⟩ := index_step_frame env s idb
    { st with
      out := st.out ++ [Effect.finish_action (-1) (Mask.of [actions.host_parents,
        actions.comments, actions.downtimes, actions.host_dependencies,
        actions.service_dependencies, actions.severities])] ++
        [Effect.run (env.choose_connection_by_instance p) (Stmt.pb_service_insupdate s)] ++
        [Effect.add_action (env.choose_connection_by_instance p) actions.services] }
    p hk
  rw [if_neg (by rw [hix2]; decide), if_pos hs]
  have hw0 : resource_writes (st.out ++ [Effect.finish_action (-1)
      (Mask.of [actions.host_parents, actions.comments, actions.downtimes,
        actions.host_dependencies, actions.service_dependencies, actions.severities])] ++
      [Effect.run (env.choose_connection_by_instance p) (Stmt.pb_service_insupdate s)] ++
      [Effect.add_action (env.choose_connection_by_instance p) actions.services]) =
      resource_writes st.out := by
    simp only [resource_writes_append]
    simp [resource_writes, is_resource_write]
  rw [hw0] at f1
  refine ⟨?_, ?_, ?_, ?_⟩
  · intro r he hc
    simp only [he, if_true]
    rw [pb_service_resolve_cached s db _ _ r (by rw [f2]; exact hc)]
    dsimp only
    rw [tags_rewrite_resource_writes, tags_rewrite_resource_cache,
      pb_service_resource_update_eq s _ r _ p (by rw [f3]; exact hk)]
    simp only [resource_writes_append, f1, f2]
    refine ⟨?_, hc⟩
    rw [service_severity_fst_congr s _ st f4]
    simp [resource_writes, is_resource_write]
  · intro id he hc hi
    simp only [he, if_true]
    rw [pb_service_resolve_insert_eq s db _ _ id p (by rw [f2]; exact hc)
      (by rw [f3]; exact hk) hi]
    dsimp only
    rw [service_severity_fst_congr s _ st f4]
    by_cases h0 : id = 0
    · simp only [h0, if_true, resource_writes_append, f1, cache_set_same]
      simp [resource_writes, is_resource_write]
    · simp only [h0, if_false]
      rw [tags_rewrite_resource_writes, tags_rewrite_resource_cache]
      simp only [resource_writes_append, f1, cache_set_same]
      simp [resource_writes, is_resource_write]
  · intro r he hc
    simp only [he, Bool.false_eq_true, if_false, pb_service_resource_disable, f2, hc,
      _add_action, emit, resource_writes_append, f1, cache_erase_same]
    simp [resource_writes, is_resource_write]
  · intro he hc
    simp only [he, Bool.false_eq_true, if_false, pb_service_resource_disable, f2, hc]
    exact ⟨f1, trivial⟩

/-- Counterexample to C7: host 42 is enabled and has resource 7 in the
resource cache, but its poller is in the deleted-instances set: the event is
discarded and no UPDATE of resources is run. -/
theorem deleted_poller_no_resource_update :
    sample_env._store_in_resources = true ∧
    sample_pb_host.enabled = true ∧
    sample_state_deleted._resource_cache (sample_pb_host.host_id, 0) = some 7 ∧
    (_process_pb_host sample_env 100000 sample_pb_host sample_db sample_state_deleted).out =
      [Effect.finish_action (-1) (Mask.of [actions.instances, actions.hostgroups,
        actions.host_dependencies, actions.host_parents, actions.custom_variables,
        actions.downtimes, actions.comments, actions.service_dependencies,
        actions.severities])] := by
  decide

/-- C7 (amended): with `_store_in_resources` set, the resource cache is keyed
by `(host_id, 0)` in `_process_pb_host` and by `(service_id, host_id)` in
`_process_pb_service`, and for every event that reaches the resources part of
its handler (host: poller not deleted, host id not 0, alias not empty;
service: host in the host->instance cache, host id and service id not 0,
index resolution not throwing): an enabled object in the cache gets one
UPDATE bound to its cached resource id, no INSERT, and keeps its entry; an
enabled object not in the cache whose INSERT returns an id gets that one
INSERT and the id is stored in the cache; a disabled object in the cache gets
the disable statement for its cached id and its entry is removed; a disabled
object not in the cache causes no write of resources. -/
theorem resource_id_reused (env : Env) (now : Int) (h : Host) (s : Service) (idb : IndexDb)
    (db : ResourceDb) (st : State) (p : Nat) (hs : env._store_in_resources = true) :
    ((u32 h.instance_id ∉ st._cache_deleted_instance_id ∧ h.host_id ≠ 0 ∧ h.alias_ ≠ "") →
      (∀ r, h.enabled = true → st._resource_cache (h.host_id, 0) = some r →
        resource_writes (_process_pb_host env now h db st).out =
          resource_writes st.out ++
            [Stmt.resources_host_update h h.instance_id (host_severity h st).1 r] ∧
        (_process_pb_host env now h db st)._resource_cache (h.host_id, 0) = some r) ∧
      (∀ id, h.enabled = true → st._resource_cache (h.host_id, 0) = none →
        db.insert_id = some id →
        resource_writes (_process_pb_host env now h db st).out =
          resource_writes st.out ++
            [Stmt.resources_host_insert h h.instance_id (host_severity h st).1] ∧
        (_process_pb_host env now h db st)._resource_cache (h.host_id, 0) = some id) ∧
      (∀ r, h.enabled = false → st._resource_cache (h.host_id, 0) = some r →
        resource_writes (_process_pb_host env now h db st).out =
          resource_writes st.out ++ [Stmt.resources_disable r] ∧
        (_process_pb_host env now h db st)._resource_cache (h.host_id, 0) = none) ∧
      (h.enabled = false → st._resource_cache (h.host_id, 0) = none →
        resource_writes (_process_pb_host env now h db st).out = resource_writes st.out ∧
        (_process_pb_host env now h db st)._resource_cache = st._resource_cache)) ∧
    ((st._cache_host_instance (u32 s.host_id) = some p ∧ s.host_id ≠ 0 ∧ s.service_id ≠ 0 ∧
        (_check_and_update_index_cache env s idb st).2 = false) →
      (∀ r, s.enabled = true → st._resource_cache (s.service_id, s.host_id) = some r →
        resource_writes (_process_pb_service env s idb db st).out =
          resource_writes st.out ++
            [Stmt.resources_service_update s p (service_severity s st).1 r] ∧
        (_process_pb_service env s idb db st)._resource_cache (s.service_id, s.host_id) =
          some r) ∧
      (∀ id, s.enabled = true → st._resource_cache (s.service_id, s.host_id) = none →
        db.insert_id = some id →
        resource_writes (_process_pb_service env s idb db st).out =
          resource_writes st.out ++
            [Stmt.resources_service_insert s p (service_severity s st).1] ∧
        (_process_pb_service env s idb db st)._resource_cache (s.service_id, s.host_id) =
          some id) ∧
      (∀ r, s.enabled = false → st._resource_cache (s.service_id, s.host_id) = some r →
        resource_writes (_process_pb_service env s idb db st).out =
          resource_writes st.out ++ [Stmt.resources_disable r] ∧
        (_process_pb_service env s idb db st)._resource_cache (s.service_id, s.host_id) =
          none) ∧
      (s.enabled = false → st._resource_cache (s.service_id, s.host_id) = none →
        resource_writes (_process_pb_service env s idb db st).out = resource_writes st.out ∧
        (_process_pb_service env s idb db st)._resource_cache = st._resource_cache)) :=
  ⟨fun hg => pb_host_resource_cases env now h db st hs hg.1 hg.2.1 hg.2.2,
   fun hg => pb_service_resource_cases env s idb db st p hs hg.1 hg.2.1 hg.2.2.1 hg.2.2.2⟩

/-- Witness of C7 (amended): host 42, enabled, with resource 7 cached and a
poller that is not deleted, gets the UPDATE bound to resource 7. -/
theorem resource_id_reused_witness :
    sample_env._store_in_resources = true ∧
    (u32 sample_pb_host.instance_id ∉ sample_state_resource._cache_deleted_instance_id ∧
      sample_pb_host.host_id ≠ 0 ∧ sample_pb_host.alias_ ≠ "") ∧
    sample_pb_host.enabled = true ∧
    sample_state_resource._resource_cache (sample_pb_host.host_id, 0) = some 7 ∧
    resource_writes
        (_process_pb_host sample_env 100000 sample_pb_host sample_db
          sample_state_resource).out =
      resource_writes sample_state_resource.out ++
        [Stmt.resources_host_update sample_pb_host sample_pb_host.instance_id
          (host_severity sample_pb_host sample_state_resource).1 7] ∧
    (_process_pb_host sample_env 100000 sample_pb_host sample_db
        sample_state_resource)._resource_cache (sample_pb_host.host_id, 0) = some 7 :=
  ⟨by decide, by decide, by decide, by decide,
   ((resource_id_reused sample_env 100000 sample_pb_host sample_service sample_index_db
      sample_db sample_state_resource 1 (by decide)).1 (by decide)).1 7 (by decide)
      (by decide)⟩


/-- C8, evaluation at the failing input: for an enabled host (and an enabled
service) that is not in the resource cache, when the INSERT into resources
throws and the SELECT returns no row, the handler does not return: it goes on
to `res_id = found->second` with `found` equal to `end()`. -/
theorem select_without_row_reads_end :
    sample_state_responsive._resource_cache (sample_pb_host.host_id, 0) = none ∧
    sample_db_no_row.insert_id = none ∧ sample_db_no_row.select_row = some none ∧
    (_process_pb_host sample_env 100000 sample_pb_host sample_db_no_row
        sample_state_responsive).deref_end = true ∧
    (_process_pb_host sample_env 100000 sample_pb_host sample_db_no_row
        sample_state_responsive).out =
      [Effect.finish_action (-1) (Mask.of [actions.instances, actions.hostgroups,
        actions.host_dependencies, actions.host_parents, actions.custom_variables,
        actions.downtimes, actions.comments, actions.service_dependencies,
        actions.severities]),
       Effect.run 1 (Stmt.pb_host_insupdate sample_pb_host),
       Effect.add_action 1 actions.hosts,
       Effect.run 1 (Stmt.resources_host_insert sample_pb_host 1 0),
       Effect.add_action 1 actions.resources,
       Effect.run_no_conn (Stmt.query
        "SELECT resource_id FROM resources WHERE parent_id=0 AND id=42")] ∧
    (_process_pb_service sample_env sample_service sample_index_db sample_db_no_row
        sample_state_responsive).deref_end = true := by
  decide

theorem tag_statements_append (a b : List Effect) :
    tag_statements (a ++ b) = tag_statements a ++ tag_statements b := by
  simp [tag_statements, List.filterMap_append]

theorem tag_statements_none (effs : List Effect)
    (h : ∀ e ∈ effs, tag_statements [e] = []) : tag_statements effs = [] := by
  induction effs with
  | nil => rfl
  | cons e rest ih =>
    have h1 : tag_statements (e :: rest) = tag_statements [e] ++ tag_statements rest :=
      tag_statements_append [e] rest
    rw [h1, h e (List.mem_cons_self _ _), ih (fun x hx => h x (List.mem_cons_of_mem _ hx))]
    rfl

theorem no_tag_statement_of_not_prepared (e : Effect) (h : is_prepared e = false) :
    tag_statements [e] = [] := by
  cases e with
  | run c s => cases s <;> first | rfl | simp [is_prepared] at h
  | _ => rfl

theorem pb_host_resource_update_tags_frame (h : Host) (conn res_id : Nat) (s : State) :
    (pb_host_resource_update h conn res_id s)._tags_cache = s._tags_cache ∧
    tag_statements (pb_host_resource_update h conn res_id s).out = tag_statements s.out := by
  unfold pb_host_resource_update
  dsimp only
  obtain ⟨sc, hsc⟩ := host_severity_shape h
    { s with _cache_host_instance :=
        (cache_subscript s._cache_host_instance (u32 h.host_id) 0).2 }
  rw [hsc]
  simp only [_add_action, emit, tag_statements_append]
  simp [tag_statements]

theorem pb_host_resolve_tags_frame (h : Host) (db : ResourceDb) (conn : Nat) (s : State) :
    (pb_host_resolve h db conn s).1._tags_cache = s._tags_cache ∧
    tag_statements (pb_host_resolve h db conn s).1.out = tag_statements s.out := by
  unfold pb_host_resolve
  cases hc : s._resource_cache (h.host_id, 0) with
  | some cached => exact pb_host_resource_update_tags_frame h conn cached s
  | none =>
    dsimp only
    obtain ⟨sc, hsc⟩ := host_severity_shape h
      { s with _cache_host_instance :=
          (cache_subscript s._cache_host_instance (u32 h.host_id) 0).2 }
    rw [hsc]
    cases hi : db.insert_id with
    | some res_id =>
      dsimp only
      split_ifs <;>
        (simp only [_add_action, emit, tag_statements_append]; simp [tag_statements])
    | none =>
      dsimp only
      cases hsel : db.select_row with
      | none =>
        simp only [_add_action, emit, tag_statements_append]; simp [tag_statements]
      | some row =>
        cases row with
        | none =>
          simp only [_add_action, emit, tag_statements_append]; simp [tag_statements]
        | some id =>
          dsimp only
          refine ⟨?_, ?_⟩
          · rw [(pb_host_resource_update_tags_frame h conn id _).1]
            simp [_add_action, emit]
          · rw [(pb_host_resource_update_tags_frame h conn id _).2]
            simp only [_add_action, emit, tag_statements_append]; simp [tag_statements]

theorem pb_host_resolve_snd (h : Host) (db : ResourceDb) (conn : Nat) (s : State) (r : Nat)
    (hres : s._resource_cache (h.host_id, 0) = some r ∨
      (s._resource_cache (h.host_id, 0) = none ∧ db.insert_id = some r ∧ r ≠ 0) ∨
      (s._resource_cache (h.host_id, 0) = none ∧ db.insert_id = none ∧
        db.select_row = some (some r))) :
    (pb_host_resolve h db conn s).2 = some r := by
  unfold pb_host_resolve
  rcases hres with hc | ⟨hc, hi, h0⟩ | ⟨hc, hi, hsel⟩
  · simp only [hc]
  · simp only [hc, hi, h0, if_false]
  · simp only [hc, hi, hsel]

theorem resources_tags_loop_all_cached (tag_id : Nat → Option Nat) (conn res_id : Nat)
    (tags : List TagInfo) :
    ∀ (i : Nat) (s : State), (∀ tag ∈ tags, s._tags_cache (tag.id, tag.type) ≠ none) →
      tag_statements (resources_tags_loop tag_id conn res_id i tags s).out =
        tag_statements s.out ++
          tags.filterMap (fun tag =>
            (s._tags_cache (tag.id, tag.type)).map
              (fun t => Stmt.resources_tags_insert t res_id)) := by
  induction tags with
  | nil => intro i s _; simp [resources_tags_loop]
  | cons tag rest ih =>
    intro i s hall
    unfold resources_tags_loop
    dsimp only
    cases hc : s._tags_cache (tag.id, tag.type) with
    | none => exact absurd hc (hall tag (List.mem_cons_self _ _))
    | some t =>
      dsimp only
      rw [ih (i + 1)
        (_add_action (emit s (Effect.run conn (Stmt.resources_tags_insert t res_id))) conn
          actions.resources_tags)
        (fun x hx => hall x (List.mem_cons_of_mem _ hx))]
      simp only [_add_action, emit, tag_statements_append, List.filterMap_cons, hc,
        Option.map_some']
      simp [tag_statements]

/-- C9: for an enabled protobuf host event that reaches the resources part
and is resolved to resource id `r` (cached, or returned by the INSERT, or
found by the SELECT), `_process_pb_host` ends with the rewrite of the tags of
`r`: the barrier on tags, one DELETE of the `resources_tags` rows of `r`,
then the loop over the tags of the event in order.  In the loop a cached tag
gets one INSERT `(t, r)` with its cached surrogate `t`; a tag missing from
the cache is first inserted into tags with name `(unknown)`, and then either
its returned id is cached and used for the INSERT `(id, r)`, or, when the
insert fails, nothing more is run for it and the loop goes on with the next
tag.  When every tag is cached the statements are exactly one INSERT per tag,
in event order. -/
theorem host_tags_rewritten (env : Env) (now : Int) (h : Host) (db : ResourceDb) (st : State)
    (r : Nat) (hs : env._store_in_resources = true)
    (hv : u32 h.instance_id ∉ st._cache_deleted_instance_id)
    (hid : h.host_id ≠ 0) (hal : h.alias_ ≠ "") (he : h.enabled = true)
    (hres : st._resource_cache (h.host_id, 0) = some r ∨
      (st._resource_cache (h.host_id, 0) = none ∧ db.insert_id = some r ∧ r ≠ 0) ∨
      (st._resource_cache (h.host_id, 0) = none ∧ db.insert_id = none ∧
        db.select_row = some (some r))) :
    (∃ s1, s1._tags_cache = st._tags_cache ∧ tag_statements s1.out = tag_statements st.out ∧
      _process_pb_host env now h db st =
        resources_tags_loop db.tag_id (env.choose_connection_by_instance h.instance_id) r 0
          h.tags
          (emit (_finish_action s1 (-1) (Mask.of [actions.tags]))
            (Effect.run (env.choose_connection_by_instance h.instance_id)
              (Stmt.resources_tags_remove r)))) ∧
    (∀ (conn i : Nat) (s : State), resources_tags_loop db.tag_id conn r i [] s = s) ∧
    (∀ (conn i : Nat) (tag : TagInfo) (rest : List TagInfo) (s : State) (t : Nat),
      s._tags_cache (tag.id, tag.type) = some t →
      resources_tags_loop db.tag_id conn r i (tag :: rest) s =
        resources_tags_loop db.tag_id conn r (i + 1) rest
          (_add_action (emit s (Effect.run conn (Stmt.resources_tags_insert t r))) conn
            actions.resources_tags)) ∧
    (∀ (conn i : Nat) (tag : TagInfo) (rest : List TagInfo) (s : State) (n : Nat),
      s._tags_cache (tag.id, tag.type) = none → db.tag_id i = some n →
      resources_tags_loop db.tag_id conn r i (tag :: rest) s =
        resources_tags_loop db.tag_id conn r (i + 1) rest
          (_add_action
            (emit
              { (emit s (Effect.run conn (Stmt.tag_insert tag.id tag.type "(unknown)"))) with
                _tags_cache := cache_set s._tags_cache (tag.id, tag.type) n }
              (Effect.run conn (Stmt.resources_tags_insert n r)))
            conn actions.resources_tags)) ∧
    (∀ (conn i : Nat) (tag : TagInfo) (rest : List TagInfo) (s : State),
      s._tags_cache (tag.id, tag.type) = none → db.tag_id i = none →
      resources_tags_loop db.tag_id conn r i (tag :: rest) s =
        resources_tags_loop db.tag_id conn r (i + 1) rest
          (emit s (Effect.run conn (Stmt.tag_insert tag.id tag.type "(unknown)")))) ∧
    (∀ (conn : Nat) (s : State), (∀ tag ∈ h.tags, s._tags_cache (tag.id, tag.type) ≠ none) →
      tag_statements (resources_tags_loop db.tag_id conn r 0 h.tags s).out =
        tag_statements s.out ++
          h.tags.filterMap (fun tag =>
            (s._tags_cache (tag.id, tag.type)).map
              (fun t => Stmt.resources_tags_insert t r))) := by
  refine ⟨?_, ?_, ?_, ?_, ?_, ?_⟩
  · obtain ⟨A, ts, old, hS0, hA⟩ := valid_after_barrier_extends_text env now
      (u32 h.instance_id) st (-1) (Mask.of [actions.instances, actions.hostgroups,
        actions.host_dependencies, actions.host_parents, actions.custom_variables,
        actions.downtimes, actions.comments, actions.service_dependencies,
        actions.severities])
    have hAt : tag_statements A = [] :=
      tag_statements_none A (fun e he => no_tag_statement_of_not_prepared e (hA e he))
    have h1 := (is_valid_poller_fst env now (u32 h.instance_id)
      (_finish_action st (-1) (Mask.of [actions.instances, actions.hostgroups,
        actions.host_dependencies, actions.host_parents, actions.custom_variables,
        actions.downtimes, actions.comments, actions.service_dependencies,
        actions.severities]))).2 hv
    unfold _process_pb_host
    dsimp only
    rw [if_pos h1, if_pos ⟨hid, hal⟩, if_pos hs, hS0]
    simp only [he, if_true]
    rw [pb_host_resolve_snd h db _ _ r (by simpa [_add_action, emit] using hres)]
    dsimp only
    refine ⟨_, ?_, ?_, rfl⟩
    · rw [(pb_host_resolve_tags_frame h db _ _).1]
      simp [_add_action, emit]
    · rw [(pb_host_resolve_tags_frame h db _ _).2]
      simp only [_add_action, emit, tag_statements_append, hAt]
      simp [tag_statements]
  · intro conn i s
    simp [resources_tags_loop]
  · intro conn i tag rest s t hc
    rw [resources_tags_loop]
    simp only [hc]
  · intro conn i tag rest s n hc hn
    rw [resources_tags_loop]
    simp only [hc, hn, cache_insert, emit]
  · intro conn i tag rest s hc hn
    rw [resources_tags_loop]
    simp only [hc, hn]
  · intro conn s hall
    exact resources_tags_loop_all_cached db.tag_id conn r h.tags 0 s hall

/-- Witness of C9: host 42 is resolved to its cached resource 7; its first tag
is cached (surrogate 11) and the insert of its second tag fails, so the tag
statements are the DELETE for 7, the INSERT `(11, 7)` and the failed insert
into tags. -/
theorem host_tags_rewritten_witness :
    sample_env._store_in_resources = true ∧
    u32 sample_pb_host_tagged.instance_id ∉ sample_state_tagged._cache_deleted_instance_id ∧
    sample_pb_host_tagged.host_id ≠ 0 ∧ sample_pb_host_tagged.alias_ ≠ "" ∧
    sample_pb_host_tagged.enabled = true ∧
    sample_state_tagged._resource_cache (sample_pb_host_tagged.host_id, 0) = some 7 ∧
    (∃ s1, s1._tags_cache = sample_state_tagged._tags_cache ∧
      tag_statements s1.out = tag_statements sample_state_tagged.out ∧
      _process_pb_host sample_env 100000 sample_pb_host_tagged sample_db sample_state_tagged =
        resources_tags_loop sample_db.tag_id
          (sample_env.choose_connection_by_instance sample_pb_host_tagged.instance_id) 7 0
          sample_pb_host_tagged.tags
          (emit (_finish_action s1 (-1) (Mask.of [actions.tags]))
            (Effect.run
              (sample_env.choose_connection_by_instance sample_pb_host_tagged.instance_id)
              (Stmt.resources_tags_remove 7)))) ∧
    tag_statements
        (_process_pb_host sample_env 100000 sample_pb_host_tagged sample_db
          sample_state_tagged).out =
      [Stmt.resources_tags_remove 7, Stmt.resources_tags_insert 11 7,
       Stmt.tag_insert 2 1 "(unknown)"] :=
  ⟨by decide, by decide, by decide, by decide, by decide, by decide,
   (host_tags_rewritten sample_env 100000 sample_pb_host_tagged sample_db sample_state_tagged
     7 (by decide) (by decide) (by decide) (by decide) (by decide)
     (Or.inl (by decide))).1,
   by decide⟩


theorem append_assignments_eq (l : List (Option (List Char))) :
    ∀ q : List Char, append_assignments q l =
      q ++ ((l.filterMap id).map (fun t => t ++ [','])).flatten := by
  induction l with
  | nil => intro q; simp [append_assignments]
  | cons a rest ih =>
    intro q
    cases a with
    | none =>
      have h := ih q
      simp only [append_assignments, List.foldl_cons] at h ⊢
      rw [h]
      simp
    | some t =>
      have h := ih (q ++ t ++ [','])
      simp only [append_assignments, List.foldl_cons] at h ⊢
      rw [h]
      simp

theorem flatten_commas_ne_nil (x : List Char) (xs : List (List Char)) :
    (((x :: xs).map (fun t => t ++ [','])).flatten) ≠ [] := by
  simp

theorem dropLast_flatten_commas (xs : List (List Char)) (h : xs ≠ []) :
    ((xs.map (fun t => t ++ [','])).flatten).dropLast = List.intercalate [','] xs := by
  induction xs with
  | nil => exact absurd rfl h
  | cons x rest ih =>
    cases rest with
    | nil => simp [List.intercalate]
    | cons y r =>
      have ih2 := ih (by simp)
      have hne := flatten_commas_ne_nil y r
      simp only [List.map_cons, List.flatten_cons] at ih2 hne ⊢
      rw [List.dropLast_append_of_ne_nil _ hne, ih2]
      simp [List.intercalate]

theorem assignments_text (buf : List Char) (l : List (Option (List Char)))
    (h : l.filterMap id ≠ []) :
    (append_assignments buf l).length > buf.length ∧
    (append_assignments buf l).dropLast = buf ++ List.intercalate [','] (l.filterMap id) := by
  rw [append_assignments_eq]
  obtain ⟨x, xs, hx⟩ := List.exists_cons_of_ne_nil h
  have hne : ((l.filterMap id).map (fun t => t ++ [','])).flatten ≠ [] := by
    rw [hx]; exact flatten_commas_ne_nil x xs
  constructor
  · rw [List.length_append]
    have := List.length_pos.mpr hne
    omega
  · rw [List.dropLast_append_of_ne_nil _ hne, dropLast_flatten_commas _ h]

theorem assignments_empty (buf : List Char) (l : List (Option (List Char)))
    (h : l.filterMap id = []) : ¬ ((append_assignments buf l).length > buf.length) := by
  rw [append_assignments_eq, h]
  simp

/-- C10: for a protobuf adaptive host event on a host of the host->instance
cache, with `present` the assignments of the fields that are present, in
field order: when no field is present nothing follows the initial barrier (no
statement, no tag); otherwise exactly one statement
`UPDATE hosts SET<assignments> WHERE host_id=<host_id>` is run and tagged,
its assignments being those of `present` separated by single commas, without
trailing comma - one for each present field and none for an absent one; and
the UPDATE on resources follows if and only if `_store_in_resources` is set
and one of notify, active_checks, passive_checks, max_check_attempts is
present. -/
theorem adaptive_host_partial_update (env : Env) (ah : AdaptiveHost) (st : State) (inst : Nat)
    (present res_present : List (List Char))
    (hk : st._cache_host_instance (u32 ah.host_id) = some inst)
    (hp : present = (adaptive_host_assignments env ah).filterMap id)
    (hr : res_present = (adaptive_host_resource_assignments ah).filterMap id) :
    (present = [] →
      (_process_pb_adaptive_host env ah st).out =
        st.out ++ [Effect.finish_action (-1) (Mask.of [actions.host_parents,
          actions.comments, actions.downtimes, actions.host_dependencies,
          actions.service_dependencies])]) ∧
    (present ≠ [] →
      (_process_pb_adaptive_host env ah st).out =
        st.out ++
          [Effect.finish_action (-1) (Mask.of [actions.host_parents,
            actions.comments, actions.downtimes, actions.host_dependencies,
            actions.service_dependencies]),
           Effect.run (env.choose_connection_by_instance inst)
            (Stmt.query (String.mk ("UPDATE hosts SET".toList ++
              List.intercalate [','] present ++ " WHERE host_id=".toList ++
              (Nat.repr ah.host_id).toList))),
           Effect.add_action (env.choose_connection_by_instance inst) actions.hosts] ++
          (if env._store_in_resources = true ∧ res_present ≠ [] then
            [Effect.run (env.choose_connection_by_instance inst)
              (Stmt.query (String.mk ("UPDATE resources SET".toList ++
                List.intercalate [','] res_present ++ " WHERE parent_id=0 AND id=".toList ++
                (Nat.repr ah.host_id).toList))),
             Effect.add_action (env.choose_connection_by_instance inst) actions.resources]
           else [])) ∧
    (res_present ≠ [] ↔
      (ah.notify.isSome = true ∨ ah.active_checks.isSome = true ∨
        ah.passive_checks.isSome = true ∨ ah.max_check_attempts.isSome = true)) ∧
    (adaptive_host_assignments env ah).map Option.isSome =
      [ah.notify.isSome, ah.active_checks.isSome, ah.should_be_scheduled.isSome,
       ah.passive_checks.isSome, ah.event_handler_enabled.isSome, ah.flap_detection.isSome,
       ah.obsess_over_host.isSome, ah.event_handler.isSome, ah.check_command.isSome,
       ah.check_interval.isSome, ah.retry_interval.isSome, ah.max_check_attempts.isSome,
       ah.check_freshness.isSome, ah.check_period.isSome, ah.notification_period.isSome] ∧
    present.length = ((adaptive_host_assignments env ah).filter Option.isSome).length := by
  refine ⟨?_, ?_, ?_, ?_, ?_⟩
  · intro he
    unfold _process_pb_adaptive_host
    simp only [_host_instance_known, _finish_action, emit, hk, Option.isSome_some,
      Bool.true_eq_false, if_false, cache_subscript]
    rw [if_neg (assignments_empty _ _ (by rw [← hp]; exact he))]
  · intro hne
    obtain ⟨h1, h2⟩ := assignments_text "UPDATE hosts SET".toList
      (adaptive_host_assignments env ah) (by rw [← hp]; exact hne)
    unfold _process_pb_adaptive_host
    simp only [_host_instance_known, _finish_action, emit, hk, Option.isSome_some,
      Bool.true_eq_false, if_false, cache_subscript, run_query, _add_action]
    rw [if_pos h1, h2, ← hp]
    by_cases hs : env._store_in_resources = true
    · by_cases hrp : res_present = []
      · rw [if_pos hs, if_neg (assignments_empty _ _ (by rw [← hr]; exact hrp)),
          if_neg (by rintro ⟨_, h⟩; exact h hrp)]
        simp
      · obtain ⟨g1, g2⟩ := assignments_text "UPDATE resources SET".toList
          (adaptive_host_resource_assignments ah) (by rw [← hr]; exact hrp)
        rw [if_pos hs, if_pos g1, g2, ← hr, if_pos ⟨hs, hrp⟩]
        simp
    · rw [if_neg hs, if_neg (by rintro ⟨h, _⟩; exact hs h)]
      simp
  · rw [hr]
    unfold adaptive_host_resource_assignments
    cases ah.notify <;> cases ah.active_checks <;> cases ah.passive_checks <;>
      cases ah.max_check_attempts <;> simp
  · simp [adaptive_host_assignments]
  · rw [hp]
    generalize adaptive_host_assignments env ah = l
    induction l with
    | nil => rfl
    | cons a rest ih => cases a <;> simp [List.filter_cons, ih]

/-- Witness of C10: host 42 is cached on instance 1; an event that sets
`notify` and `check_interval` runs one UPDATE of hosts with the two
assignments and, `notify` being present, the UPDATE of resources. -/
theorem adaptive_host_partial_update_witness :
    sample_state._cache_host_instance (u32 sample_adaptive_host.host_id) = some 1 ∧
    (adaptive_host_assignments sample_env sample_adaptive_host).filterMap id ≠ [] ∧
    (_process_pb_adaptive_host sample_env sample_adaptive_host sample_state).out =
      [Effect.finish_action (-1) (Mask.of [actions.host_parents,
        actions.comments, actions.downtimes, actions.host_dependencies,
        actions.service_dependencies]),
       Effect.run 1
        (Stmt.query "UPDATE hosts SET notify='1', check_interval=5 WHERE host_id=42"),
       Effect.add_action 1 actions.hosts,
       Effect.run 1
        (Stmt.query "UPDATE resources SET notifications_enabled='1' WHERE parent_id=0 AND id=42"),
       Effect.add_action 1 actions.resources] :=
  ⟨by decide, by decide,
   ((adaptive_host_partial_update sample_env sample_adaptive_host sample_state 1 _ _
      (by decide) rfl rfl).2.1 (by decide)).trans (by decide)⟩

theorem index_call_hit_agrees (env : Env) (ss : Service) (db : IndexDb) (st : State)
    (info : index_info) (p : Nat)
    (hc : st._index_cache (ss.host_id, ss.service_id) = some info)
    (ha : index_entry_agrees env ss info)
    (hp : st._cache_host_instance (u32 ss.host_id) = some p) :
    _check_and_update_index_cache env ss db st = (st, false) := by
  obtain ⟨h1, h2, h3⟩ := ha
  unfold _check_and_update_index_cache
  simp only [cache_subscript, hp, hc]
  rw [if_neg (by simp [h1, h2, h3])]

theorem index_call_hit_differs (env : Env) (ss : Service) (db : IndexDb) (st : State)
    (info : index_info) (p : Nat)
    (hc : st._index_cache (ss.host_id, ss.service_id) = some info)
    (ha : ¬ index_entry_agrees env ss info)
    (hp : st._cache_host_instance (u32 ss.host_id) = some p) :
    _check_and_update_index_cache env ss db st =
      ({ st with
          out := st.out ++ [Effect.run_no_conn
            (Stmt.index_data_update (env.truncate ss.host_name env.index_data_host_name_size)
              (env.truncate ss.description env.index_data_service_description_size)
              (decide (ss.type = env.BA)) ss.check_interval info.index_id)]
          _index_cache := cache_set st._index_cache (ss.host_id, ss.service_id)
            { info with
              host_name := env.truncate ss.host_name env.index_data_host_name_size
              service_description :=
                env.truncate ss.description env.index_data_service_description_size
              interval := ss.check_interval } },
        false) := by
  unfold _check_and_update_index_cache
  simp only [cache_subscript, hp, hc]
  rw [if_pos (by
    unfold index_entry_agrees at ha
    by_contra hn
    simp only [not_or, not_not] at hn
    exact ha hn)]
  rfl

theorem index_call_host_cached (env : Env) (ss : Service) (db : IndexDb) (st : State) :
    ∃ p, (_check_and_update_index_cache env ss db st).1._cache_host_instance
      (u32 ss.host_id) = some p := by
  have hsub : ∃ p, (cache_subscript st._cache_host_instance (u32 ss.host_id) 0).2
      (u32 ss.host_id) = some p := by
    unfold cache_subscript
    cases h : st._cache_host_instance (u32 ss.host_id) with
    | some v => exact ⟨v, h⟩
    | none => exact ⟨0, by simp [cache_set]⟩
  obtain ⟨p, hp⟩ := hsub
  refine ⟨p, ?_⟩
  unfold _check_and_update_index_cache
  dsimp only
  cases hc : st._index_cache (ss.host_id, ss.service_id) with
  | none =>
    dsimp only
    cases hi : db.insert_id with
    | some index_id => simpa [emit] using hp
    | none =>
      dsimp only
      cases hsel : db.select_row with
      | none => simpa [emit] using hp
      | some row =>
        cases row with
        | none => simpa [emit] using hp
        | some row => simpa [emit] using hp
  | some info =>
    dsimp only
    split_ifs
    · simpa [emit] using hp
    · simpa using hp

theorem index_call_entry (env : Env) (ss : Service) (db : IndexDb) (st : State)
    (hok : (_check_and_update_index_cache env ss db st).2 = false) :
    ∃ info, (_check_and_update_index_cache env ss db st).1._index_cache
        (ss.host_id, ss.service_id) = some info ∧
      (∀ info0, st._index_cache (ss.host_id, ss.service_id) = some info0 →
        index_entry_agrees env ss info) ∧
      (st._index_cache (ss.host_id, ss.service_id) = none → ∀ id, db.insert_id = some id →
        info.host_name = ss.host_name ∧ info.service_description = ss.description ∧
        info.interval = ss.check_interval) := by
  cases hc : st._index_cache (ss.host_id, ss.service_id) with
  | none =>
    cases hi : db.insert_id with
    | some index_id =>
      refine ⟨{ index_id := index_id, host_name := ss.host_name,
                service_description := ss.description, rrd_retention := env._rrd_len,
                interval := ss.check_interval, special := decide (ss.type = env.BA),
                locked := false }, ?_, ?_, ?_⟩
      · unfold _check_and_update_index_cache
        simp [hc, hi, emit, cache_set]
      · intro info0 h
        cases h
      · intro _ id _
        exact ⟨rfl, rfl, rfl⟩
    | none =>
      cases hsel : db.select_row with
      | none =>
        exfalso
        unfold _check_and_update_index_cache at hok
        simp [hc, hi, hsel] at hok
      | some row =>
        cases row with
        | none =>
          exfalso
          unfold _check_and_update_index_cache at hok
          simp [hc, hi, hsel] at hok
        | some row =>
          refine ⟨{ index_id := row.id, host_name := row.host_name,
                    service_description := row.service_description,
                    rrd_retention :=
                      if row.rrd_retention ≠ 0 then row.rrd_retention else env._rrd_len,
                    interval := if row.check_interval ≠ 0 then row.check_interval else 5,
                    special := decide (row.special = "1"),
                    locked := decide (row.locked = "1") },
            ?_, ?_, ?_⟩
          · unfold _check_and_update_index_cache
            simp [hc, hi, hsel, emit, cache_set]
          · intro info0 h
            cases h
          · intro _ id h
            cases h
  | some info =>
    by_cases hd : index_entry_agrees env ss info
    · refine ⟨info, ?_, fun _ _ => hd, ?_⟩
      · obtain ⟨h1, h2, h3⟩ := hd
        unfold _check_and_update_index_cache
        simp [hc, h1, h2, h3]
      · intro h
        cases h
    · refine ⟨{ info with
                host_name := env.truncate ss.host_name env.index_data_host_name_size
                service_description :=
                  env.truncate ss.description env.index_data_service_description_size
                interval := ss.check_interval }, ?_, fun _ _ => ⟨rfl, rfl, rfl⟩, ?_⟩
      · have hd2 : info.host_name ≠ env.truncate ss.host_name env.index_data_host_name_size ∨
            info.service_description ≠
              env.truncate ss.description env.index_data_service_description_size ∨
            info.interval ≠ ss.check_interval := by
          unfold index_entry_agrees at hd
          by_contra hn
          simp only [not_or, not_not] at hn
          exact hd hn
        unfold _check_and_update_index_cache
        simp only [hc]
        rw [if_pos hd2]
        simp [emit, cache_set]
      · intro h
        cases h

set_option maxRecDepth 8000 in
/-- C13, evaluation at the failing input: the first call inserts the index of
a service whose host name has 256 characters, one more than the column, and
stores the name as the message gives it; the second call with the same
message compares the entry with the name cut to 255 characters, runs an
UPDATE of `index_data` and changes the entry of the index cache. -/
theorem index_second_call_updates :
    sample_state._index_cache (42, 7) = none ∧
    sample_service_long.host_name.length = 256 ∧
    sample_env.index_data_host_name_size = 255 ∧
    (_check_and_update_index_cache sample_env sample_service_long sample_index_db
      sample_state).2 = false ∧
    (_check_and_update_index_cache sample_env sample_service_long sample_index_db
      (_check_and_update_index_cache sample_env sample_service_long sample_index_db
        sample_state).1).1.out =
      (_check_and_update_index_cache sample_env sample_service_long sample_index_db
        sample_state).1.out ++
      [Effect.run_no_conn
        (Stmt.index_data_update (String.mk (List.replicate 255 'a')) "cpu" false 1 5)] ∧
    (_check_and_update_index_cache sample_env sample_service_long sample_index_db
      (_check_and_update_index_cache sample_env sample_service_long sample_index_db
        sample_state).1).1._index_cache (42, 7) ≠
      (_check_and_update_index_cache sample_env sample_service_long sample_index_db
        sample_state).1._index_cache (42, 7) := by
  decide

/-- After a first call that read the index back from a row written under
another host name, the second call with the same message runs an UPDATE of
`index_data`. -/
theorem index_read_back_then_update :
    (_check_and_update_index_cache sample_env sample_service sample_index_db_row
      sample_state).2 = false ∧
    (_check_and_update_index_cache sample_env sample_service sample_index_db_row
      (_check_and_update_index_cache sample_env sample_service sample_index_db_row
        sample_state).1).1.out =
      (_check_and_update_index_cache sample_env sample_service sample_index_db_row
        sample_state).1.out ++
      [Effect.run_no_conn (Stmt.index_data_update "h" "cpu" false 1 5)] := by
  decide

/-- Calls of `_check_and_update_index_cache` repeated with the same `s`: when
the first call succeeds, the call that follows finds the pair in the index
cache, runs no INSERT and no SELECT and publishes nothing; it leaves the state
as it is when the entry agrees with `s` (truncated host name, truncated
description, check interval), and otherwise runs one UPDATE of `index_data`
and rewrites these three fields of the entry.  The entry agrees when the
first call had found the pair in the cache; when the first call inserted the
index, it agrees exactly when truncation leaves the host name and the
description of `s` unchanged, so the UPDATE run for a longer name comes from
the entry stored untruncated and not from a change of the service.  A third
call with the same `s` always leaves the state as it is. -/
theorem index_resolution_repeated (env : Env) (ss : Service) (db db2 db3 : IndexDb)
    (st : State)
    (hok : (_check_and_update_index_cache env ss db st).2 = false) :
    (∃ info,
      (_check_and_update_index_cache env ss db st).1._index_cache
        (ss.host_id, ss.service_id) = some info ∧
      (index_entry_agrees env ss info →
        _check_and_update_index_cache env ss db2
            (_check_and_update_index_cache env ss db st).1 =
          ((_check_and_update_index_cache env ss db st).1, false)) ∧
      (¬ index_entry_agrees env ss info →
        _check_and_update_index_cache env ss db2
            (_check_and_update_index_cache env ss db st).1 =
          ({ (_check_and_update_index_cache env ss db st).1 with
              out := (_check_and_update_index_cache env ss db st).1.out ++
                [Effect.run_no_conn
                  (Stmt.index_data_update
                    (env.truncate ss.host_name env.index_data_host_name_size)
                    (env.truncate ss.description env.index_data_service_description_size)
                    (decide (ss.type = env.BA)) ss.check_interval info.index_id)]
              _index_cache :=
                cache_set (_check_and_update_index_cache env ss db st).1._index_cache
                  (ss.host_id, ss.service_id)
                  { info with
                    host_name := env.truncate ss.host_name env.index_data_host_name_size
                    service_description :=
                      env.truncate ss.description env.index_data_service_description_size
                    interval := ss.check_interval } },
            false))) ∧
    (∀ info0, st._index_cache (ss.host_id, ss.service_id) = some info0 →
      _check_and_update_index_cache env ss db2
          (_check_and_update_index_cache env ss db st).1 =
        ((_check_and_update_index_cache env ss db st).1, false)) ∧
    (st._index_cache (ss.host_id, ss.service_id) = none → ∀ id, db.insert_id = some id →
      (_check_and_update_index_cache env ss db2
          (_check_and_update_index_cache env ss db st).1 =
        ((_check_and_update_index_cache env ss db st).1, false) ↔
        env.truncate ss.host_name env.index_data_host_name_size = ss.host_name ∧
        env.truncate ss.description env.index_data_service_description_size =
          ss.description)) ∧
    _check_and_update_index_cache env ss db3
        (_check_and_update_index_cache env ss db2
          (_check_and_update_index_cache env ss db st).1).1 =
      ((_check_and_update_index_cache env ss db2
          (_check_and_update_index_cache env ss db st).1).1, false) := by
  obtain ⟨info, hinfo, hhit, hins⟩ := index_call_entry env ss db st hok
  obtain ⟨p, hp⟩ := index_call_host_cached env ss db st
  generalize (_check_and_update_index_cache env ss db st).1 = s1 at hinfo hp ⊢
  have hA : index_entry_agrees env ss info →
      _check_and_update_index_cache env ss db2 s1 = (s1, false) :=
    fun ha => index_call_hit_agrees env ss db2 s1 info p hinfo ha hp
  have hD := fun hna => index_call_hit_differs env ss db2 s1 info p hinfo hna hp
  refine ⟨⟨info, hinfo, hA, hD⟩, fun info0 h0 => hA (hhit info0 h0), ?_, ?_⟩
  · intro hnone id hid
    obtain ⟨e1, e2, e3⟩ := hins hnone id hid
    constructor
    · intro h2
      by_contra hn
      have hna : ¬ index_entry_agrees env ss info := by
        intro ha
        apply hn
        exact ⟨by rw [← ha.1, e1], by rw [← ha.2.1, e2]⟩
      have h3 := hD hna
      rw [h2] at h3
      have h4 := congrArg (fun r => r.1.out.length) h3
      simp at h4
    · intro ht
      exact hA ⟨by rw [e1, ht.1], by rw [e2, ht.2], e3⟩
  · by_cases ha : index_entry_agrees env ss info
    · rw [hA ha]
      exact index_call_hit_agrees env ss db3 s1 info p hinfo ha hp
    · rw [hD ha]
      exact index_call_hit_agrees env ss db3 _
        { info with
          host_name := env.truncate ss.host_name env.index_data_host_name_size
          service_description :=
            env.truncate ss.description env.index_data_service_description_size
          interval := ss.check_interval }
        p (by simp [cache_set]) ⟨rfl, rfl, rfl⟩ hp

/-- Evaluation of the repeated call: the index of service 7 of host 42 is
inserted with id 5; its names fit the columns, so the second call changes
nothing. -/
theorem index_resolution_repeated_witness :
    (_check_and_update_index_cache sample_env sample_service sample_index_db
      sample_state).2 = false ∧
    _check_and_update_index_cache sample_env sample_service sample_index_db
        (_check_and_update_index_cache sample_env sample_service sample_index_db
          sample_state).1 =
      ((_check_and_update_index_cache sample_env sample_service sample_index_db
          sample_state).1, false) :=
  ⟨by decide,
   ((index_resolution_repeated sample_env sample_service sample_index_db sample_index_db
      sample_index_db sample_state (by decide)).2.2.1 (by decide) 5 (by decide)).2
     ⟨by decide, by decide⟩⟩

/-- C14: the legacy handler calls the perfdata part once when
`_store_in_hosts_services` is set and the host is in the host->instance
cache, and never otherwise: with the flag off it returns at once.  The
protobuf handler calls it once whenever the host is in the cache, whatever
the flag.  So with the flag off, a status of a known host reaches the
perfdata part only in its protobuf form. -/
theorem service_status_perfdata_calls (env : Env) (now : Int) (ss : service_status)
    (sscr : ServiceStatus) (st : State) :
    (∃ effs, (_process_service_status env now ss st).out = st.out ++ effs ∧
      perfdata_calls effs =
        if env._store_in_hosts_services = true ∧ _host_instance_known st ss.host_id = true
        then 1 else 0) ∧
    (∃ effs, (_process_pb_service_status env now sscr st).out = st.out ++ effs ∧
      perfdata_calls effs = if _host_instance_known st sscr.host_id = true then 1 else 0) ∧
    _process_service_status { env with _store_in_hosts_services := false } now ss st = st := by
  refine ⟨?_, ?_, ?_⟩
  · unfold _process_service_status
    by_cases h1 : env._store_in_hosts_services = false
    · rw [if_pos h1]
      exact ⟨[], by simp, by simp [h1, perfdata_calls]⟩
    · rw [if_neg h1]
      have h1t : env._store_in_hosts_services = true := by simpa using h1
      by_cases h2 : _host_instance_known st ss.host_id = false
      · refine ⟨[Effect.finish_action (-1)
          (Mask.of [actions.host_parents, actions.comments, actions.downtimes,
            actions.host_dependencies, actions.service_dependencies])], ?_, ?_⟩
        · simp [_finish_action, emit, _host_instance_known] at h2 ⊢
          simp [h2]
        · simp [h2, perfdata_calls]
      · have h2t : _host_instance_known st ss.host_id = true := by simpa using h2
        by_cases h3 : ss.check_type ≠ 0 ∨ ss.active_checks_enabled = false ∨
            ss.next_check ≥ now - 5 * 60 ∨ ss.next_check = 0
        · refine ⟨[Effect.finish_action (-1)
              (Mask.of [actions.host_parents, actions.comments, actions.downtimes,
                actions.host_dependencies, actions.service_dependencies]),
            Effect.run (env.choose_connection_by_instance
                (cache_subscript st._cache_host_instance (u32 ss.host_id) 0).1)
              (Stmt.service_status_update ss),
            Effect.add_action (env.choose_connection_by_instance
                (cache_subscript st._cache_host_instance (u32 ss.host_id) 0).1)
              actions.hosts,
            Effect.unified_sql_process_service_status ss], ?_, ?_⟩
          · dsimp only
            rw [if_neg (by simpa [_finish_action, emit, _host_instance_known] using h2),
              if_pos h3]
            simp [_finish_action, _add_action, emit]
          · simp [h1t, h2t, perfdata_calls]
        · refine ⟨[Effect.finish_action (-1)
              (Mask.of [actions.host_parents, actions.comments, actions.downtimes,
                actions.host_dependencies, actions.service_dependencies]),
            Effect.unified_sql_process_service_status ss], ?_, ?_⟩
          · dsimp only
            rw [if_neg (by simpa [_finish_action, emit, _host_instance_known] using h2),
              if_neg h3]
            simp [_finish_action, emit]
          · simp [h1t, h2t, perfdata_calls]
  · unfold _process_pb_service_status
    by_cases h2 : _host_instance_known st sscr.host_id = false
    · refine ⟨[Effect.finish_action (-1)
        (Mask.of [actions.host_parents, actions.comments, actions.downtimes,
          actions.host_dependencies, actions.service_dependencies])], ?_, ?_⟩
      · simp [_finish_action, emit, _host_instance_known] at h2 ⊢
        simp [h2]
      · simp [h2, perfdata_calls]
    · have h2t : _host_instance_known st sscr.host_id = true := by simpa using h2
      dsimp only
      rw [if_neg (by simpa [_finish_action, emit, _host_instance_known] using h2)]
      by_cases h3 : sscr.check_type = CheckType.PASSIVE ∨ sscr.next_check ≥ now - 5 * 60 ∨
          sscr.next_check = 0
      · rw [if_pos h3]
        cases hA : env._store_in_hosts_services <;> cases hB : env._store_in_resources <;>
          simp [_finish_action, _add_action, emit, perfdata_calls, h2t]
      · rw [if_neg h3]
        simp [_finish_action, emit, perfdata_calls, h2t]
  · unfold _process_service_status
    rw [if_pos rfl]

theorem refresh_extends_tags (env : Env) (id : Nat) (r : Bool) (st : State) :
    extends_out (fun e => poller_refresh_effect e = true) st
      (_update_hosts_and_services_of_instance env id r st) := by
  unfold _update_hosts_and_services_of_instance run_query _add_action _finish_action
  dsimp only
  cases r <;> by_cases h : env.bbdo_major_v < 3 <;> simp only [h, if_true, if_false] <;>
    (repeat (refine extends_out_emit _ ?_ rfl)) <;> exact extends_out_refl _ _

theorem update_timestamp_extends_tags (env : Env) (now : Int) (id : Nat) (st : State) :
    extends_out (fun e => poller_refresh_effect e = true) st
      (_update_timestamp env now id st) := by
  obtain ⟨effs, ts, old, heq, hP⟩ := refresh_extends_tags env id true st
  unfold _update_timestamp
  cases hfind : ts_find st._stored_timestamps id with
  | none =>
    dsimp only
    rw [heq]
    split_ifs <;> exact ⟨effs, _, _, rfl, hP⟩
  | some found =>
    dsimp only
    by_cases hst : found.state = state_type.unresponsive
    · simp only [hst, if_true]
      rw [heq]
      split_ifs <;> exact ⟨effs, _, _, rfl, hP⟩
    · simp only [hst, if_false]
      split_ifs <;> exact ⟨[], _, _, by rw [List.append_nil], by simp⟩

theorem comment_upserts_append (a b : List Effect) :
    comment_upserts (a ++ b) = comment_upserts a ++ comment_upserts b := by
  simp [comment_upserts, List.filterMap_append]

theorem tagged_with_append (f : actions) (a b : List Effect) :
    tagged_with f (a ++ b) = tagged_with f a ++ tagged_with f b := by
  simp [tagged_with, List.filterMap_append]

theorem comment_upserts_refresh (effs : List Effect)
    (h : ∀ e ∈ effs, poller_refresh_effect e = true) : comment_upserts effs = [] := by
  induction effs with
  | nil => rfl
  | cons e rest ih =>
    have h1 : comment_upserts (e :: rest) = comment_upserts [e] ++ comment_upserts rest :=
      comment_upserts_append [e] rest
    rw [h1, ih (fun x hx => h x (List.mem_cons_of_mem _ hx))]
    have he := h e (List.mem_cons_self _ _)
    cases e with
    | run c s => cases s <;> first | rfl | simp [poller_refresh_effect] at he
    | _ => rfl

theorem tagged_with_refresh (f : actions) (effs : List Effect)
    (hf : f ≠ actions.instances ∧ f ≠ actions.hosts)
    (h : ∀ e ∈ effs, poller_refresh_effect e = true) : tagged_with f effs = [] := by
  induction effs with
  | nil => rfl
  | cons e rest ih =>
    have h1 : tagged_with f (e :: rest) = tagged_with f [e] ++ tagged_with f rest :=
      tagged_with_append f [e] rest
    rw [h1, ih (fun x hx => h x (List.mem_cons_of_mem _ hx))]
    have he := h e (List.mem_cons_self _ _)
    cases e with
    | add_action c a =>
      by_cases ha : a = f
      · subst ha
        cases a <;> first
          | (simp [poller_refresh_effect] at he; done)
          | exact absurd rfl hf.1
          | exact absurd rfl hf.2
      · simp [tagged_with, ha]
    | _ => rfl

/-- C15: the legacy handler never looks at the deleted-instances cache: for
every comment and every state it runs one comment upsert on the connection
of the poller and tags that connection with the comments family.  The
protobuf handler produces nothing when the poller is in the cache, and
otherwise runs one comment upsert on the connection of the poller and tags
it with the comments family.  So a comment of a deleted poller is discarded
in its protobuf form only. -/
theorem comment_of_deleted_poller (env : Env) (now : Int) (c : comment) (comm : Comment)
    (st : State) :
    (∃ effs, (_process_comment env c st).out = st.out ++ effs ∧
      comment_upserts effs =
        [(env.choose_connection_by_instance c.poller_id, Stmt.comment_insupdate c)] ∧
      tagged_with actions.comments effs = [env.choose_connection_by_instance c.poller_id]) ∧
    (∃ effs, (_process_pb_comment env now comm st).out = st.out ++ effs ∧
      if u32 comm.instance_id ∈ st._cache_deleted_instance_id then effs = []
      else
        comment_upserts effs =
          [(env.choose_connection_by_instance comm.instance_id,
            Stmt.pb_comment_insupdate comm)] ∧
        tagged_with actions.comments effs =
          [env.choose_connection_by_instance comm.instance_id]) := by
  constructor
  · exact ⟨[Effect.finish_action (-1)
        (Mask.of [actions.hosts, actions.instances, actions.host_parents,
          actions.host_dependencies, actions.service_dependencies, actions.comments]),
      Effect.run (env.choose_connection_by_instance c.poller_id) (Stmt.comment_insupdate c),
      Effect.add_action (env.choose_connection_by_instance c.poller_id) actions.comments],
      by simp [_process_comment, _finish_action, _add_action, emit],
      by simp [comment_upserts], by simp [tagged_with]⟩
  · unfold _process_pb_comment _is_valid_poller
    by_cases hd : u32 comm.instance_id ∈ st._cache_deleted_instance_id
    · rw [if_pos hd]
      exact ⟨[], by simp, by simp [hd]⟩
    · rw [if_neg hd]
      obtain ⟨effs, ts, old, heq, hP⟩ :=
        update_timestamp_extends_tags env now (u32 comm.instance_id) st
      dsimp only
      rw [heq]
      refine ⟨effs ++
        [Effect.run (env.choose_connection_by_instance comm.instance_id)
          (Stmt.pb_comment_insupdate comm),
         Effect.add_action (env.choose_connection_by_instance comm.instance_id)
          actions.comments], by simp [_add_action, emit], ?_⟩
      rw [if_neg hd, comment_upserts_append, tagged_with_append,
        comment_upserts_refresh effs hP,
        tagged_with_refresh actions.comments effs ⟨by decide, by decide⟩ hP]
      exact ⟨by simp [comment_upserts], by simp [tagged_with]⟩

theorem is_valid_poller_extends_tags (env : Env) (now : Int) (id : Nat) (st : State) :
    extends_out (fun e => poller_refresh_effect e = true) st
      (_is_valid_poller env now id st).2 := by
  unfold _is_valid_poller
  split_ifs
  · exact extends_out_refl _ _
  · exact update_timestamp_extends_tags env now id st

/-- C16: three handlers enqueue a statement without the tag of its family.
`_process_service_check` never calls `_add_action`, also when it runs the
UPDATE of `services`.  The legacy `_process_service_status` never tags the
family `services`: after its UPDATE of `services` it tags `hosts`.
`_process_acknowledgement` never tags the family `acknowledgements`: for a
poller that is not deleted, the acknowledgement upsert is the last thing it
does. -/
theorem statements_without_family_tag (env : Env) (now : Int) (sc : service_check)
    (ss : service_status) (ack : acknowledgement) (st : State) :
    (∃ effs, (_process_service_check env now sc st).out = st.out ++ effs ∧
      tagged effs = [] ∧
      statements effs =
        if _host_instance_known st sc.host_id = true ∧
            (sc.check_type ≠ 0 ∨ sc.active_checks_enabled = false ∨
              sc.next_check ≥ now - 5 * 60 ∨ sc.next_check = 0) ∧
            (cache_subscript st._cache_svc_cmd (sc.host_id, sc.service_id) 0).1 ≠
              env.hash sc.command_line
        then
          [(env.choose_connection_by_instance
              (cache_subscript st._cache_host_instance (u32 sc.host_id) 0).1,
            Stmt.service_check_update sc)]
        else []) ∧
    (∃ effs, (_process_service_status env now ss st).out = st.out ++ effs ∧
      tagged_with actions.services effs = [] ∧
      (statements effs, tagged effs) =
        if env._store_in_hosts_services = true ∧ _host_instance_known st ss.host_id = true ∧
            (ss.check_type ≠ 0 ∨ ss.active_checks_enabled = false ∨
              ss.next_check ≥ now - 5 * 60 ∨ ss.next_check = 0)
        then
          ([(env.choose_connection_by_instance
              (cache_subscript st._cache_host_instance (u32 ss.host_id) 0).1,
            Stmt.service_status_update ss)],
           [(env.choose_connection_by_instance
              (cache_subscript st._cache_host_instance (u32 ss.host_id) 0).1,
            actions.hosts)])
        else ([], [])) ∧
    (∃ effs, (_process_acknowledgement env now ack st).out = st.out ++ effs ∧
      tagged_with actions.acknowledgements effs = [] ∧
      if ack.poller_id ∈ st._cache_deleted_instance_id then effs = []
      else
        effs.getLast? =
          some (Effect.run (env.choose_connection_by_instance ack.poller_id)
            (Stmt.acknowledgement_insupdate ack))) := by
  refine ⟨?_, ?_, ?_⟩
  · unfold _process_service_check
    by_cases h2 : _host_instance_known st sc.host_id = false
    · refine ⟨[Effect.finish_action (-1)
        (Mask.of [actions.downtimes, actions.comments, actions.host_dependencies,
          actions.host_parents, actions.service_dependencies])], ?_, ?_, ?_⟩
      · simp [_finish_action, emit, _host_instance_known] at h2 ⊢
        simp [h2]
      · simp [tagged]
      · simp [h2, statements]
    · have h2t : _host_instance_known st sc.host_id = true := by simpa using h2
      dsimp only
      rw [if_neg (by simpa [_finish_action, emit, _host_instance_known] using h2)]
      by_cases h3 : sc.check_type ≠ 0 ∨ sc.active_checks_enabled = false ∨
          sc.next_check ≥ now - 5 * 60 ∨ sc.next_check = 0
      · rw [if_pos h3]
        by_cases h4 : (cache_subscript st._cache_svc_cmd (sc.host_id, sc.service_id) 0).1 ≠
            env.hash sc.command_line
        · rw [if_pos (by simpa [_finish_action, emit] using h4), if_pos ⟨h2t, h3, h4⟩]
          simp [_finish_action, emit, tagged, statements]
        · rw [if_neg (by simpa [_finish_action, emit] using h4),
            if_neg (fun h => h4 h.2.2)]
          simp [_finish_action, emit, tagged, statements]
      · rw [if_neg h3, if_neg (fun h => h3 h.2.1)]
        simp [_finish_action, emit, tagged, statements]
  · unfold _process_service_status
    by_cases h1 : env._store_in_hosts_services = false
    · rw [if_pos h1]
      exact ⟨[], by simp, by simp [tagged_with], by simp [h1, statements, tagged]⟩
    · rw [if_neg h1]
      have h1t : env._store_in_hosts_services = true := by simpa using h1
      by_cases h2 : _host_instance_known st ss.host_id = false
      · refine ⟨[Effect.finish_action (-1)
          (Mask.of [actions.host_parents, actions.comments, actions.downtimes,
            actions.host_dependencies, actions.service_dependencies])], ?_, ?_, ?_⟩
        · simp [_finish_action, emit, _host_instance_known] at h2 ⊢
          simp [h2]
        · simp [tagged_with]
        · simp [h2, statements, tagged]
      · have h2t : _host_instance_known st ss.host_id = true := by simpa using h2
        dsimp only
        rw [if_neg (by simpa [_finish_action, emit, _host_instance_known] using h2)]
        by_cases h3 : ss.check_type ≠ 0 ∨ ss.active_checks_enabled = false ∨
            ss.next_check ≥ now - 5 * 60 ∨ ss.next_check = 0
        · rw [if_pos h3, if_pos ⟨h1t, h2t, h3⟩]
          simp [_finish_action, _add_action, emit, tagged, tagged_with, statements]
        · rw [if_neg h3, if_neg (fun h => h3 h.2.2)]
          simp [_finish_action, emit, tagged, tagged_with, statements]
  · unfold _process_acknowledgement
    obtain ⟨effs, ts, old, heq, hP⟩ := is_valid_poller_extends_tags env now ack.poller_id st
    have hv := is_valid_poller_fst env now ack.poller_id st
    by_cases hd : ack.poller_id ∈ st._cache_deleted_instance_id
    · have hf : (_is_valid_poller env now ack.poller_id st).1 = false := by
        cases hb : (_is_valid_poller env now ack.poller_id st).1 with
        | false => rfl
        | true => exact absurd hd (hv.mp hb)
      have hs : (_is_valid_poller env now ack.poller_id st).2 = st := by
        unfold _is_valid_poller
        rw [if_pos hd]
      dsimp only
      rw [hf, hs]
      exact ⟨[], by simp, by simp [tagged_with], by simp [hd]⟩
    · have ht : (_is_valid_poller env now ack.poller_id st).1 = true := hv.mpr hd
      dsimp only
      rw [ht, heq]
      refine ⟨effs ++ [Effect.run (env.choose_connection_by_instance ack.poller_id)
          (Stmt.acknowledgement_insupdate ack)], by simp [emit], ?_, ?_⟩
      · rw [tagged_with_append,
          tagged_with_refresh actions.acknowledgements effs ⟨by decide, by decide⟩ hP]
        simp [tagged_with]
      · rw [if_neg hd]
        simp

theorem delete_members_ne_clean (id p : Nat) :
    delete_hostgroup_members_query id p ≠ clean_empty_hostgroups_query := by
  intro h
  have h2 := congrArg String.length h
  simp only [delete_hostgroup_members_query, clean_empty_hostgroups_query,
    String.length_append] at h2
  have e0 : "DELETE hosts_hostgroups FROM hosts_hostgroups ".length = 46 := by decide
  have e1 : "LEFT JOIN hosts".length = 15 := by decide
  have e2 : " ON hosts_hostgroups.host_id=hosts.host_id".length = 42 := by decide
  have e3 : " WHERE hosts_hostgroups.hostgroup_id=".length = 37 := by decide
  have e4 : " AND ".length = 5 := by decide
  have e5 : "hosts.instance_id=".length = 18 := by decide
  have e6 : "DELETE hg FROM hostgroups AS hg LEFT JOIN hosts_hostgroups AS hhg ON ".length = 69 := by decide
  have e7 : "hg.hostgroup_id=hhg.hostgroup_id WHERE hhg.hostgroup_id IS NULL".length = 63 := by decide
  omega

theorem groups_rows_append (hosts : Nat → Option Nat) (a b : List Effect) (t : GroupTables) :
    groups_rows hosts (a ++ b) t = groups_rows hosts b (groups_rows hosts a t) := by
  simp [groups_rows, List.foldl_append]

theorem groups_apply_keeps (hosts : Nat → Option Nat) (t : GroupTables) (e : Effect)
    (hne : ∀ c, e ≠ Effect.run c (Stmt.query clean_empty_hostgroups_query)) (g : Nat)
    (h : t.hostgroups g = true) : (groups_apply hosts t e).hostgroups g = true := by
  cases e with
  | run c s =>
    cases s with
    | query sql =>
      have hsql : sql ≠ clean_empty_hostgroups_query := by
        intro he
        exact hne c (by rw [he])
      simp [groups_apply, hsql, h]
    | host_group_insupdate hg =>
      simp only [groups_apply, set_insert]
      split_ifs
      · rfl
      · exact h
    | host_group_member_insert hgm => simpa [groups_apply] using h
    | host_group_member_delete hgm => simpa [groups_apply] using h
    | _ => simpa [groups_apply] using h
  | _ => simpa [groups_apply] using h

theorem host_group_enabled_eq (env : Env) (hg : host_group) (st : State)
    (he : hg.enabled = true) :
    _process_host_group env hg st =
      { st with
        out := st.out ++
          [Effect.run (env.special_conn_host_group % env.connections_count)
            (Stmt.host_group_insupdate hg),
           Effect.add_action (env.special_conn_host_group % env.connections_count)
            actions.hostgroups]
        _hostgroup_cache := set_insert st._hostgroup_cache hg.id } := by
  unfold _process_host_group
  simp [he, _add_action, emit]

theorem host_group_disabled_eq (env : Env) (hg : host_group) (st : State)
    (he : hg.enabled = false) :
    _process_host_group env hg st =
      { st with
        out := st.out ++
          [Effect.finish_action (-1) (Mask.of [actions.hosts]),
           Effect.run (env.special_conn_host_group % env.connections_count)
            (Stmt.query (delete_hostgroup_members_query hg.id hg.poller_id)),
           Effect.add_action (env.special_conn_host_group % env.connections_count)
            actions.hostgroups]
        _hostgroup_cache := set_erase st._hostgroup_cache hg.id } := by
  unfold _process_host_group
  simp [he, _add_action, _finish_action, run_query, emit]

theorem set_erase_true (s : Nat → Bool) (k g : Nat) (h : set_erase s k g = true) :
    s g = true := by
  unfold set_erase at h
  by_cases hk : g = k
  · simp [hk] at h
  · simpa [hk] using h

theorem host_group_step (env : Env) (hosts : Nat → Option Nat) (t0 : GroupTables)
    (hg : host_group) (st : State)
    (hinv : cached_groups_in_table (groups_rows hosts st.out t0) st) :
    cached_groups_in_table (groups_rows hosts (_process_host_group env hg st).out t0)
      (_process_host_group env hg st) := by
  cases he : hg.enabled with
  | true =>
    rw [host_group_enabled_eq env hg st he]
    intro g hgc
    dsimp only at hgc ⊢
    rw [groups_rows_append]
    simp only [groups_rows, List.foldl_cons, List.foldl_nil, groups_apply, set_insert]
    simp only [set_insert] at hgc
    by_cases hgid : g = hg.id
    · simp [hgid]
    · simp only [hgid, if_false] at hgc ⊢
      exact hinv g hgc
  | false =>
    rw [host_group_disabled_eq env hg st he]
    intro g hgc
    dsimp only at hgc ⊢
    have h0 := hinv g (set_erase_true _ _ _ hgc)
    rw [groups_rows_append]
    simp only [groups_rows, List.foldl_cons, List.foldl_nil]
    apply groups_apply_keeps _ _ _ (by intro c h; cases h)
    apply groups_apply_keeps _ _ _ (by
      intro c h
      injection h with h1 h2
      injection h2 with h3
      exact delete_members_ne_clean _ _ h3)
    apply groups_apply_keeps _ _ _ (by intro c h; cases h)
    exact h0

theorem host_group_member_unknown_eq (env : Env) (hgm : host_group_member) (st : State)
    (hk : st._cache_host_instance (u32 hgm.host_id) = none) :
    _process_host_group_member env hgm st =
      { st with out := st.out ++ [Effect.finish_action (-1) (Mask.of [actions.hosts])] } := by
  unfold _process_host_group_member
  simp [hk, _host_instance_known, _finish_action, emit]

theorem host_group_member_delete_eq (env : Env) (hgm : host_group_member) (st : State)
    (p : Nat) (hk : st._cache_host_instance (u32 hgm.host_id) = some p)
    (he : hgm.enabled = false) :
    _process_host_group_member env hgm st =
      { st with out := st.out ++
          [Effect.finish_action (-1) (Mask.of [actions.hosts]),
           Effect.run (env.special_conn_host_group % env.connections_count)
            (Stmt.host_group_member_delete hgm),
           Effect.add_action (env.special_conn_host_group % env.connections_count)
            actions.hostgroups] } := by
  unfold _process_host_group_member
  simp [hk, he, _host_instance_known, _finish_action, _add_action, emit]

theorem host_group_member_zero_eq (env : Env) (hgm : host_group_member) (st : State)
    (hk : st._cache_host_instance (u32 hgm.host_id) = some 0)
    (he : hgm.enabled = true) :
    _process_host_group_member env hgm st =
      { st with out := st.out ++ [Effect.finish_action (-1) (Mask.of [actions.hosts])] } := by
  unfold _process_host_group_member
  simp [hk, he, _host_instance_known, _finish_action, emit, cache_subscript]

theorem host_group_member_cached_eq (env : Env) (hgm : host_group_member) (st : State)
    (p : Nat) (hk : st._cache_host_instance (u32 hgm.host_id) = some p) (hp : p ≠ 0)
    (he : hgm.enabled = true) (hc : st._hostgroup_cache hgm.group_id = true) :
    _process_host_group_member env hgm st =
      { st with out := st.out ++
          [Effect.finish_action (-1) (Mask.of [actions.hosts]),
           Effect.run (env.special_conn_host_group % env.connections_count)
            (Stmt.host_group_member_insert hgm),
           Effect.add_action (env.special_conn_host_group % env.connections_count)
            actions.hostgroups] } := by
  unfold _process_host_group_member
  simp [hk, hp, he, hc, _host_instance_known, _finish_action, _add_action, emit,
    cache_subscript]

theorem host_group_member_created_eq (env : Env) (hgm : host_group_member) (st : State)
    (p : Nat) (hk : st._cache_host_instance (u32 hgm.host_id) = some p) (hp : p ≠ 0)
    (he : hgm.enabled = true) (hc : st._hostgroup_cache hgm.group_id = false) :
    _process_host_group_member env hgm st =
      { st with
        out := st.out ++
          [Effect.finish_action (-1) (Mask.of [actions.hosts]),
           Effect.run (env.special_conn_host_group % env.connections_count)
            (Stmt.host_group_insupdate
              { id := hgm.group_id, name := hgm.group_name, enabled := true, poller_id := p }),
           Effect.run (env.special_conn_host_group % env.connections_count)
            (Stmt.host_group_member_insert hgm),
           Effect.add_action (env.special_conn_host_group % env.connections_count)
            actions.hostgroups]
        _hostgroup_cache := set_insert st._hostgroup_cache hgm.group_id } := by
  unfold _process_host_group_member
  simp [hk, hp, he, hc, _host_instance_known, _finish_action, _add_action, emit,
    cache_subscript]

theorem groups_rows_keep (hosts : Nat → Option Nat) (effs : List Effect)
    (hne : ∀ e ∈ effs, ∀ c, e ≠ Effect.run c (Stmt.query clean_empty_hostgroups_query)) :
    ∀ (t : GroupTables) (g : Nat), t.hostgroups g = true →
      (groups_rows hosts effs t).hostgroups g = true := by
  induction effs with
  | nil =>
    intro t g h
    exact h
  | cons e rest ih =>
    intro t g h
    have h1 : groups_rows hosts (e :: rest) t = groups_rows hosts rest (groups_apply hosts t e) :=
      rfl
    rw [h1]
    apply ih (fun x hx => hne x (List.mem_cons_of_mem _ hx))
    exact groups_apply_keeps hosts t e (hne e (List.mem_cons_self _ _)) g h

theorem host_group_member_step (env : Env) (hosts : Nat → Option Nat) (t0 : GroupTables)
    (hgm : host_group_member) (st : State)
    (hinv : cached_groups_in_table (groups_rows hosts st.out t0) st) :
    cached_groups_in_table (groups_rows hosts (_process_host_group_member env hgm st).out t0)
      (_process_host_group_member env hgm st) := by
  cases hk : st._cache_host_instance (u32 hgm.host_id) with
  | none =>
    rw [host_group_member_unknown_eq env hgm st hk]
    intro g hgc
    dsimp only at hgc ⊢
    rw [groups_rows_append]
    exact groups_rows_keep hosts _ (by simp) _ g (hinv g hgc)
  | some p =>
    cases he : hgm.enabled with
    | false =>
      rw [host_group_member_delete_eq env hgm st p hk he]
      intro g hgc
      dsimp only at hgc ⊢
      rw [groups_rows_append]
      exact groups_rows_keep hosts _ (by simp) _ g (hinv g hgc)
    | true =>
      by_cases hp : p = 0
      · subst hp
        rw [host_group_member_zero_eq env hgm st hk he]
        intro g hgc
        dsimp only at hgc ⊢
        rw [groups_rows_append]
        exact groups_rows_keep hosts _ (by simp) _ g (hinv g hgc)
      · cases hc : st._hostgroup_cache hgm.group_id with
        | true =>
          rw [host_group_member_cached_eq env hgm st p hk hp he hc]
          intro g hgc
          dsimp only at hgc ⊢
          rw [groups_rows_append]
          exact groups_rows_keep hosts _ (by simp) _ g (hinv g hgc)
        | false =>
          rw [host_group_member_created_eq env hgm st p hk hp he hc]
          intro g hgc
          dsimp only at hgc ⊢
          rw [groups_rows_append]
          simp only [groups_rows, List.foldl_cons, List.foldl_nil, groups_apply, set_insert]
          simp only [set_insert] at hgc
          by_cases hgid : g = hgm.group_id
          · simp [hgid]
          · simp only [hgid, if_false] at hgc ⊢
            exact hinv g hgc

theorem groups_apply_shrinks (hosts : Nat → Option Nat) (t : GroupTables) (e : Effect)
    (hne : ∀ c hg, e ≠ Effect.run c (Stmt.host_group_insupdate hg)) (g : Nat)
    (h : (groups_apply hosts t e).hostgroups g = true) : t.hostgroups g = true := by
  cases e with
  | run c s =>
    cases s with
    | query sql =>
      by_cases hsql : sql = clean_empty_hostgroups_query
      · simp [groups_apply, hsql] at h
        exact h.1
      · simpa [groups_apply, hsql] using h
    | host_group_insupdate hg => exact absurd rfl (hne c hg)
    | host_group_member_insert hgm => simpa [groups_apply] using h
    | host_group_member_delete hgm => simpa [groups_apply] using h
    | _ => simpa [groups_apply] using h
  | _ => simpa [groups_apply] using h

/-- C17, counterexample: after group 5 is enabled and then disabled, its row
is in `hostgroups` and the group is not in `_hostgroup_cache`; after group 5
is enabled and `_clean_group_table` runs while it has no member, the group is
in `_hostgroup_cache` and has no row. -/
theorem hostgroup_cache_not_coherent :
    (groups_rows sample_hosts
      (process_groups sample_env
        [GroupEvent.host_group sample_host_group,
          GroupEvent.host_group sample_host_group_disabled] sample_state).out
      sample_group_tables).hostgroups 5 = true ∧
    (process_groups sample_env
      [GroupEvent.host_group sample_host_group,
        GroupEvent.host_group sample_host_group_disabled] sample_state)._hostgroup_cache 5 =
      false ∧
    (groups_rows sample_hosts
      (_clean_group_table 0 (_process_host_group sample_env sample_host_group sample_state)).out
      sample_group_tables).hostgroups 5 = false ∧
    (_clean_group_table 0
      (_process_host_group sample_env sample_host_group sample_state))._hostgroup_cache 5 =
      true := by
  decide

theorem groups_rows_hostgroups_disabled (hosts : Nat → Option Nat) (t : GroupTables)
    (c : Nat) (id p : Nat) :
    (groups_rows hosts
      [Effect.finish_action (-1) (Mask.of [actions.hosts]),
       Effect.run c (Stmt.query (delete_hostgroup_members_query id p)),
       Effect.add_action c actions.hostgroups] t).hostgroups = t.hostgroups := by
  simp [groups_rows, groups_apply, delete_members_ne_clean]

/-- C17 (amended): the two event handlers maintain that every group of
`_hostgroup_cache` has a row in `hostgroups`: when this holds before a
sequence of host group and host group member events it holds after it, and it
holds after every such sequence run from an empty cache.  Enabling a group
leaves it in the cache with a row, whatever the state before.  A member event
of a known host that finds its group absent from the cache writes the row of
the group and caches it.  Disabling a group removes it from the cache and
leaves every row of `hostgroups` as it is, so a row does not imply an entry of
the cache. -/
theorem cached_host_groups_have_rows (env : Env) (hosts : Nat → Option Nat)
    (t0 : GroupTables) (evs : List GroupEvent) (st : State)
    (hinv : cached_groups_in_table (groups_rows hosts st.out t0) st) :
    cached_groups_in_table (groups_rows hosts (process_groups env evs st).out t0)
      (process_groups env evs st) ∧
    (∀ (evs0 : List GroupEvent) (st0 : State), (∀ g, st0._hostgroup_cache g = false) →
      cached_groups_in_table (groups_rows hosts (process_groups env evs0 st0).out t0)
        (process_groups env evs0 st0)) ∧
    (∀ (hg : host_group) (st0 : State), hg.enabled = true →
      (_process_host_group env hg st0)._hostgroup_cache hg.id = true ∧
      (groups_rows hosts (_process_host_group env hg st0).out t0).hostgroups hg.id = true) ∧
    (∀ (hgm : host_group_member) (st0 : State) (p : Nat),
      st0._cache_host_instance (u32 hgm.host_id) = some p → p ≠ 0 → hgm.enabled = true →
      st0._hostgroup_cache hgm.group_id = false →
      (_process_host_group_member env hgm st0)._hostgroup_cache hgm.group_id = true ∧
      (groups_rows hosts (_process_host_group_member env hgm st0).out t0).hostgroups
        hgm.group_id = true) ∧
    (∀ (hg : host_group) (st0 : State), hg.enabled = false →
      (_process_host_group env hg st0)._hostgroup_cache hg.id = false ∧
      (groups_rows hosts (_process_host_group env hg st0).out t0).hostgroups =
        (groups_rows hosts st0.out t0).hostgroups) := by
  have hseq : ∀ (evs0 : List GroupEvent) (st0 : State),
      cached_groups_in_table (groups_rows hosts st0.out t0) st0 →
      cached_groups_in_table (groups_rows hosts (process_groups env evs0 st0).out t0)
        (process_groups env evs0 st0) := by
    intro evs0
    induction evs0 with
    | nil =>
      intro st0 h
      exact h
    | cons e rest ih =>
      intro st0 h
      unfold process_groups
      apply ih
      cases e with
      | host_group hg => exact host_group_step env hosts t0 hg st0 h
      | host_group_member hgm => exact host_group_member_step env hosts t0 hgm st0 h
  refine ⟨hseq evs st hinv, ?_, ?_, ?_, ?_⟩
  · intro evs0 st0 hempty
    apply hseq
    intro g hg
    rw [hempty g] at hg
    cases hg
  · intro hg st0 he
    rw [host_group_enabled_eq env hg st0 he]
    dsimp only
    rw [groups_rows_append]
    constructor
    · simp [set_insert]
    · simp [groups_rows, groups_apply, set_insert]
  · intro hgm st0 p hk hp he hc
    rw [host_group_member_created_eq env hgm st0 p hk hp he hc]
    dsimp only
    rw [groups_rows_append]
    constructor
    · simp [set_insert]
    · simp [groups_rows, groups_apply, set_insert]
  · intro hg st0 he
    rw [host_group_disabled_eq env hg st0 he]
    dsimp only
    rw [groups_rows_append]
    constructor
    · simp [set_erase]
    · exact groups_rows_hostgroups_disabled hosts _ _ _ _

/-- Witness of C17 (amended): from the sample state and empty tables, after
group 5 is enabled and host 42 is added to group 6, groups 5 and 6 are cached
and both have a row. -/
theorem cached_host_groups_have_rows_witness :
    cached_groups_in_table (groups_rows sample_hosts sample_state.out sample_group_tables)
      sample_state ∧
    cached_groups_in_table
      (groups_rows sample_hosts
        (process_groups sample_env
          [GroupEvent.host_group sample_host_group,
            GroupEvent.host_group_member sample_host_group_member] sample_state).out
        sample_group_tables)
      (process_groups sample_env
        [GroupEvent.host_group sample_host_group,
          GroupEvent.host_group_member sample_host_group_member] sample_state) :=
  have h0 : cached_groups_in_table
      (groups_rows sample_hosts sample_state.out sample_group_tables) sample_state := by
    intro g hg
    simp [sample_state] at hg
  ⟨h0,
   (cached_host_groups_have_rows sample_env sample_hosts sample_group_tables
      [GroupEvent.host_group sample_host_group,
        GroupEvent.host_group_member sample_host_group_member] sample_state h0).1⟩

/-- C19: with `_instance_timeout` equal to 0,
`_update_hosts_and_services_of_unresponsive_instances` leaves the state as it
is, whatever the stored timestamps and the time: no entry changes state,
`_oldest_timestamp` keeps its value, nothing is run or published. -/
theorem unresponsive_check_disabled (env : Env) (now : Int) (st : State)
    (h : env._instance_timeout = 0) :
    _update_hosts_and_services_of_unresponsive_instances env now st = st := by
  unfold _update_hosts_and_services_of_unresponsive_instances
  rw [if_pos h]

/-- Witness of C19: one day after poller 1 was last heard, with the timeout
disabled, nothing changes; with a timeout of 300 seconds the same call marks
poller 1 unresponsive. -/
theorem unresponsive_check_disabled_witness :
    sample_env_no_timeout._instance_timeout = 0 ∧
    _update_hosts_and_services_of_unresponsive_instances sample_env_no_timeout 185400
        sample_state_pollers = sample_state_pollers ∧
    (_update_hosts_and_services_of_unresponsive_instances sample_env 185400
        sample_state_pollers)._stored_timestamps =
      [(1, { id := 1, state := state_type.unresponsive, timestamp := 99000 }),
       (2, { id := 2, state := state_type.unresponsive, timestamp := 90000 })] :=
  ⟨rfl,
   unresponsive_check_disabled sample_env_no_timeout 185400 sample_state_pollers rfl,
   by decide⟩

theorem severity_lookup_subscript (st : State) (key k : Nat × Nat) :
    (cache_subscript (cache_subscript st._severity_cache key 0).2 k 0).1 =
      (cache_subscript st._severity_cache k 0).1 := by
  unfold cache_subscript
  cases hkey : st._severity_cache key with
  | some v => rfl
  | none =>
    dsimp only
    by_cases hk : k = key
    · subst hk
      simp [cache_set, hkey]
    · simp only [cache_set, hk, if_false]
      cases st._severity_cache k <;> rfl

/-- C20: for a severity event with action DELETE, `_process_severity`
produces nothing but its barrier on resources (and nothing at all when
`_store_in_resources` is off): it runs no statement and tags no connection;
and the surrogate read by `_severity_cache[k]` is the same before and after,
for every key `k`. -/
theorem severity_delete_is_noop (env : Env) (sv : Severity) (insert_id : Option Nat)
    (st : State) (h : sv.action = Severity_Action.DELETE) :
    (_process_severity env sv insert_id st).out =
      st.out ++
        (if env._store_in_resources = true then
          [Effect.finish_action (-1) (Mask.of [actions.resources])]
         else []) ∧
    (∀ k, severity_lookup (_process_severity env sv insert_id st) k = severity_lookup st k) := by
  unfold _process_severity
  cases hs : env._store_in_resources with
  | false => simp
  | true =>
    simp only [h, _finish_action, emit]
    refine ⟨by simp, ?_⟩
    intro k
    unfold severity_lookup
    simp only [Bool.true_eq_false, if_false]
    exact severity_lookup_subscript st (sv.id, sv.type) k

/-- Witness of C20: deleting severity `(3, 1)` while `(4, 1)` is cached
produces the barrier only and leaves both lookups as they were. -/
theorem severity_delete_is_noop_witness :
    sample_severity_delete.action = Severity_Action.DELETE ∧
    (_process_severity sample_env sample_severity_delete none sample_state_severity).out =
      [Effect.finish_action (-1) (Mask.of [actions.resources])] ∧
    severity_lookup
      (_process_severity sample_env sample_severity_delete none sample_state_severity)
      (3, 1) = 0 ∧
    severity_lookup
      (_process_severity sample_env sample_severity_delete none sample_state_severity)
      (4, 1) = 8 :=
  ⟨rfl,
   (severity_delete_is_noop sample_env sample_severity_delete none sample_state_severity
      rfl).1.trans (by decide),
   ((severity_delete_is_noop sample_env sample_severity_delete none sample_state_severity
      rfl).2 (3, 1)).trans (by decide),
   ((severity_delete_is_noop sample_env sample_severity_delete none sample_state_severity
      rfl).2 (4, 1)).trans (by decide)⟩

theorem mark_unresponsive_spec (env : Env) (now : Int) :
    ∀ (l : List (Nat × stored_timestamp)) (st : State),
      (mark_unresponsive env now l st).1 =
        l.map (fun kv =>
          if responsive_outdated env now kv.2 = true then
            (kv.1, { kv.2 with state := state_type.unresponsive })
          else kv) ∧
      (mark_unresponsive env now l st).2 =
        (l.filter fun kv => responsive_outdated env now kv.2).foldl
          (fun s kv => _update_hosts_and_services_of_instance env kv.2.id false s) st := by
  intro l
  induction l with
  | nil => intro st; exact ⟨rfl, rfl⟩
  | cons kv l ih =>
    intro st
    obtain ⟨k, v⟩ := kv
    unfold mark_unresponsive
    by_cases hc : v.state = state_type.responsive ∧
        env.timestamp_outdated v now env._instance_timeout = true
    · have hr : responsive_outdated env now v = true := by
        simp [responsive_outdated, hc.1, hc.2]
      rw [if_pos hc]
      dsimp only
      rw [(ih _).1, (ih _).2]
      simp [hr]
    · have hr : responsive_outdated env now v = false := by
        simp only [responsive_outdated, Bool.and_eq_false_iff, decide_eq_false_iff_not]
        by_cases h1 : v.state = state_type.responsive
        · right
          simpa using fun h => hc ⟨h1, h⟩
        · left
          exact h1
      rw [if_neg hc]
      dsimp only
      rw [(ih _).1, (ih _).2]
      simp [hr]

theorem oldest_responsive_spec :
    ∀ (l : List (Nat × stored_timestamp)) (oldest : Int),
      oldest_responsive oldest l ≤ oldest ∧
      (∀ kv ∈ l, kv.2.state = state_type.responsive →
        oldest_responsive oldest l ≤ kv.2.timestamp) ∧
      (oldest_responsive oldest l = oldest ∨
        ∃ kv ∈ l, kv.2.state = state_type.responsive ∧
          kv.2.timestamp = oldest_responsive oldest l) := by
  intro l
  induction l with
  | nil => intro oldest; exact ⟨Int.le_refl _, by simp, Or.inl rfl⟩
  | cons kv l ih =>
    intro oldest
    obtain ⟨k, v⟩ := kv
    unfold oldest_responsive
    by_cases hc : v.state = state_type.responsive ∧ oldest > v.timestamp
    · rw [if_pos hc]
      obtain ⟨h1, h2, h3⟩ := ih v.timestamp
      refine ⟨by omega, ?_, ?_⟩
      · intro kv hkv hr
        rcases List.mem_cons.mp hkv with rfl | hmem
        · exact h1
        · exact h2 kv hmem hr
      · right
        rcases h3 with h3 | ⟨kv, hmem, hr, ht⟩
        · exact ⟨(k, v), by simp, hc.1, h3.symm⟩
        · exact ⟨kv, by simp [hmem], hr, ht⟩
    · rw [if_neg hc]
      obtain ⟨h1, h2, h3⟩ := ih oldest
      refine ⟨h1, ?_, ?_⟩
      · intro kv hkv hr
        rcases List.mem_cons.mp hkv with rfl | hmem
        · have : ¬ oldest > v.timestamp := fun h => hc ⟨hr, h⟩
          simp only at this ⊢
          omega
        · exact h2 kv hmem hr
      · rcases h3 with h3 | ⟨kv, hmem, hr, ht⟩
        · exact Or.inl h3
        · exact Or.inr ⟨kv, by simp [hmem], hr, ht⟩

theorem nodup_map_filter {α β : Type} (f : α → β) (p : α → Bool) (l : List α)
    (h : (l.map f).Nodup) : ((l.filter p).map f).Nodup :=
  List.Nodup.sublist (List.Sublist.map f (List.filter_sublist l)) h

/-- C25: with a timeout other than 0, at least one entry in
`_stored_timestamps` and `_oldest_timestamp` older than the timeout, the
entries that are responsive and outdated become unresponsive and the others
are unchanged; the effects are those of one call of
`_update_hosts_and_services_of_instance(id, false)` for each of these
entries, in the order of the map, and no instance has two of these entries;
`_oldest_timestamp` is at most the timestamp of every entry still responsive,
it is the timestamp of one of them when there is one and the maximum of
`time_t` when there is none. -/
theorem unresponsive_instances_marked (env : Env) (now : Int) (st : State)
    (h0 : env._instance_timeout ≠ 0) (hne : st._stored_timestamps ≠ [])
    (hold : now - st._oldest_timestamp > (env._instance_timeout : Int))
    (hkeys : (st._stored_timestamps.map Prod.fst).Nodup)
    (hid : ∀ kv ∈ st._stored_timestamps, kv.2.id = kv.1)
    (hmax : ∀ kv ∈ st._stored_timestamps, kv.2.timestamp ≤ 9223372036854775807) :
    (_update_hosts_and_services_of_unresponsive_instances env now st)._stored_timestamps =
      st._stored_timestamps.map (fun kv =>
        if responsive_outdated env now kv.2 = true then
          (kv.1, { kv.2 with state := state_type.unresponsive })
        else kv) ∧
    (_update_hosts_and_services_of_unresponsive_instances env now st).out =
      ((st._stored_timestamps.filter fun kv => responsive_outdated env now kv.2).foldl
        (fun s kv => _update_hosts_and_services_of_instance env kv.1 false s) st).out ∧
    ((st._stored_timestamps.filter fun kv => responsive_outdated env now kv.2).map
      Prod.fst).Nodup ∧
    (∀ kv ∈ (_update_hosts_and_services_of_unresponsive_instances env now st)._stored_timestamps,
      kv.2.state = state_type.responsive →
      (_update_hosts_and_services_of_unresponsive_instances env now st)._oldest_timestamp ≤
        kv.2.timestamp) ∧
    ((∃ kv ∈ (_update_hosts_and_services_of_unresponsive_instances env now st)._stored_timestamps,
        kv.2.state = state_type.responsive ∧
        kv.2.timestamp =
          (_update_hosts_and_services_of_unresponsive_instances env now st)._oldest_timestamp) ∨
      ((∀ kv ∈ (_update_hosts_and_services_of_unresponsive_instances env now st)._stored_timestamps,
          kv.2.state ≠ state_type.responsive) ∧
        (_update_hosts_and_services_of_unresponsive_instances env now st)._oldest_timestamp =
          9223372036854775807)) := by
  have hcond : ¬ (st._stored_timestamps.length = 0 ∨
      now - st._oldest_timestamp ≤ (env._instance_timeout : Int)) := by
    intro h
    rcases h with h | h
    · exact hne (List.length_eq_zero.mp h)
    · omega
  obtain ⟨hm1, hm2⟩ := mark_unresponsive_spec env now st._stored_timestamps st
  have hfold : ∀ (l : List (Nat × stored_timestamp)) (s : State),
      (∀ kv ∈ l, kv.2.id = kv.1) →
      l.foldl (fun s kv => _update_hosts_and_services_of_instance env kv.2.id false s) s =
        l.foldl (fun s kv => _update_hosts_and_services_of_instance env kv.1 false s) s := by
    intro l
    induction l with
    | nil => intro s _; rfl
    | cons kv l ih =>
      intro s h
      simp only [List.foldl_cons]
      rw [h kv (by simp), ih _ (fun x hx => h x (by simp [hx]))]
  have he : _update_hosts_and_services_of_unresponsive_instances env now st =
      { (mark_unresponsive env now st._stored_timestamps st).2 with
        _stored_timestamps := (mark_unresponsive env now st._stored_timestamps st).1
        _oldest_timestamp := oldest_responsive 9223372036854775807
          (mark_unresponsive env now st._stored_timestamps st).1 } := by
    unfold _update_hosts_and_services_of_unresponsive_instances
    rw [if_neg h0, if_neg hcond]
  rw [he]
  dsimp only
  obtain ⟨_, ho2, ho3⟩ := oldest_responsive_spec
    (mark_unresponsive env now st._stored_timestamps st).1 9223372036854775807
  refine ⟨hm1, ?_, nodup_map_filter _ _ _ hkeys, ho2, ?_⟩
  · rw [hm2, hfold _ _ (fun kv hkv => hid kv (List.mem_filter.mp hkv).1)]
  · by_cases hex : ∃ kv ∈ (mark_unresponsive env now st._stored_timestamps st).1,
        kv.2.state = state_type.responsive
    · left
      rcases ho3 with ho3 | ho3
      · obtain ⟨kv, hmem, hr⟩ := hex
        refine ⟨kv, hmem, hr, ?_⟩
        have hle := ho2 kv hmem hr
        rw [ho3] at hle ⊢
        have hb : kv.2.timestamp ≤ 9223372036854775807 := by
          rw [hm1] at hmem
          obtain ⟨kv0, hmem0, rfl⟩ := List.mem_map.mp hmem
          have := hmax kv0 hmem0
          by_cases hc : responsive_outdated env now kv0.2 = true
          · simpa [hc] using this
          · simpa [hc] using this
        omega
      · exact ho3
    · right
      refine ⟨fun kv hmem hr => hex ⟨kv, hmem, hr⟩, ?_⟩
      rcases ho3 with ho3 | ⟨kv, hmem, hr, _⟩
      · exact ho3
      · exact absurd ⟨kv, hmem, hr⟩ hex

theorem unresponsive_instances_marked_witness :
    sample_env._instance_timeout ≠ 0 ∧ sample_state_two_pollers._stored_timestamps ≠ [] ∧
    (_update_hosts_and_services_of_unresponsive_instances sample_env 1200
        sample_state_two_pollers)._stored_timestamps =
      sample_state_two_pollers._stored_timestamps.map (fun kv =>
        if responsive_outdated sample_env 1200 kv.2 = true then
          (kv.1, { kv.2 with state := state_type.unresponsive })
        else kv) :=
  ⟨by decide, by decide,
    (unresponsive_instances_marked sample_env 1200 sample_state_two_pollers (by decide)
      (by decide) (by decide) (by decide) (by decide) (by decide)).1⟩

/-- C26, evaluation at the failing inputs: with tag 7 of type 0 cached under
the id 42 of table `tags`, the handler binds 7 to the DELETE on
`resources_tags`, while the rows of this tag hold 42 in `tag_id`, the value
that the loop over the tags of a host binds to the INSERT; and for a tag that
was never added the handler runs the same DELETE. -/
theorem tag_delete_binds_event_id :
    sample_state_tag_cached._tags_cache (7, 0) = some 42 ∧
    statements
      (resources_tags_loop (fun _ => none) 1 9 0 [{ id := 7, type := 0 }]
        sample_state_tag_cached).out = [(1, Stmt.resources_tags_insert 42 9)] ∧
    statements (_process_tag sample_env sample_tag_delete none sample_state_tag_cached).out =
      [(sample_env.special_conn_tag % sample_env.connections_count, Stmt.tag_delete 7)] ∧
    (_process_tag sample_env sample_tag_delete none sample_state_tag_cached)._tags_cache (7, 0) =
      none ∧
    sample_state._tags_cache (7, 0) = none ∧
    statements (_process_tag sample_env sample_tag_delete none sample_state).out =
      [(sample_env.special_conn_tag % sample_env.connections_count, Stmt.tag_delete 7)] := by
  decide

theorem thrown_away_barrier (st : State) (mask : Mask) :
    thrown_away st (_finish_action st (-1) mask) :=
  ⟨[Effect.finish_action (-1) mask], rfl, rfl, rfl, rfl, rfl, rfl, rfl, rfl, rfl, rfl⟩

/-- C27: a protobuf service, service status, host status or adaptive host
event whose host id (cast to 32 bits, the key of the cache) has no entry in
the host to instance cache is thrown away: the handler runs no statement,
tags no connection, publishes nothing, does not call the perfdata part, and
the host to instance cache, the index cache, the resource cache and the two
command caches are unchanged. -/
theorem unknown_host_event_thrown_away (env : Env) (now : Int) (st : State) (s : Service)
    (idb : IndexDb) (db : ResourceDb) (sscr : ServiceStatus) (hscr : HostStatus)
    (ah : AdaptiveHost)
    (h1 : st._cache_host_instance (u32 s.host_id) = none)
    (h2 : st._cache_host_instance (u32 sscr.host_id) = none)
    (h3 : st._cache_host_instance (u32 hscr.host_id) = none)
    (h4 : st._cache_host_instance (u32 ah.host_id) = none) :
    thrown_away st (_process_pb_service env s idb db st) ∧
    thrown_away st (_process_pb_service_status env now sscr st) ∧
    thrown_away st (_process_pb_host_status env now hscr st) ∧
    thrown_away st (_process_pb_adaptive_host env ah st) := by
  refine ⟨?_, ?_, ?_, ?_⟩
  · have e : _process_pb_service env s idb db st =
        _finish_action st (-1)
          (Mask.of [actions.host_parents, actions.comments, actions.downtimes,
            actions.host_dependencies, actions.service_dependencies, actions.severities]) := by
      unfold _process_pb_service
      simp [_host_instance_known, _finish_action, emit, h1]
    rw [e]
    exact thrown_away_barrier _ _
  · have e : _process_pb_service_status env now sscr st =
        _finish_action st (-1)
          (Mask.of [actions.host_parents, actions.comments, actions.downtimes,
            actions.host_dependencies, actions.service_dependencies]) := by
      unfold _process_pb_service_status
      simp [_host_instance_known, _finish_action, emit, h2]
    rw [e]
    exact thrown_away_barrier _ _
  · have e : _process_pb_host_status env now hscr st =
        _finish_action st (-1)
          (Mask.of [actions.host_parents, actions.comments, actions.downtimes,
            actions.host_dependencies]) := by
      unfold _process_pb_host_status
      simp [_host_instance_known, _finish_action, emit, h3]
    rw [e]
    exact thrown_away_barrier _ _
  · have e : _process_pb_adaptive_host env ah st =
        _finish_action st (-1)
          (Mask.of [actions.host_parents, actions.comments, actions.downtimes,
            actions.host_dependencies, actions.service_dependencies]) := by
      unfold _process_pb_adaptive_host
      simp [_host_instance_known, _finish_action, emit, h4]
    rw [e]
    exact thrown_away_barrier _ _

theorem unknown_host_event_thrown_away_witness :
    sample_state_no_host._cache_host_instance (u32 sample_service.host_id) = none ∧
    sample_state_no_host._cache_host_instance (u32 sample_sscr.host_id) = none ∧
    thrown_away sample_state_no_host
      (_process_pb_service sample_env sample_service sample_index_db sample_db
        sample_state_no_host) ∧
    thrown_away sample_state_no_host
      (_process_pb_service_status sample_env 100000 sample_sscr sample_state_no_host) :=
  ⟨rfl, rfl,
    (unknown_host_event_thrown_away sample_env 100000 sample_state_no_host sample_service
      sample_index_db sample_db sample_sscr sample_hscr sample_adaptive_host rfl rfl rfl
      rfl).1,
    (unknown_host_event_thrown_away sample_env 100000 sample_state_no_host sample_service
      sample_index_db sample_db sample_sscr sample_hscr sample_adaptive_host rfl rfl rfl
      rfl).2.1⟩

end UnifiedSql

namespace Storage

theorem published_append (a b : List Effect) :
    published (a ++ b) = published a ++ published b := by
  simp [published, List.filter_append]

theorem find_metric_id_ok (env : Env) (index_id : Nat) (name : String) (db : InsertAnswer)
    (st : State)
    (h1 : db.exec_ok = true)
    (h2 : (env.has_last_insert_id = false ∨ db.last_insert_id = 0) →
      ∃ k, k ≠ 0 ∧ db.select = some k) :
    ∃ id st', _find_metric_id env index_id name db st = (some id, st') ∧
      st'._metric_cache (index_id, name) = some id ∧
      (∀ k v, st._metric_cache k = some v → st'._metric_cache k = some v) ∧
      st'._index_cache = st._index_cache ∧
      ∃ effs, st'.out = st.out ++ effs ∧ published effs = [] := by
  unfold _find_metric_id
  cases hc : st._metric_cache (index_id, name) with
  | some retval =>
    exact ⟨retval, st, rfl, hc, fun _ _ h => h, rfl, [], by simp, rfl⟩
  | none =>
    dsimp only
    rw [if_neg (by simp [h1])]
    by_cases hs : env.has_last_insert_id = false ∨ db.last_insert_id = 0
    · rw [if_pos hs]
      obtain ⟨k, hk0, hk⟩ := h2 hs
      rw [hk]
      dsimp only
      rw [if_neg hk0]
      refine ⟨k, _, rfl, by simp, ?_, rfl, ?_⟩
      · intro key v hv
        have hne : key ≠ (index_id, name) := by
          intro he
          rw [he, hc] at hv
          cases hv
        simp [hne, exec, hv]
      · exact ⟨[Effect.exec (Query.metrics_insert index_id (env.format_value name)),
          Effect.exec (Query.metrics_select index_id (env.format_value name))],
          by simp [exec], rfl⟩
    · rw [if_neg hs]
      refine ⟨db.last_insert_id, _, rfl, by simp, ?_, rfl, ?_⟩
      · intro key v hv
        have hne : key ≠ (index_id, name) := by
          intro he
          rw [he, hc] at hv
          cases hv
        simp [hne, exec, hv]
      · exact ⟨[Effect.exec (Query.metrics_insert index_id (env.format_value name))],
          by simp [exec], rfl⟩

theorem metric_answer_ok_parts (env : Env) (m : MetricAnswers)
    (h : metric_answer_ok env m = true) :
    m.insert.exec_ok = true ∧
    ((env.has_last_insert_id = false ∨ m.insert.last_insert_id = 0) →
      ∃ k, k ≠ 0 ∧ m.insert.select = some k) ∧
    m.update_ok = true ∧ (env._store_in_db = true → m.insert_data_bin_ok = true) := by
  unfold metric_answer_ok at h
  simp only [Bool.and_eq_true, Bool.or_eq_true, Bool.not_eq_true', decide_eq_true_eq,
    Bool.not_eq_eq_eq_not, Bool.not_true] at h
  obtain ⟨⟨⟨ha, hb⟩, hc⟩, hd⟩ := h
  refine ⟨ha, ?_, hc, ?_⟩
  · intro hs
    rcases hb with hb | hb
    · exfalso
      rcases hs with hs | hs
      · simp [hs] at hb
      · simp [hs] at hb
    · cases hsel : m.insert.select with
      | none => simp [hsel] at hb
      | some k =>
        simp [hsel] at hb
        exact ⟨k, hb, rfl⟩
  · intro hs
    rcases hd with hd | hd
    · rw [hs] at hd
      cases hd
    · exact hd

theorem write_metrics_ok (env : Env) (ss : service_status) (index_id : Nat)
    (mdb : Nat → MetricAnswers) :
    ∀ (pds : List perfdata) (i : Nat) (st : State),
      (∀ j, j < pds.length → metric_answer_ok env (mdb (i + j)) = true) →
      ∃ st', write_metrics env ss index_id mdb i pds st = (false, st') ∧
        (∀ k v, st._metric_cache k = some v → st'._metric_cache k = some v) ∧
        st'._index_cache = st._index_cache ∧
        ∃ effs, st'.out = st.out ++ effs ∧
          published effs =
            pds.map fun pd =>
              Effect.publish_metric (metric_of env ss st'._metric_cache index_id pd) := by
  intro pds
  induction pds with
  | nil =>
    intro i st _
    exact ⟨st, rfl, fun _ _ h => h, rfl, [], by simp, rfl⟩
  | cons pd rest ih =>
    intro i st hm
    have h0 := metric_answer_ok_parts env (mdb i) (by simpa using hm 0 (by simp))
    obtain ⟨hx, hsel, hup, hbin⟩ := h0
    obtain ⟨id, st1, hf, hid, hmono1, hidx1, effs1, hout1, hpub1⟩ :=
      find_metric_id_ok env index_id pd.name (mdb i).insert st hx hsel
    unfold write_metrics
    rw [hf]
    dsimp only
    rw [if_neg (by simp [hup])]
    rw [if_neg (by
      intro hh
      have := hbin hh.1
      rw [this] at hh
      exact absurd hh.2 (by simp))]
    have hrest : ∀ j, j < rest.length → metric_answer_ok env (mdb (i + 1 + j)) = true := by
      intro j hj
      have := hm (j + 1) (by simp; omega)
      have e : i + (j + 1) = i + 1 + j := by omega
      rw [e] at this
      exact this
    obtain ⟨st', hw, hmono, hidx, effs, hout, hpub⟩ := ih (i + 1) _ hrest
    refine ⟨st', hw, ?_, ?_, ?_⟩
    · intro k v hv
      apply hmono
      by_cases hdb : env._store_in_db = true
      · simp [hdb, exec]
        exact hmono1 k v hv
      · simp [hdb, exec]
        exact hmono1 k v hv
    · rw [hidx]
      by_cases hdb : env._store_in_db = true
      · simp [hdb, exec, hidx1]
      · simp [hdb, exec, hidx1]
    · have hcache : st'._metric_cache (index_id, pd.name) = some id := by
        apply hmono
        by_cases hdb : env._store_in_db = true
        · simp [hdb, exec]
          exact hid
        · simp [hdb, exec]
          exact hid
      by_cases hdb : env._store_in_db = true
      · refine ⟨effs1 ++ [Effect.exec (Query.update_metrics pd.unit (check_double pd.warning)
            (check_double pd.critical) (check_double pd.min) (check_double pd.max)
            index_id pd.name),
          Effect.exec (Query.insert_data_bin id (ss.last_check % 4294967296).toNat pd.value
            (ss.current_state + 1)),
          Effect.publish_metric
            { ctime := ss.last_check
              interval := env.interval ss.check_interval env._interval_length
              metric_id := id
              name := pd.name
              rrd_len := env._rrd_len
              value := pd.value }] ++ effs, ?_, ?_⟩
        · rw [hout]
          simp [hdb, exec, hout1]
        · rw [published_append, published_append, hpub1, hpub]
          simp [published, metric_of, hcache]
      · refine ⟨effs1 ++ [Effect.exec (Query.update_metrics pd.unit (check_double pd.warning)
            (check_double pd.critical) (check_double pd.min) (check_double pd.max)
            index_id pd.name),
          Effect.publish_metric
            { ctime := ss.last_check
              interval := env.interval ss.check_interval env._interval_length
              metric_id := id
              name := pd.name
              rrd_len := env._rrd_len
              value := pd.value }] ++ effs, ?_, ?_⟩
        · rw [hout]
          simp [hdb, exec, hout1]
        · rw [published_append, published_append, hpub1, hpub]
          simp [published, metric_of, hcache]

theorem index_answer_ok_parts (env : Env) (a : InsertAnswer)
    (h : index_answer_ok env a = true) :
    a.exec_ok = true ∧
    ((env.has_last_insert_id = true ∨ a.last_insert_id = 0) →
      ∃ k, k ≠ 0 ∧ a.select = some k) := by
  unfold index_answer_ok at h
  simp only [Bool.and_eq_true, Bool.or_eq_true, Bool.not_eq_true', decide_eq_true_eq,
    Bool.or_eq_false_iff, decide_eq_false_iff_not] at h
  obtain ⟨ha, hb⟩ := h
  refine ⟨ha, ?_⟩
  intro hs
  rcases hb with hb | hb
  · exfalso
    rcases hs with hs | hs
    · rw [hs] at hb
      exact absurd hb.1 (by simp)
    · exact hb.2 hs
  · cases hsel : a.select with
    | none => simp [hsel] at hb
    | some k =>
      simp [hsel] at hb
      exact ⟨k, hb, rfl⟩

theorem find_index_id_keeps (env : Env) (host_id service_id : Nat) (host_name sd : String)
    (db : InsertAnswer) (st : State) (key : Nat × Nat) (v : Nat)
    (hv : st._index_cache key = some v) :
    (_find_index_id env host_id service_id host_name sd db st).2._index_cache key = some v := by
  unfold _find_index_id
  cases hc : st._index_cache (host_id, service_id) with
  | some retval => exact hv
  | none =>
    have hne : key ≠ (host_id, service_id) := by
      intro he
      rw [he, hc] at hv
      cases hv
    dsimp only
    by_cases h1 : db.exec_ok = false
    · rw [if_pos h1]
      exact hv
    · rw [if_neg h1]
      by_cases hs : env.has_last_insert_id = true ∨ db.last_insert_id = 0
      · rw [if_pos hs]
        cases hsel : db.select with
        | none => exact hv
        | some retval =>
          dsimp only
          by_cases h0 : retval = 0
          · rw [if_pos h0]
            exact hv
          · rw [if_neg h0]
            simp [hne, exec, hv]
      · rw [if_neg hs]
        simp [hne, exec, hv]

theorem find_index_id_hit (env : Env) (host_id service_id : Nat) (host_name sd : String)
    (db : InsertAnswer) (st : State) (k : Nat)
    (hc : st._index_cache (host_id, service_id) = some k) :
    _find_index_id env host_id service_id host_name sd db st = (some k, st) := by
  unfold _find_index_id
  rw [hc]

theorem find_index_calls_keep (env : Env) :
    ∀ (calls : List (Nat × Nat × String × String × InsertAnswer)) (st : State)
      (key : Nat × Nat) (v : Nat),
      st._index_cache key = some v → (find_index_calls env calls st)._index_cache key = some v := by
  intro calls
  induction calls with
  | nil =>
    intro st key v hv
    exact hv
  | cons c rest ih =>
    intro st key v hv
    obtain ⟨h, s, hn, sd, db⟩ := c
    unfold find_index_calls
    exact ih _ key v (find_index_id_keeps env h s hn sd db st key v hv)

theorem find_index_id_returns (env : Env) (host_id service_id : Nat) (host_name sd : String)
    (db : InsertAnswer) (st : State) (k : Nat)
    (hk : (_find_index_id env host_id service_id host_name sd db st).1 = some k) :
    (st._index_cache (host_id, service_id) = none → k ≠ 0) ∧
    (_find_index_id env host_id service_id host_name sd db st).2._index_cache
      (host_id, service_id) = some k := by
  unfold _find_index_id at hk ⊢
  cases hc : st._index_cache (host_id, service_id) with
  | some retval =>
    rw [hc] at hk
    simp only [Option.some.injEq] at hk
    subst hk
    exact ⟨fun h => Option.noConfusion h, hc⟩
  | none =>
    rw [hc] at hk
    dsimp only at hk ⊢
    by_cases h1 : db.exec_ok = false
    · rw [if_pos h1] at hk
      cases hk
    · rw [if_neg h1] at hk ⊢
      by_cases hs : env.has_last_insert_id = true ∨ db.last_insert_id = 0
      · rw [if_pos hs] at hk ⊢
        cases hsel : db.select with
        | none =>
          rw [hsel] at hk
          cases hk
        | some retval =>
          rw [hsel] at hk
          dsimp only at hk ⊢
          by_cases h0 : retval = 0
          · rw [if_pos h0] at hk
            cases hk
          · rw [if_neg h0] at hk ⊢
            simp only [Option.some.injEq] at hk
            subst hk
            exact ⟨fun _ => h0, by simp⟩
      · rw [if_neg hs] at hk ⊢
        simp only [Option.some.injEq] at hk
        subst hk
        refine ⟨fun _ h0 => hs (Or.inr h0), by simp⟩

theorem find_index_id_ok (env : Env) (host_id service_id : Nat) (host_name sd : String)
    (db : InsertAnswer) (st : State)
    (h : index_answer_ok env db = true) :
    ∃ id st', _find_index_id env host_id service_id host_name sd db st = (some id, st') ∧
      st'._index_cache (host_id, service_id) = some id ∧
      st'._process_out = st._process_out ∧
      ∃ effs, st'.out = st.out ++ effs ∧ published effs = [] := by
  obtain ⟨h1, h2⟩ := index_answer_ok_parts env db h
  unfold _find_index_id
  cases hc : st._index_cache (host_id, service_id) with
  | some retval =>
    exact ⟨retval, st, rfl, hc, rfl, [], by simp, rfl⟩
  | none =>
    dsimp only
    rw [if_neg (by simp [h1])]
    by_cases hs : env.has_last_insert_id = true ∨ db.last_insert_id = 0
    · rw [if_pos hs]
      obtain ⟨k, hk0, hk⟩ := h2 hs
      rw [hk]
      dsimp only
      rw [if_neg hk0]
      exact ⟨k, _, rfl, by simp, rfl,
        [Effect.exec (Query.index_data_insert host_id host_name service_id sd
            (special host_name)),
          Effect.exec (Query.index_data_select host_id service_id)],
        by simp [exec], rfl⟩
    · rw [if_neg hs]
      exact ⟨db.last_insert_id, _, rfl, by simp, rfl,
        [Effect.exec (Query.index_data_insert host_id host_name service_id sd
            (special host_name))],
        by simp [exec], rfl⟩

theorem find_metric_id_value (env : Env) (index_id : Nat) (name : String) (db : InsertAnswer)
    (st : State)
    (h1 : db.exec_ok = true)
    (h2 : (env.has_last_insert_id = false ∨ db.last_insert_id = 0) →
      ∃ k, k ≠ 0 ∧ db.select = some k) :
    ∃ st', _find_metric_id env index_id name db st =
        (some (match st._metric_cache (index_id, name) with
          | some v => v
          | none => new_metric_id env db), st') ∧
      st'._metric_cache =
        (match st._metric_cache (index_id, name) with
          | some _ => st._metric_cache
          | none => fun k =>
            if k = (index_id, name) then some (new_metric_id env db)
            else st._metric_cache k) ∧
      (st._metric_cache (index_id, name) = none → new_metric_id env db ≠ 0) ∧
      ∃ effs, st'.out = st.out ++ effs ∧ published effs = [] := by
  unfold _find_metric_id
  cases hc : st._metric_cache (index_id, name) with
  | some retval =>
    exact ⟨st, rfl, rfl, fun h => Option.noConfusion h, [], by simp, rfl⟩
  | none =>
    dsimp only
    rw [if_neg (by simp [h1])]
    by_cases hs : env.has_last_insert_id = false ∨ db.last_insert_id = 0
    · obtain ⟨k, hk0, hk⟩ := h2 hs
      have hn : new_metric_id env db = k := by
        unfold new_metric_id
        rw [if_pos hs, hk]
        rfl
      rw [if_pos hs, hk]
      dsimp only
      rw [if_neg hk0, hn]
      refine ⟨_, rfl, ?_, fun _ => hk0, ?_⟩
      · funext key
        simp [exec]
      · exact ⟨[Effect.exec (Query.metrics_insert index_id (env.format_value name)),
          Effect.exec (Query.metrics_select index_id (env.format_value name))],
          by simp [exec], rfl⟩
    · have hn : new_metric_id env db = db.last_insert_id := by
        unfold new_metric_id
        rw [if_neg hs]
      rw [if_neg hs, hn]
      refine ⟨_, rfl, ?_, fun _ h0 => hs (Or.inr h0), ?_⟩
      · funext key
        simp [exec]
      · exact ⟨[Effect.exec (Query.metrics_insert index_id (env.format_value name))],
          by simp [exec], rfl⟩

theorem write_metrics_ids (env : Env) (ss : service_status) (index_id : Nat)
    (mdb : Nat → MetricAnswers) :
    ∀ (pds : List perfdata) (i : Nat) (st : State),
      (∀ j, j < pds.length → metric_answer_ok env (mdb (i + j)) = true) →
      ∃ st', write_metrics env ss index_id mdb i pds st = (false, st') ∧
        ∃ effs, st'.out = st.out ++ effs ∧
          published effs =
            List.zipWith (fun pd id => Effect.publish_metric (metric_event env ss pd id)) pds
              (resolved_metric_ids env index_id mdb i pds st._metric_cache) := by
  intro pds
  induction pds with
  | nil =>
    intro i st _
    exact ⟨st, rfl, [], by simp, rfl⟩
  | cons pd rest ih =>
    intro i st hm
    have h0 := metric_answer_ok_parts env (mdb i) (by simpa using hm 0 (by simp))
    obtain ⟨hx, hsel, hup, hbin⟩ := h0
    obtain ⟨st1, hf, hcache, _, effs1, hout1, hpub1⟩ :=
      find_metric_id_value env index_id pd.name (mdb i).insert st hx hsel
    have hrest : ∀ j, j < rest.length → metric_answer_ok env (mdb (i + 1 + j)) = true := by
      intro j hj
      have := hm (j + 1) (by simp; omega)
      have e : i + (j + 1) = i + 1 + j := by omega
      rw [e] at this
      exact this
    unfold write_metrics
    rw [hf]
    dsimp only
    rw [if_neg (by simp [hup])]
    rw [if_neg (by
      intro hh
      have := hbin hh.1
      rw [this] at hh
      exact absurd hh.2 (by simp))]
    obtain ⟨st', hw, effs, hout, hpub⟩ := ih (i + 1) _ hrest
    refine ⟨st', hw, ?_⟩
    have hids : resolved_metric_ids env index_id mdb i (pd :: rest) st._metric_cache =
        (match st._metric_cache (index_id, pd.name) with
          | some v => v
          | none => new_metric_id env (mdb i).insert) ::
          resolved_metric_ids env index_id mdb (i + 1) rest st1._metric_cache := by
      rw [hcache]
      cases hc : st._metric_cache (index_id, pd.name) with
      | some v => simp [resolved_metric_ids, hc]
      | none => simp [resolved_metric_ids, hc]
    rw [hids]
    by_cases hdb : env._store_in_db = true
    · refine ⟨effs1 ++ [Effect.exec (Query.update_metrics pd.unit (check_double pd.warning)
          (check_double pd.critical) (check_double pd.min) (check_double pd.max)
          index_id pd.name),
        Effect.exec (Query.insert_data_bin
          (match st._metric_cache (index_id, pd.name) with
            | some v => v
            | none => new_metric_id env (mdb i).insert)
          (ss.last_check % 4294967296).toNat pd.value (ss.current_state + 1)),
        Effect.publish_metric (metric_event env ss pd
          (match st._metric_cache (index_id, pd.name) with
            | some v => v
            | none => new_metric_id env (mdb i).insert))] ++ effs, ?_, ?_⟩
      · rw [hout]
        simp [hdb, exec, hout1, metric_event]
      · rw [published_append, published_append, hpub1, hpub]
        simp [published, hdb, exec]
    · refine ⟨effs1 ++ [Effect.exec (Query.update_metrics pd.unit (check_double pd.warning)
          (check_double pd.critical) (check_double pd.min) (check_double pd.max)
          index_id pd.name),
        Effect.publish_metric (metric_event env ss pd
          (match st._metric_cache (index_id, pd.name) with
            | some v => v
            | none => new_metric_id env (mdb i).insert))] ++ effs, ?_, ?_⟩
      · rw [hout]
        simp [hdb, exec, hout1, metric_event]
      · rw [published_append, published_append, hpub1, hpub]
        simp [published, hdb, exec]

theorem find_index_id_value (env : Env) (host_id service_id : Nat) (host_name sd : String)
    (db : InsertAnswer) (st : State)
    (h : index_answer_ok env db = true) :
    (_find_index_id env host_id service_id host_name sd db st).1 =
      some (resolved_index_id env st._index_cache (host_id, service_id) db) ∧
    (st._index_cache (host_id, service_id) = none → new_index_id env db ≠ 0) ∧
    (_find_index_id env host_id service_id host_name sd db st).2._metric_cache =
      st._metric_cache := by
  obtain ⟨h1, h2⟩ := index_answer_ok_parts env db h
  unfold _find_index_id resolved_index_id
  cases hc : st._index_cache (host_id, service_id) with
  | some retval => exact ⟨rfl, fun h => Option.noConfusion h, rfl⟩
  | none =>
    dsimp only
    rw [if_neg (by simp [h1])]
    by_cases hs : env.has_last_insert_id = true ∨ db.last_insert_id = 0
    · obtain ⟨k, hk0, hk⟩ := h2 hs
      have hn : new_index_id env db = k := by
        unfold new_index_id
        rw [if_pos hs, hk]
        rfl
      rw [if_pos hs, hk]
      dsimp only
      rw [if_neg hk0, hn]
      exact ⟨rfl, fun _ => hk0, rfl⟩
    · have hn : new_index_id env db = db.last_insert_id := by
        unfold new_index_id
        rw [if_neg hs]
      rw [if_neg hs, hn]
      exact ⟨rfl, fun _ h0 => hs (Or.inr h0), rfl⟩

/-- C11: while the stream processes events, for a service status whose
perfdata is not empty and parses into the metrics `pds`, when every statement
succeeds, `write` returns and publishes one status event followed by one
metric event per metric of `pds`, in the order of `pds`.  The status carries
the index id resolved for `(host_id, service_id)`: the id that the index
cache held for the pair, else the id of the new row of `index_data`, which is
not 0; the index cache holds it afterwards.  Each metric event carries the
metric id resolved for its name under that index: the id that the metric
cache held when the metric was reached, else the id of the new row of
`metrics`; this is the id that the metric cache holds for the name
afterwards.  Each metric event carries the `ctime`, `interval` and `rrd_len`
of the status.  For a status whose perfdata is empty, `write` leaves the
state as it was: nothing is executed or published and no cache changes. -/
theorem write_service_status_events (env : Env) (ss : service_status) (pds : List perfdata)
    (idb : InsertAnswer) (mdb : Nat → MetricAnswers) (update_ok : Bool) (st : State)
    (hproc : st._process_out = true) (hperf : ss.perf_data ≠ "")
    (hidx : index_answer_ok env idb = true)
    (hmet : ∀ i, i < pds.length → metric_answer_ok env (mdb i) = true) :
    (∃ index_id st' effs,
      write env (data.service_status ss) (some pds) idb mdb update_ok st = (false, st') ∧
      index_id = resolved_index_id env st._index_cache (ss.host_id, ss.service_id) idb ∧
      (st._index_cache (ss.host_id, ss.service_id) = none → index_id ≠ 0) ∧
      st'._index_cache (ss.host_id, ss.service_id) = some index_id ∧
      st'.out = st.out ++ effs ∧
      published effs =
        Effect.publish_status
          { ctime := ss.last_check, index_id := index_id,
            interval := env.interval ss.check_interval env._interval_length,
            rrd_len := env._rrd_len, state := ss.current_state } ::
        List.zipWith (fun pd id => Effect.publish_metric (metric_event env ss pd id)) pds
          (resolved_metric_ids env index_id mdb 0 pds st._metric_cache) ∧
      published effs =
        Effect.publish_status
          { ctime := ss.last_check, index_id := index_id,
            interval := env.interval ss.check_interval env._interval_length,
            rrd_len := env._rrd_len, state := ss.current_state } ::
        pds.map fun pd =>
          Effect.publish_metric (metric_of env ss st'._metric_cache index_id pd)) ∧
    (∀ (ss0 : service_status) (parsed : Option (List perfdata)) (st0 : State),
      ss0.perf_data = "" →
      (write env (data.service_status ss0) parsed idb mdb update_ok st0).2 = st0) := by
  constructor
  · obtain ⟨id, st1, hf, hid, hp1, effs1, hout1, hpub1⟩ :=
      find_index_id_ok env ss.host_id ss.service_id ss.host_name ss.service_description idb st
        hidx
    obtain ⟨hv1, hv2, hv3⟩ :=
      find_index_id_value env ss.host_id ss.service_id ss.host_name ss.service_description
        idb st hidx
    rw [hf] at hv1 hv3
    have hidv : id = resolved_index_id env st._index_cache (ss.host_id, ss.service_id) idb :=
      Option.some.inj hv1
    have hmc : st1._metric_cache = st._metric_cache := hv3
    have hmet0 : ∀ j, j < pds.length → metric_answer_ok env (mdb (0 + j)) = true := by
      intro j hj
      rw [Nat.zero_add]
      exact hmet j hj
    obtain ⟨st', hw, _, hidx', effs, hout, hpub⟩ :=
      write_metrics_ok env ss id mdb pds 0
        { st1 with out := st1.out ++ [Effect.publish_status
          { ctime := ss.last_check, index_id := id,
            interval := env.interval ss.check_interval env._interval_length,
            rrd_len := env._rrd_len, state := ss.current_state }] }
        hmet0
    obtain ⟨st2, hw2, effs2, hout2, hpub2⟩ :=
      write_metrics_ids env ss id mdb pds 0
        { st1 with out := st1.out ++ [Effect.publish_status
          { ctime := ss.last_check, index_id := id,
            interval := env.interval ss.check_interval env._interval_length,
            rrd_len := env._rrd_len, state := ss.current_state }] }
        hmet0
    rw [hw] at hw2
    have hst : st2 = st' := (Prod.mk.inj hw2).2.symm
    subst hst
    have heffs : effs2 = effs := by
      rw [hout] at hout2
      exact (List.append_cancel_left hout2).symm
    subst heffs
    refine ⟨id, st2, effs1 ++ [Effect.publish_status
          { ctime := ss.last_check, index_id := id,
            interval := env.interval ss.check_interval env._interval_length,
            rrd_len := env._rrd_len, state := ss.current_state }] ++ effs2,
      ?_, hidv, ?_, ?_, ?_, ?_, ?_⟩
    · unfold write
      rw [if_neg (by simp [hproc])]
      dsimp only
      rw [if_pos hperf, hf]
      exact hw
    · intro hnone
      rw [hidv]
      unfold resolved_index_id
      rw [hnone]
      exact hv2 hnone
    · rw [hidx']
      exact hid
    · rw [hout]
      simp [hout1]
    · rw [published_append, published_append, hpub1, hpub2]
      simp only [hmc]
      simp [published]
    · rw [published_append, published_append, hpub1, hpub]
      simp [published]
  · intro ss0 parsed st0 he
    unfold write
    by_cases hp : st0._process_out = false
    · rw [if_pos hp]
    · rw [if_neg hp]
      dsimp only
      rw [if_neg (by simp [he])]

/-- Witness of C11: Scenario B on a running stream with empty caches; the
status carries the new index id 5, the two metric events the new metric ids
10 and 11. -/
theorem write_service_status_events_witness :
    sample_state._process_out = true ∧ sample_service_status.perf_data ≠ "" ∧
    ∃ st' effs,
      write sample_env (data.service_status sample_service_status) (some sample_perfdata)
        sample_answer sample_metric_answers true sample_state = (false, st') ∧
      st'._index_cache (42, 7) = some 5 ∧
      st'.out = sample_state.out ++ effs ∧
      published effs =
        Effect.publish_status
          { ctime := 1100, index_id := 5,
            interval := sample_env.interval (double.val 1) 60,
            rrd_len := 15552000, state := 0 } ::
        List.zipWith
          (fun pd id =>
            Effect.publish_metric (metric_event sample_env sample_service_status pd id))
          sample_perfdata [10, 11] := by
  refine ⟨rfl, by decide, ?_⟩
  obtain ⟨index_id, st', effs, hw, hi, _, hc, hout, hpub, _⟩ :=
    (write_service_status_events sample_env sample_service_status sample_perfdata
      sample_answer sample_metric_answers true sample_state rfl (by decide) (by decide)
      (by
        intro i _
        simp [metric_answer_ok, sample_env, sample_metric_answers])).1
  have e5 : index_id = 5 := by
    rw [hi]
    decide
  subst e5
  have eids : resolved_metric_ids sample_env 5 sample_metric_answers 0 sample_perfdata
      sample_state._metric_cache = [10, 11] := by
    decide
  rw [eids] at hpub
  exact ⟨st', effs, hw, hc, hout, hpub⟩

/-- C12: when `_find_index_id` returns `k` for a pair `(host_id, service_id)`,
`k` is not zero if the pair was not in the index cache, the cache holds `k`
for the pair, and after any further calls of `_find_index_id` a call with
that pair returns `k` again and leaves the state as it is, so that it
executes no INSERT and no SELECT. -/
theorem find_index_id_stable (env : Env) (host_id service_id : Nat) (host_name sd : String)
    (db : InsertAnswer) (st : State) (k : Nat)
    (hk : (_find_index_id env host_id service_id host_name sd db st).1 = some k) :
    (st._index_cache (host_id, service_id) = none → k ≠ 0) ∧
    (_find_index_id env host_id service_id host_name sd db st).2._index_cache
      (host_id, service_id) = some k ∧
    ∀ (calls : List (Nat × Nat × String × String × InsertAnswer)) (host_name' sd' : String)
      (db' : InsertAnswer),
      _find_index_id env host_id service_id host_name' sd' db'
          (find_index_calls env calls
            (_find_index_id env host_id service_id host_name sd db st).2) =
        (some k,
          find_index_calls env calls
            (_find_index_id env host_id service_id host_name sd db st).2) := by
  obtain ⟨h0, hc⟩ := find_index_id_returns env host_id service_id host_name sd db st k hk
  refine ⟨h0, hc, ?_⟩
  intro calls hn' sd' db'
  exact find_index_id_hit env host_id service_id hn' sd' db' _ k
    (find_index_calls_keep env calls _ _ _ hc)

/-- Witness of C12: the index of service 7 of host 42 is created with id 5;
after a call for another service, it is found again. -/
theorem find_index_id_stable_witness :
    (_find_index_id sample_env 42 7 "h" "cpu" sample_answer sample_state).1 = some 5 ∧
    _find_index_id sample_env 42 7 "h" "cpu"
        { exec_ok := false, last_insert_id := 0, select := none }
        (find_index_calls sample_env [(42, 8, "h", "mem", sample_answer)]
          (_find_index_id sample_env 42 7 "h" "cpu" sample_answer sample_state).2) =
      (some 5,
        find_index_calls sample_env [(42, 8, "h", "mem", sample_answer)]
          (_find_index_id sample_env 42 7 "h" "cpu" sample_answer sample_state).2) :=
  ⟨rfl,
   (find_index_id_stable sample_env 42 7 "h" "cpu" sample_answer sample_state 5 rfl).2.2
     [(42, 8, "h", "mem", sample_answer)] "h" "cpu"
     { exec_ok := false, last_insert_id := 0, select := none }⟩

theorem find_index_id_frame (env : Env) (host_id service_id : Nat) (host_name sd : String)
    (db : InsertAnswer) (st : State) :
    (∃ effs, (_find_index_id env host_id service_id host_name sd db st).2.out = st.out ++ effs ∧
      ∀ e ∈ effs, is_metric_effect e = false) ∧
    (_find_index_id env host_id service_id host_name sd db st).2._process_out =
      st._process_out ∧
    (_find_index_id env host_id service_id host_name sd db st).2._metric_cache =
      st._metric_cache := by
  unfold _find_index_id
  cases hc : st._index_cache (host_id, service_id) with
  | some retval => exact ⟨⟨[], by simp, by simp⟩, rfl, rfl⟩
  | none =>
    dsimp only
    by_cases h1 : db.exec_ok = false
    · rw [if_pos h1]
      exact ⟨⟨_, rfl, by simp [is_metric_effect]⟩, rfl, rfl⟩
    · rw [if_neg h1]
      by_cases hs : env.has_last_insert_id = true ∨ db.last_insert_id = 0
      · rw [if_pos hs]
        cases hsel : db.select with
        | none =>
          exact ⟨⟨[Effect.exec (Query.index_data_insert host_id host_name service_id sd
              (special host_name)), Effect.exec (Query.index_data_select host_id service_id)],
            by simp [exec], by simp [is_metric_effect]⟩, rfl, rfl⟩
        | some retval =>
          dsimp only
          by_cases h0 : retval = 0
          · rw [if_pos h0]
            exact ⟨⟨[Effect.exec (Query.index_data_insert host_id host_name service_id sd
              (special host_name)), Effect.exec (Query.index_data_select host_id service_id)],
            by simp [exec], by simp [is_metric_effect]⟩, rfl, rfl⟩
          · rw [if_neg h0]
            exact ⟨⟨[Effect.exec (Query.index_data_insert host_id host_name service_id sd
              (special host_name)), Effect.exec (Query.index_data_select host_id service_id)],
            by simp [exec], by simp [is_metric_effect]⟩, rfl, rfl⟩
      · rw [if_neg hs]
        exact ⟨⟨_, rfl, by simp [is_metric_effect]⟩, rfl, rfl⟩

/-- C21: when `write` reaches the parser (the stream is not shut down, the
status has perfdata and `_find_index_id` returns) and `parse_perfdata` throws
a `perfdata` exception, `write` returns without exception, none of the
effects it adds is a statement on `metrics` or `data_bin` or a metric event,
`_process_out` and the metric cache are unchanged, and the state reached is
the one reached when the parser returns no metric, so that the next event is
processed alike. -/
theorem perfdata_failure_discarded (env : Env) (ss : service_status) (idb : InsertAnswer)
    (mdb : Nat → MetricAnswers) (update_ok : Bool) (st : State) (index_id : Nat)
    (hp : st._process_out = true) (hpd : ss.perf_data ≠ "")
    (hidx : (_find_index_id env ss.host_id ss.service_id ss.host_name ss.service_description
      idb st).1 = some index_id) :
    (write env (data.service_status ss) none idb mdb update_ok st).1 = false ∧
    (∃ effs, (write env (data.service_status ss) none idb mdb update_ok st).2.out =
        st.out ++ effs ∧ ∀ e ∈ effs, is_metric_effect e = false) ∧
    (write env (data.service_status ss) none idb mdb update_ok st).2._process_out = true ∧
    (write env (data.service_status ss) none idb mdb update_ok st).2._metric_cache =
      st._metric_cache ∧
    write env (data.service_status ss) none idb mdb update_ok st =
      write env (data.service_status ss) (some []) idb mdb update_ok st ∧
    ∀ (d2 : data) (parsed2 : Option (List perfdata)) (idb2 : InsertAnswer)
      (mdb2 : Nat → MetricAnswers) (u2 : Bool),
      write env d2 parsed2 idb2 mdb2 u2
          (write env (data.service_status ss) none idb mdb update_ok st).2 =
        write env d2 parsed2 idb2 mdb2 u2
          (write env (data.service_status ss) (some []) idb mdb update_ok st).2 := by
  obtain ⟨⟨effs, he, hm⟩, hpo, hmc⟩ :=
    find_index_id_frame env ss.host_id ss.service_id ss.host_name ss.service_description idb st
  have hw : ∀ parsed, parsed = none ∨ parsed = some [] →
      write env (data.service_status ss) parsed idb mdb update_ok st =
        (false,
          { (_find_index_id env ss.host_id ss.service_id ss.host_name ss.service_description
                idb st).2 with
            out := (_find_index_id env ss.host_id ss.service_id ss.host_name
                ss.service_description idb st).2.out ++
              [Effect.publish_status
                { ctime := ss.last_check
                  index_id := index_id
                  interval := env.interval ss.check_interval env._interval_length
                  rrd_len := env._rrd_len
                  state := ss.current_state }] }) := by
    intro parsed hparsed
    unfold write
    rcases hparsed with rfl | rfl
    · simp [hp, hpd, hidx]
    · simp [hp, hpd, hidx, write_metrics]
  have hnone := hw none (Or.inl rfl)
  have hnil := hw (some []) (Or.inr rfl)
  rw [hnil, hnone]
  refine ⟨rfl, ⟨effs ++ [Effect.publish_status
        { ctime := ss.last_check
          index_id := index_id
          interval := env.interval ss.check_interval env._interval_length
          rrd_len := env._rrd_len
          state := ss.current_state }], by simp [he], ?_⟩, by simp [hpo, hp], hmc, rfl, ?_⟩
  · intro e hmem
    rcases List.mem_append.mp hmem with h | h
    · exact hm e h
    · simp at h
      subst h
      rfl
  · intros
    rfl

theorem perfdata_failure_discarded_witness :
    sample_state._process_out = true ∧ sample_service_status.perf_data ≠ "" ∧
    (write sample_env (data.service_status sample_service_status) none sample_answer
      sample_metric_answers true sample_state).1 = false :=
  ⟨rfl, by decide,
    (perfdata_failure_discarded sample_env sample_service_status sample_answer
      sample_metric_answers true sample_state 5 rfl (by decide) (by decide)).1⟩

end Storage

namespace Stats

theorem find_from_bounds (c : Char) (l : List Char) :
    ∀ i p, find_from c l i = some p → i ≤ p ∧ p < i + l.length := by
  induction l with
  | nil => intro i p h; simp [find_from] at h
  | cons x xs ih =>
    intro i p h
    unfold find_from at h
    by_cases hx : x = c
    · rw [if_pos hx] at h
      cases h
      simp
    · rw [if_neg hx] at h
      have := ih (i + 1) p h
      simp only [List.length_cons]
      omega

theorem find_bounds (s : List Char) (c : Char) (pos p : Nat) (h : find s c pos = some p) :
    pos ≤ p ∧ p < s.length := by
  unfold find at h
  have hb := find_from_bounds c (s.drop pos) pos p h
  rw [List.length_drop] at hb
  omega

theorem find_from_skip (c : Char) (l r : List Char) (hl : c ∉ l) :
    ∀ i, find_from c (l ++ c :: r) i = some (i + l.length) := by
  induction l with
  | nil => intro i; simp [find_from]
  | cons x xs ih =>
    intro i
    have hx : x ≠ c := fun h => hl (by simp [h])
    have hxs : c ∉ xs := fun h => hl (by simp [h])
    rw [List.cons_append]
    unfold find_from
    rw [if_neg hx, ih hxs (i + 1), List.length_cons]
    exact congrArg some (by omega)

theorem find_skip (c : Char) (a l r : List Char) (hl : c ∉ l) :
    find (a ++ (l ++ c :: r)) c a.length = some (a.length + l.length) := by
  unfold find
  rw [List.drop_left]
  exact find_from_skip c l r hl a.length

theorem replace_length (s : List Char) (p : Nat) (r : List Char) (h : p < s.length) :
    (replace s p 1 r).length = s.length + r.length - 1 := by
  unfold replace
  simp only [List.length_append, List.length_take, List.length_drop]
  omega

theorem rewrite_newlines_total :
    ∀ (fuel : Nat) (s : List Char) (pos : Option Nat),
      (∀ p, pos = some p → p < s.length ∧ s.length - p ≤ fuel) →
      ∃ r, rewrite_newlines fuel s pos = some r := by
  intro fuel
  induction fuel with
  | zero =>
    intro s pos h
    cases pos with
    | none => exact ⟨s, by simp [rewrite_newlines]⟩
    | some p =>
      obtain ⟨h1, h2⟩ := h p rfl
      omega
  | succ n ih =>
    intro s pos h
    cases pos with
    | none => exact ⟨s, by simp [rewrite_newlines]⟩
    | some p =>
      have hp := h p rfl
      by_cases he : p = s.length - 1
      · exact ⟨s, by simp [rewrite_newlines, he]⟩
      · unfold rewrite_newlines
        rw [if_neg he]
        dsimp only
        apply ih
        intro q hq
        have hb := find_bounds _ _ _ _ hq
        have hl := replace_length s p "\n  ".toList hp.1
        have h3 : "\n  ".toList.length = 3 := by decide
        rw [h3] at hl
        omega

theorem indent_subbuffer_total (s : List Char) : ∃ r, indent_subbuffer s = some r := by
  unfold indent_subbuffer
  dsimp only
  apply rewrite_newlines_total
  intro p hp
  have hb := find_bounds _ _ _ _ hp
  omega

theorem replace_newline (a r : List Char) :
    replace (a ++ '\n' :: r) a.length 1 "\n  ".toList = a ++ "\n  ".toList ++ r := by
  unfold replace
  rw [List.take_left, List.drop_append_eq_append_drop]
  simp

theorem rewrite_newlines_lines :
    ∀ (ls : List (List Char)) (fuel : Nat) (done l : List Char),
      (∀ x ∈ ls, '\n' ∉ x) → ls.length ≤ fuel →
      rewrite_newlines fuel (done ++ (l ++ '\n' :: unlines ls)) (some (done.length + l.length)) =
        some (done ++ (l ++ '\n' :: unlines (ls.map fun x => ' ' :: ' ' :: x))) := by
  intro ls
  induction ls with
  | nil =>
    intro fuel done l _ _
    unfold rewrite_newlines
    simp [unlines]
  | cons l2 ls ih =>
    intro fuel done l hls hf
    cases fuel with
    | zero => simp at hf
    | succ n =>
      have hne : done.length + l.length ≠ (done ++ (l ++ '\n' :: unlines (l2 :: ls))).length - 1 := by
        simp [unlines]
        omega
      unfold rewrite_newlines
      rw [if_neg hne]
      dsimp only
      have e1 : done ++ (l ++ '\n' :: unlines (l2 :: ls)) = (done ++ l) ++ '\n' :: unlines (l2 :: ls) := by
        simp
      have e2 : done.length + l.length = (done ++ l).length := by simp
      rw [e1, e2, replace_newline]
      have e3 : unlines (l2 :: ls) = l2 ++ '\n' :: unlines ls := by simp [unlines]
      have e4 : (done ++ l).length + 3 = (done ++ l ++ "\n  ".toList).length := by
        simp [Nat.add_assoc]
      have hl2 : '\n' ∉ l2 := hls l2 (by simp)
      rw [e3, e4, find_skip '\n' _ l2 _ hl2]
      have := ih n (done ++ l ++ "\n  ".toList) l2 (fun x hx => hls x (by simp [hx]))
        (by simpa using hf)
      rw [this]
      simp [unlines]

theorem unlines_length (ls : List (List Char)) : ls.length ≤ (unlines ls).length := by
  induction ls with
  | nil => simp [unlines]
  | cons l ls ih =>
    have e : unlines (l :: ls) = l ++ '\n' :: unlines ls := by simp [unlines]
    rw [e]
    simp only [List.length_append, List.length_cons]
    omega

theorem indent_subbuffer_lines (l : List Char) (ls : List (List Char))
    (hl : '\n' ∉ l) (hls : ∀ x ∈ ls, '\n' ∉ x) :
    indent_subbuffer (unlines (l :: ls)) = some (unlines ((l :: ls).map fun x => ' ' :: ' ' :: x)) := by
  unfold indent_subbuffer insert
  dsimp only
  have e1 : List.take 0 (unlines (l :: ls)) ++ "  ".toList ++ List.drop 0 (unlines (l :: ls)) =
      "  ".toList ++ (l ++ '\n' :: unlines ls) := by
    simp [unlines]
  rw [e1]
  have hf : find ("  ".toList ++ (l ++ '\n' :: unlines ls)) '\n' 0 =
      some ("  ".toList.length + l.length) := by
    have h2 : '\n' ∉ "  ".toList ++ l := by
      simp only [List.mem_append, not_or]
      exact ⟨by decide, hl⟩
    have := find_skip '\n' [] ("  ".toList ++ l) (unlines ls) h2
    simp only [List.nil_append, List.length_nil, Nat.zero_add, List.length_append,
      List.append_assoc] at this
    exact this
  rw [hf, rewrite_newlines_lines ls _ _ l hls]
  · simp [unlines]
  · have := unlines_length ls
    simp only [List.length_append, List.length_cons]
    omega

/-- A text that ends with a newline is made of lines without newline. -/
theorem lines_of_text (t : List Char) (h : t.getLast? = some '\n') :
    ∃ l ls, '\n' ∉ l ∧ (∀ x ∈ ls, '\n' ∉ x) ∧ t = unlines (l :: ls) := by
  induction t with
  | nil => simp at h
  | cons c t ih =>
    cases t with
    | nil =>
      simp at h
      subst h
      exact ⟨[], [], by simp, by simp, by simp [unlines]⟩
    | cons d t =>
      have h2 : (d :: t).getLast? = some '\n' := by
        simpa [List.getLast?_cons_cons] using h
      obtain ⟨l, ls, hl, hls, e⟩ := ih h2
      by_cases hc : c = '\n'
      · subst hc
        refine ⟨[], l :: ls, by simp, ?_, ?_⟩
        · intro x hx
          simp at hx
          rcases hx with rfl | hx
          · exact hl
          · exact hls x hx
        · rw [e]
          simp [unlines]
      · refine ⟨c :: l, ls, ?_, hls, ?_⟩
        · simp only [List.mem_cons, not_or]
          exact ⟨fun h => hc h.symm, hl⟩
        · rw [e]
          simp [unlines]

theorem getLast_append_newline (a : List Char) : (a ++ ['\n']).getLast? = some '\n' := by
  simp

theorem unlines_getLast (l : List Char) (ls : List (List Char)) :
    (unlines (l :: ls)).getLast? = some '\n' := by
  induction ls generalizing l with
  | nil => simp [unlines]
  | cons l2 ls ih =>
    have e : unlines (l :: l2 :: ls) = (l ++ ['\n']) ++ unlines (l2 :: ls) := by
      simp [unlines]
    rw [e, List.getLast?_append, ih l2]
    rfl

theorem own_stats_getLast (fo : failover) (is_out : Bool) :
    (own_stats fo is_out).getLast? = some '\n' := by
  unfold own_stats
  have e : "\n".toList = ['\n'] := rfl
  simp only [e, ← List.append_assoc]
  exact getLast_append_newline _

theorem indent_subbuffer_text (t : List Char) (h : t.getLast? = some '\n') :
    ∃ l ls, '\n' ∉ l ∧ (∀ x ∈ ls, '\n' ∉ x) ∧ t = unlines (l :: ls) ∧
      indent_subbuffer t = some (unlines ((l :: ls).map fun x => ' ' :: ' ' :: x)) := by
  obtain ⟨l, ls, hl, hls, e⟩ := lines_of_text t h
  exact ⟨l, ls, hl, hls, e, by rw [e]; exact indent_subbuffer_lines l ls hl hls⟩

theorem generate_stats_spec : ∀ (fo : failover) (is_out : Bool),
    ∃ t, _generate_stats_for_endpoint fo is_out = some t ∧ t.getLast? = some '\n' ∧
      ∃ sub, t = own_stats fo is_out ++ sub
  | failover.mk m none, is_out =>
    ⟨own_stats (failover.mk m none) is_out, by simp [_generate_stats_for_endpoint],
      own_stats_getLast _ _, [], by simp⟩
  | failover.mk m (some c), is_out => by
    obtain ⟨t, ht, hlast, _⟩ := generate_stats_spec c is_out
    obtain ⟨l, ls, _, _, _, hi⟩ := indent_subbuffer_text t hlast
    by_cases hr : c.members.isRunning = true
    · refine ⟨own_stats (failover.mk m (some c)) is_out ++
          ("failover\n".toList ++ unlines ((l :: ls).map fun x => ' ' :: ' ' :: x)),
        by simp [_generate_stats_for_endpoint, hr, ht, hi], ?_, _, rfl⟩
      have e : "failover\n".toList ++ unlines ((l :: ls).map fun x => ' ' :: ' ' :: x) =
          unlines (("failover".toList) :: (l :: ls).map fun x => ' ' :: ' ' :: x) := by
        simp [unlines]
      rw [e, List.getLast?_append, unlines_getLast]
      rfl
    · exact ⟨own_stats (failover.mk m (some c)) is_out,
        by simp [_generate_stats_for_endpoint, hr], own_stats_getLast _ _, [], by simp⟩

/-- C22: the text printed for an endpoint is its header line followed by the
state line, and the state line is `state=disconnected (<last error>)` without
stream and with a last error, `state=listening` without stream and without
last error, `state=replaying` with a stream and a running secondary failover,
`state=connected` with a stream otherwise. -/
theorem state_line_four_states (fo : failover) (is_out : Bool) :
    ∃ rest, _generate_stats_for_endpoint fo is_out =
      some ((if is_out = true then "output ".toList else "input ".toList) ++
        fo.members._name ++ "\n".toList ++
        (if (if is_out = true then fo.members._to else fo.members._from) = false then
          if fo.members._last_error ≠ [] then
            "state=disconnected (".toList ++ fo.members._last_error ++ ")\n".toList
          else "state=listening\n".toList
        else if failover_is_running fo = true then "state=replaying\n".toList
        else "state=connected\n".toList) ++ rest) := by
  obtain ⟨t, ht, _, sub, hsub⟩ := generate_stats_spec fo is_out
  rw [ht, hsub]
  unfold own_stats state_block
  by_cases h1 : (if is_out = true then fo.members._to else fo.members._from) = false
  · by_cases h2 : fo.members._last_error = []
    · simp only [h1, h2, if_true, ne_eq, not_true_eq_false, if_false]
      exact ⟨_, by simp only [List.append_assoc]; rfl⟩
    · simp only [h1, h2, if_true, ne_eq, not_false_eq_true]
      exact ⟨_, by simp only [List.append_assoc]; rfl⟩
  · by_cases h3 : failover_is_running fo = true
    · simp only [h1, h3, if_true, if_false]
      exact ⟨_, by simp only [List.append_assoc]; rfl⟩
    · simp only [h1, h3, if_false]
      exact ⟨_, by simp only [List.append_assoc]; rfl⟩

/-- C29: with a running secondary failover `c` the text of `c` is made of
lines that end with a newline, and the text printed after the line `failover`
is made of the same lines in the same order, each with two spaces before it;
the same holds for every text that ends with a newline, and the loop that
rewrites the newlines ends for every text. -/
theorem failover_text_indented (m : failover_members) (c : failover) (is_out : Bool)
    (hrun : c.members.isRunning = true) :
    (∃ l ls, '\n' ∉ l ∧ (∀ x ∈ ls, '\n' ∉ x) ∧
      _generate_stats_for_endpoint c is_out = some (unlines (l :: ls)) ∧
      _generate_stats_for_endpoint (failover.mk m (some c)) is_out =
        some (own_stats (failover.mk m (some c)) is_out ++ "failover\n".toList ++
          unlines ((l :: ls).map fun x => ' ' :: ' ' :: x))) ∧
    (∀ t : List Char, t.getLast? = some '\n' →
      ∃ l ls, '\n' ∉ l ∧ (∀ x ∈ ls, '\n' ∉ x) ∧ t = unlines (l :: ls) ∧
        indent_subbuffer t = some (unlines ((l :: ls).map fun x => ' ' :: ' ' :: x))) ∧
    ∀ s : List Char, ∃ r, indent_subbuffer s = some r := by
  refine ⟨?_, indent_subbuffer_text, indent_subbuffer_total⟩
  obtain ⟨t, ht, hlast, _⟩ := generate_stats_spec c is_out
  obtain ⟨l, ls, hl, hls, e, hi⟩ := indent_subbuffer_text t hlast
  refine ⟨l, ls, hl, hls, by rw [ht, e], ?_⟩
  simp [_generate_stats_for_endpoint, hrun, ht, hi]

theorem failover_text_indented_witness :
    (failover.mk sample_members none).members.isRunning = true ∧
    ∃ l ls, '\n' ∉ l ∧ (∀ x ∈ ls, '\n' ∉ x) ∧
      _generate_stats_for_endpoint (failover.mk sample_members none) true =
        some (unlines (l :: ls)) ∧
      _generate_stats_for_endpoint
          (failover.mk sample_members (some (failover.mk sample_members none))) true =
        some (own_stats (failover.mk sample_members (some (failover.mk sample_members none)))
            true ++ "failover\n".toList ++
          unlines ((l :: ls).map fun x => ' ' :: ' ' :: x)) :=
  ⟨rfl, (failover_text_indented sample_members (failover.mk sample_members none) true rfl).1⟩

end Stats

namespace Rrd

end Rrd

namespace Retention

/-- C24: in a build with the event broker and the retention routines, when
`retain_state_information` is disabled `save_state_information` returns `OK`
and calls nothing; otherwise it sends STARTSAVE, saves, sends ENDSAVE and
nothing else but a message to the log, so that ENDSAVE is the last retention
event whatever the save returned, and it returns `ERROR` exactly when the
save returned `ERROR`, and `OK` otherwise. -/
theorem save_state_information_events (env : Env) (autosave saved : Int) (st : State)
    (hb : env.USE_EVENT_BROKER = true) (hx : env.USE_XRDDEFAULT = true)
    (he : env.ERROR ≠ env.OK) :
    (st.retain_state_information = env.FALSE →
      save_state_information env autosave saved st = (env.OK, st)) ∧
    (st.retain_state_information ≠ env.FALSE →
      (∃ effs, (save_state_information env autosave saved st).2.out = st.out ++ effs ∧
        without_log effs =
          [Effect.broker_retention_data retention_type.NEBTYPE_RETENTIONDATA_STARTSAVE,
            Effect.xrddefault_save_state_information,
            Effect.broker_retention_data retention_type.NEBTYPE_RETENTIONDATA_ENDSAVE] ∧
        (retention_events effs).getLast? =
          some retention_type.NEBTYPE_RETENTIONDATA_ENDSAVE) ∧
      ((save_state_information env autosave saved st).1 = env.ERROR ↔ saved = env.ERROR) ∧
      ((save_state_information env autosave saved st).1 = env.ERROR ∨
        (save_state_information env autosave saved st).1 = env.OK) ∧
      (save_state_information env autosave saved st).2.retain_state_information =
        st.retain_state_information) := by
  constructor
  · intro h
    simp [save_state_information, h]
  · intro h
    by_cases hs : saved = env.ERROR
    · simp [save_state_information, h, hb, hx, hs, emit, without_log, retention_events]
    · have he2 : ¬ env.OK = env.ERROR := fun h => he h.symm
      by_cases ha : autosave = env.TRUE
      · simp [save_state_information, h, hb, hx, hs, ha, emit, without_log, retention_events, he2]
      · simp [save_state_information, h, hb, hx, hs, ha, emit, without_log, retention_events, he2]

theorem save_state_information_events_witness :
    sample_env.USE_EVENT_BROKER = true ∧ sample_env.USE_XRDDEFAULT = true ∧
    sample_env.ERROR ≠ sample_env.OK ∧
    sample_state.retain_state_information ≠ sample_env.FALSE ∧
    ((save_state_information sample_env 0 (-2) sample_state).1 = sample_env.ERROR ↔
      (-2 : Int) = sample_env.ERROR) :=
  ⟨rfl, rfl, by decide, by decide,
    ((save_state_information_events sample_env 0 (-2) sample_state rfl rfl (by decide)).2
      (by decide)).2.1⟩

end Retention

namespace Feeder

theorem feed_loop_spec (env : Env) :
    ∀ (k i : Nat) (st : State), st._should_exit = false →
      (∀ j, i ≤ j → j < i + k → goes_on env j = true) →
      ∃ st2, feed_loop env (k + 1) i st = feed_loop env 1 (i + k) st2 ∧
        st2._in = st._in ∧ st2._out = st._out ∧ st2._should_exit = false ∧
        ∃ effs, st2.out = st.out ++ effs ∧
          written effs = (List.range k).filterMap (fun j => event_of (env.input (i + j))) ∧
          reads effs = (List.range k).map (fun j => env.input (i + j)) := by
  intro k
  induction k with
  | zero =>
    intro i st _ _
    exact ⟨st, rfl, rfl, rfl, by assumption, [], by simp, by simp [written], by simp [reads]⟩
  | succ k ih =>
    intro i st hs hg
    have hi := hg i (Nat.le_refl _) (by omega)
    unfold goes_on at hi
    simp only [Bool.and_eq_true, Bool.not_eq_true', Option.isSome_iff_exists] at hi
    obtain ⟨⟨hx, d, hd⟩, hw⟩ := hi
    have hin : env.input i = read_result.returns (some d) ∧ d.size ≠ 0 := by
      cases hr : env.input i with
      | throws => rw [hr] at hd; simp [event_of] at hd
      | returns o =>
        cases o with
        | none => rw [hr] at hd; simp [event_of] at hd
        | some e =>
          rw [hr] at hd
          simp only [event_of] at hd
          by_cases hz : e.size = 0
          · simp [hz] at hd
          · simp [hz] at hd
            subst hd
            exact ⟨rfl, hz⟩
    obtain ⟨st2, h2, hi2, ho2, hs2, effs, he, hwr, hrd⟩ :=
      ih (i + 1) { st with out := st.out ++ [Effect.read (env.input i)] ++ [Effect.write d] } hs
        (fun j h1 h2 => hg j (by omega) (by omega))
    refine ⟨st2, ?_, hi2, ho2, hs2, [Effect.read (env.input i), Effect.write d] ++ effs, ?_, ?_, ?_⟩
    · rw [show i + (k + 1) = i + 1 + k by omega, ← h2]
      conv => lhs; unfold feed_loop
      simp [hs, hx, hin.1, hin.2, hw]
    · rw [he]; simp
    · simp only [written, List.filterMap_append] at hwr ⊢
      rw [hwr, List.range_succ_eq_map]
      simp [List.filterMap_map, hd, Function.comp_def, Nat.add_assoc, Nat.add_comm 1]
    · simp only [reads, List.filterMap_append] at hrd ⊢
      rw [hrd, List.range_succ_eq_map]
      simp [Function.comp_def, Nat.add_assoc, Nat.add_comm 1]

theorem filterMap_length_of_isSome {α β : Type} (f : α → Option β) (l : List α)
    (h : ∀ x ∈ l, (f x).isSome = true) : (l.filterMap f).length = l.length := by
  induction l with
  | nil => rfl
  | cons x l ih =>
    obtain ⟨y, hy⟩ := Option.isSome_iff_exists.mp (h x (by simp))
    rw [List.filterMap_cons_some hy]
    simp [ih (fun z hz => h z (by simp [hz]))]

theorem run_clears (env : Env) (fuel : Nat) (st : State) (o : Outcome) (st2 : State)
    (h : run env fuel st = some (o, st2)) : st2._in = none ∧ st2._out = none := by
  unfold run at h
  dsimp only at h
  split at h
  · cases h
  · split at h <;> · cases h; exact ⟨rfl, rfl⟩

theorem last_iteration (env : Env) (n : Nat) (st : State) (hs : st._should_exit = false)
    (hend : ends_at env n = true) :
    ∃ effs, feed_loop env 1 n st =
        some (false, { st with _should_exit := env.exit_requested n, out := st.out ++ effs }) ∧
      written effs = [] ∧ (reads effs).filterMap event_of = [] := by
  unfold ends_at at hend
  unfold feed_loop
  by_cases hx : env.exit_requested n = true
  · exact ⟨[], by simp [hs, hx], rfl, rfl⟩
  · simp only [Bool.not_eq_true] at hx
    rw [hx, Bool.false_or] at hend
    cases hr : env.input n with
    | throws => rw [hr] at hend; simp at hend
    | returns o =>
      cases o with
      | none =>
        exact ⟨[Effect.read (read_result.returns none)], by simp [hs, hx],
          by simp [written], by simp [reads, event_of]⟩
      | some d =>
        rw [hr] at hend
        simp only [decide_eq_true_eq] at hend
        exact ⟨[Effect.read (read_result.returns (some d))], by simp [hs, hx, hend],
          by simp [written], by simp [reads, event_of, hend]⟩

/-- C28: `run` with two streams, when the iterations before `n` each read an
event with a size other than 0 and write it, and iteration `n` finds an exit
request, a null pointer or an event of size 0: `run` returns, the events
written are the events read before iteration `n`, each once and in the order
read, they are all the events of a size other than 0 that were read, and both
stream pointers are null; and whenever `run` ends both pointers are null. -/
theorem feeder_writes_events_read (env : Env) (n a b : Nat) (st : State)
    (hin : st._in = some a) (hout : st._out = some b)
    (hgo : ∀ j, j < n → goes_on env j = true) (hend : ends_at env n = true) :
    (∃ st2 effs, run env (n + 1) st = some (Outcome.returned, st2) ∧
      st2._in = none ∧ st2._out = none ∧ st2.out = st.out ++ effs ∧
      written effs = (List.range n).filterMap (fun j => event_of (env.input j)) ∧
      (written effs).length = n ∧
      written effs = (reads effs).filterMap event_of) ∧
    ∀ (fuel : Nat) (st0 st3 : State) (o : Outcome),
      run env fuel st0 = some (o, st3) → st3._in = none ∧ st3._out = none := by
  refine ⟨?_, fun fuel st0 st3 o h => run_clears env fuel st0 o st3 h⟩
  obtain ⟨st2, h2, hi2, ho2, hs2, effs, he, hwr, hrd⟩ :=
    feed_loop_spec env n 0 { st with _should_exit := false } rfl
      (fun j _ h => hgo j (by omega))
  simp only [Nat.zero_add] at h2 hwr hrd
  obtain ⟨effs2, hl, hw2, hr2⟩ := last_iteration env n st2 hs2 hend
  have hrun : run env (n + 1) st = some (Outcome.returned,
      { _in := none, _out := none, _should_exit := env.exit_requested n,
        out := st2.out ++ effs2 }) := by
    simp only [hin, hout] at h2
    unfold run
    simp [hin, hout, h2, hl]
  refine ⟨_, effs ++ effs2, hrun, rfl, rfl, ?_, ?_, ?_, ?_⟩
  · simp [he]
  · simp only [written, List.filterMap_append] at hwr hw2 ⊢
    rw [hwr, hw2, List.append_nil]
  · have hlen : ((List.range n).filterMap fun j => event_of (env.input j)).length = n := by
      rw [filterMap_length_of_isSome]
      · simp
      · intro j hj
        have := hgo j (List.mem_range.mp hj)
        unfold goes_on at this
        simp only [Bool.and_eq_true] at this
        exact this.1.2
    simp only [written, List.filterMap_append] at hwr hw2 ⊢
    rw [hwr, hw2, List.append_nil]
    exact hlen
  · simp only [written, reads, List.filterMap_append] at hwr hw2 hrd hr2 ⊢
    rw [hwr, hw2, hr2, hrd, List.filterMap_map]
    rfl

theorem feeder_writes_events_read_witness :
    sample_state._in = some 0 ∧ sample_state._out = some 1 ∧ ends_at sample_env 3 = true ∧
    ∃ st2 effs, run sample_env 4 sample_state = some (Outcome.returned, st2) ∧
      st2._in = none ∧ st2._out = none ∧ st2.out = sample_state.out ++ effs ∧
      written effs = (List.range 3).filterMap (fun j => event_of (sample_env.input j)) ∧
      (written effs).length = 3 ∧
      written effs = (reads effs).filterMap event_of :=
  ⟨rfl, rfl, by decide,
    (feeder_writes_events_read sample_env 3 0 1 sample_state rfl rfl (by decide)
      (by decide)).1⟩

end Feeder

namespace Timeperiodexclusion

/-- C30, evaluation at the failing inputs: for two lists of one exclusion
with the same name (and for a list compared with itself) the operator applies
`*` to the null `next` pointers; for two lists of two exclusions with the
same names stored at different addresses it returns false; it returns true
for equal names when both `next` pointers are the same address. -/
theorem equal_operator_null_next :
    operator_eq sample_is_equal sample_exclusion sample_exclusion = Result.null_dereference ∧
    operator_eq sample_is_equal sample_list_at_1 sample_list_at_2 = Result.value false ∧
    operator_eq sample_is_equal sample_list_at_1 sample_list_at_1 = Result.value true ∧
    ∀ (is_equal : Option String → Option String → Bool) (obj1 obj2 : timeperiodexclusion),
      operator_eq is_equal obj1 obj2 =
        if is_equal obj1.timeperiod_name obj2.timeperiod_name = true then
          if obj1.next = none ∧ obj2.next = none then Result.null_dereference
          else Result.value (decide (obj1.next = obj2.next))
        else Result.value false := by
  refine ⟨by decide, by decide, by decide, ?_⟩
  intro is_equal obj1 obj2
  unfold operator_eq
  by_cases h1 : is_equal obj1.timeperiod_name obj2.timeperiod_name = true
  · by_cases h2 : obj1.next = none ∧ obj2.next = none
    · simp [h1, h2]
    · by_cases h3 : obj1.next = obj2.next
      · simp [h1, h2, h3]
      · simp [h1, h2, h3]
  · simp [h1]

end Timeperiodexclusion
